import Mathlib

/-! # Parent-Teacher-Student tracking system: role-scoped REST handlers

A shallow embedding of the Express route handlers of the API
(`studentRoutes.js`, `parentRoutes.js`, `teacherRoutes.js`, `authMiddleware.js`)
over an explicit store of rows.  A handler is a pure function from the store, the
decoded identity and the request to a response (and, when it writes, the new store).
An exception thrown inside a handler's `try` block is the `catch` branch's response.

Numbers are exact integers: ids are database integers, and a body number that is
not an integer is outside the model.
-/

namespace PTS

/-! ## JavaScript values and built-ins -/

/-- A JSON body field as a handler reads it after destructuring `req.body`;
an absent field is `undefined`. -/
inductive JsVal where
  | undefined
  | null
  | bool (b : Bool)
  | num (n : Int)
  | str (s : String)
  deriving DecidableEq, Repr

/-- JavaScript truthiness, as used by `!x`, `x && y` and `x || y`. -/
def JsVal.truthy : JsVal → Bool
  | .undefined => false
  | .null => false
  | .bool b => b
  | .num n => n != 0
  | .str s => s != ""

/-- White space and line terminators of ECMAScript, the characters that
`String.prototype.trim` and `parseInt` strip. -/
def isJsWhitespace (c : Char) : Bool :=
  let n := c.toNat
  n == 0x9 || n == 0xA || n == 0xB || n == 0xC || n == 0xD || n == 0x20 ||
  n == 0xA0 || n == 0x1680 || (0x2000 ≤ n && n ≤ 0x200A) || n == 0x2028 ||
  n == 0x2029 || n == 0x202F || n == 0x205F || n == 0x3000 || n == 0xFEFF

/-- The characters of `s.trim()`. -/
def jsTrimChars (cs : List Char) : List Char :=
  ((cs.dropWhile isJsWhitespace).reverse.dropWhile isJsWhitespace).reverse

/-- The method `String.prototype.trim`. -/
def jsTrim (s : String) : String :=
  String.mk (jsTrimChars s.data)

/-- Value of a character as a digit in the given radix (10 or 16), if it is one. -/
def digitValue (radix : Nat) (c : Char) : Option Nat :=
  let n := c.toNat
  if 48 ≤ n ∧ n ≤ 57 then some (n - 48)
  else if radix = 16 ∧ 97 ≤ n ∧ n ≤ 102 then some (n - 87)
  else if radix = 16 ∧ 65 ≤ n ∧ n ≤ 70 then some (n - 55)
  else none

/-- Reads the longest run of digits at the head of `cs`; `acc` is the value read
so far and `seen` tells whether a digit has been read. -/
def readDigits (radix : Nat) : List Char → Nat → Bool → Option Nat
  | [], acc, seen => if seen then some acc else none
  | c :: cs, acc, seen =>
    match digitValue radix c with
    | some d => readDigits radix cs (acc * radix + d) true
    | none => if seen then some acc else none

/-- Reads the digits of `parseInt` after the sign: a `0x`/`0X` head switches to
radix 16. -/
def parseIntUnsigned : List Char → Option Nat
  | '0' :: 'x' :: cs => readDigits 16 cs 0 false
  | '0' :: 'X' :: cs => readDigits 16 cs 0 false
  | cs => readDigits 10 cs 0 false

/-- The global `parseInt(s)` with no radix argument; `none` is `NaN`. -/
def parseInt (s : String) : Option Int :=
  match s.data.dropWhile isJsWhitespace with
  | '-' :: cs => (parseIntUnsigned cs).map (fun n => - (n : Int))
  | '+' :: cs => (parseIntUnsigned cs).map (fun n => (n : Int))
  | cs => (parseIntUnsigned cs).map (fun n => (n : Int))

/-- The conversion `Number(v)` restricted to integer results; `none` stands for
`NaN` and for any result that is not an integer.  The conversion of a string is
the runtime's, taken as the parameter `strToNumber`. -/
def toNumber (strToNumber : String → Option Int) : JsVal → Option Int
  | .undefined => none
  | .null => some 0
  | .bool b => some (if b then 1 else 0)
  | .num n => some n
  | .str s => strToNumber s

/-- Loose inequality `a != v` of a stored integer against a body value: both
sides are compared as numbers, except that `null` and `undefined` are unequal
to every number. -/
def looseNe (strToNumber : String → Option Int) (a : Int) (v : JsVal) : Bool :=
  match v with
  | .undefined => true
  | .null => true
  | _ => toNumber strToNumber v != some a

/-- Strict inequality `t !== v` of a stored string against a body value. -/
def strictNeStr (t : String) (v : JsVal) : Bool :=
  v != .str t

/-- A sample string-to-number conversion for concrete runs: the decimal integer
literals, with surrounding white space, the empty string being 0. -/
def decimalToNumber (s : String) : Option Int :=
  match jsTrimChars s.data with
  | [] => some 0
  | '-' :: cs => if cs.all Char.isDigit then (readDigits 10 cs 0 false).map (fun n => - (n : Int)) else none
  | '+' :: cs => if cs.all Char.isDigit then (readDigits 10 cs 0 false).map (fun n => (n : Int)) else none
  | cs => if cs.all Char.isDigit then (readDigits 10 cs 0 false).map (fun n => (n : Int)) else none

/-! ## Data model -/

/-- Modelled from the spec: the `User` table of the Prisma schema (UserAccount). -/
structure User where
  id : Int
  name : String
  email : String
  password : String
  role : String
  refreshToken : Option String
  deriving DecidableEq, Repr

/-- Modelled from the spec: the `School` table of the Prisma schema. -/
structure School where
  id : Int
  managerId : Option Int
  deriving DecidableEq, Repr

/-- Modelled from the spec: the `Teacher` table of the Prisma schema. -/
structure Teacher where
  id : Int
  name : String
  subject : String
  className : String
  schoolId : Int
  userId : Option Int
  deriving DecidableEq, Repr

/-- Modelled from the spec: the `Parent` table of the Prisma schema. -/
structure Parent where
  id : Int
  name : String
  phone : Option String
  email : Option String
  userId : Option Int
  deriving DecidableEq, Repr

/-- Modelled from the spec: the `Student` table of the Prisma schema. -/
structure Student where
  id : Int
  name : String
  grade : String
  schoolId : Int
  parentId : Option Int
  userId : Option Int
  deriving DecidableEq, Repr

/-- The store behind the Prisma client: one list of rows per table, in the
order in which the database returns them. -/
structure Db where
  users : List User
  schools : List School
  teachers : List Teacher
  parents : List Parent
  students : List Student
  deriving DecidableEq, Repr

/-- The decoded token payload that `authMiddleware` puts in `req.user`. -/
structure Identity where
  id : Int
  role : String
  deriving DecidableEq, Repr

/-- Modelled from the spec: the response envelope written by the helpers of
`utils/responseHelper.js`, with the HTTP status. -/
structure Response (α : Type) where
  status : Nat
  success : Bool
  message : String
  data : Option α
  deriving DecidableEq, Repr

/-- Modelled from the spec: the helper `successResponse(res, data, message)` of
`utils/responseHelper.js`. -/
def successResponse {α : Type} (data : Option α) (message : String) : Response α :=
  { status := 200, success := true, message := message, data := data }

/-- Modelled from the spec: the helper `errorResponse(res, message, code)` of
`utils/responseHelper.js`. -/
def errorResponse {α : Type} (message : String) (code : Nat) : Response α :=
  { status := code, success := false, message := message, data := none }

/-- Modelled from the spec: the status of `errorResponse(res, message)` called
without a code, an Internal error. -/
def defaultErrorCode : Nat := 500

/-! ## Store lookups -/

/-- The lookup `prisma.school.findFirst({ where: { managerId } })`. -/
def schoolOfManager (db : Db) (uid : Int) : Option School :=
  db.schools.find? (fun sc => sc.managerId == some uid)

/-- The lookup `prisma.teacher.findFirst({ where: { userId } })`. -/
def teacherOfUser (db : Db) (uid : Int) : Option Teacher :=
  db.teachers.find? (fun t => t.userId == some uid)

/-- The lookup `prisma.parent.findFirst({ where: { userId } })`. -/
def parentOfUser (db : Db) (uid : Int) : Option Parent :=
  db.parents.find? (fun p => p.userId == some uid)

/-- The lookup `prisma.student.findFirst({ where: { userId } })`. -/
def studentOfUser (db : Db) (uid : Int) : Option Student :=
  db.students.find? (fun s => s.userId == some uid)

/-- The lookup `prisma.school.findUnique({ where: { id } })`. -/
def schoolById (db : Db) (id : Int) : Option School :=
  db.schools.find? (fun sc => sc.id == id)

/-- The lookup `prisma.parent.findUnique({ where: { id } })`. -/
def parentById (db : Db) (id : Int) : Option Parent :=
  db.parents.find? (fun p => p.id == id)

/-- The lookup `prisma.student.findUnique({ where: { id } })`. -/
def studentById (db : Db) (id : Int) : Option Student :=
  db.students.find? (fun s => s.id == id)

/-- The lookup `prisma.teacher.findUnique({ where: { id } })`. -/
def teacherById (db : Db) (id : Int) : Option Teacher :=
  db.teachers.find? (fun t => t.id == id)

/-- The lookup `prisma.user.findUnique({ where: { id } })`. -/
def userById (db : Db) (id : Int) : Option User :=
  db.users.find? (fun u => u.id == id)

/-! ## Students -/

/-- A student row with `include: { parent: true, school: true }`. -/
structure StudentOut where
  row : Student
  parent : Option Parent
  school : Option School
  deriving DecidableEq, Repr

/-- Resolves the `parent` and `school` relations of a student row. -/
def includeStudent (db : Db) (s : Student) : StudentOut :=
  { row := s
    parent := s.parentId.bind (parentById db)
    school := schoolById db s.schoolId }

/-- The rows selected by the `switch (user.role)` of `GET /students`; `none` is
the `default:` branch. -/
def studentsGetRows (db : Db) (user : Identity) : Option (List Student) :=
  if user.role = "admin" then
    some db.students
  else if user.role = "manager" then
    match schoolOfManager db user.id with
    | some managerSchool => some (db.students.filter (fun s => s.schoolId == managerSchool.id))
    | none => some []
  else if user.role = "teacher" then
    match teacherOfUser db user.id with
    | some teacher =>
      some (db.students.filter (fun s => s.schoolId == teacher.schoolId && s.grade == teacher.className))
    | none => some []
  else if user.role = "parent" then
    match parentOfUser db user.id with
    | some parent => some (db.students.filter (fun s => s.parentId == some parent.id))
    | none => some []
  else if user.role = "student" then
    match studentOfUser db user.id with
    | some student => some [student]
    | none => some []
  else
    none

/-- The handler `router.get("/")` of `studentRoutes.js`. -/
def studentsGet (db : Db) (user : Identity) : Response (List StudentOut) :=
  match studentsGetRows db user with
  | some students =>
    successResponse (some (students.map (includeStudent db))) "Öğrenciler başarıyla listelendi"
  | none => errorResponse "Bu işlem için yetkiniz yok" 403

/-- The scope check of the teacher and manager branches shared by the three
`/students/:id` handlers; `some r` is the refusal they return. -/
def studentStaffRefusal {α : Type} (db : Db) (user : Identity) (student : Student) :
    Option (Response α) :=
  let teacherRefusal : Option (Response α) :=
    if user.role = "teacher" then
      match teacherOfUser db user.id with
      | some teacher =>
        if student.schoolId != teacher.schoolId || student.grade != teacher.className then
          some (errorResponse "Bu öğrenci sizin sınıfınıza ait değil" 403)
        else none
      | none => some (errorResponse "Bu öğrenci sizin sınıfınıza ait değil" 403)
    else none
  match teacherRefusal with
  | some r => some r
  | none =>
    if user.role = "manager" then
      match schoolOfManager db user.id with
      | some managerSchool =>
        if student.schoolId != managerSchool.id then
          some (errorResponse "Bu öğrenci sizin okulunuza ait değil" 403)
        else none
      | none => some (errorResponse "Bu öğrenci sizin okulunuza ait değil" 403)
    else none

/-- The scope check of the parent and student branches of `GET /students/:id`. -/
def studentFamilyRefusal {α : Type} (db : Db) (user : Identity) (student : Student) :
    Option (Response α) :=
  let parentRefusal : Option (Response α) :=
    if user.role = "parent" then
      match parentOfUser db user.id with
      | some parent =>
        if student.parentId != some parent.id then
          some (errorResponse "Bu öğrenci sizin çocuğunuz değil" 403)
        else none
      | none => some (errorResponse "Bu öğrenci sizin çocuğunuz değil" 403)
    else none
  match parentRefusal with
  | some r => some r
  | none =>
    if user.role = "student" then
      match studentOfUser db user.id with
      | some self =>
        if self.id != student.id then
          some (errorResponse "Kendi dışınızdaki öğrenciye erişemezsiniz" 403)
        else none
      | none => some (errorResponse "Kendi dışınızdaki öğrenciye erişemezsiniz" 403)
    else none

/-- The handler `router.get("/:id")` of `studentRoutes.js`; `idParam` is
`req.params.id`.  A `NaN` id makes `findUnique` throw. -/
def studentsGetOne (db : Db) (user : Identity) (idParam : String) : Response StudentOut :=
  match parseInt idParam with
  | none => errorResponse "Öğrenci bilgileri alınamadı" defaultErrorCode
  | some studentId =>
    match studentById db studentId with
    | none => errorResponse "Öğrenci bulunamadı" 404
    | some student =>
      match studentStaffRefusal db user student with
      | some r => r
      | none =>
        match studentFamilyRefusal db user student with
        | some r => r
        | none => successResponse (some (includeStudent db student)) "Öğrenci bilgileri getirildi"

/-- The test `["admin", "manager", "teacher"].includes(user.role)`. -/
def isStaffRole (role : String) : Bool :=
  role == "admin" || role == "manager" || role == "teacher"

/-- The body of `POST /students` after destructuring. -/
structure StudentCreateBody where
  name : JsVal
  grade : JsVal
  schoolId : JsVal
  parentId : JsVal
  userId : JsVal
  deriving DecidableEq, Repr

/-- A spread `...(v && { field: v })` for an integer column or a `connect` by id:
`some none` leaves the field out (falsy `v`), `some (some n)` supplies it, and
`none` is the validation error Prisma raises for a value of another type. -/
def optionalInt : JsVal → Option (Option Int)
  | .num n => if n = 0 then some none else some (some n)
  | v => if v.truthy then none else some none

/-- A spread `...(v && { field: v })` for a string column, read as `optionalInt`. -/
def optionalStr : JsVal → Option (Option String)
  | .str s => if s = "" then some none else some (some s)
  | v => if v.truthy then none else some none

/-- A fresh primary key for a table whose keys are `ids`. -/
def freshId (ids : List Int) : Int :=
  ids.foldl max 0 + 1

/-- The write `prisma.student.create` of `POST /students`: `none` when Prisma
throws (an id that is not an integer, a value of the wrong type, or a `connect`
to a row that does not exist). -/
def createStudent (strToNumber : String → Option Int) (db : Db) (name grade : String)
    (body : StudentCreateBody) : Option (Student × Db) :=
  match toNumber strToNumber body.schoolId, optionalInt body.parentId, optionalInt body.userId with
  | some schoolId, some parentId, some userId =>
    if (schoolById db schoolId).isSome
        && (parentId.all fun pid => (parentById db pid).isSome)
        && (userId.all fun uid => (userById db uid).isSome) then
      let row : Student :=
        { id := freshId (db.students.map Student.id)
          name := jsTrim name
          grade := jsTrim grade
          schoolId := schoolId
          parentId := parentId
          userId := userId }
      some (row, { db with students := db.students ++ [row] })
    else none
  | _, _, _ => none

/-- The teacher branch of `POST /students`: whether the teacher scope check
refuses the request.  `grade` is the body's string, untrimmed. -/
def studentsPostTeacherRefused (strToNumber : String → Option Int) (db : Db) (user : Identity)
    (body : StudentCreateBody) (grade : String) : Bool :=
  if user.role = "teacher" then
    match teacherOfUser db user.id with
    | some teacher =>
      looseNe strToNumber teacher.schoolId body.schoolId || teacher.className != grade
    | none => true
  else false

/-- The manager branch of `POST /students`: whether the manager scope check
refuses the request. -/
def studentsPostManagerRefused (strToNumber : String → Option Int) (db : Db) (user : Identity)
    (body : StudentCreateBody) : Bool :=
  if user.role = "manager" then
    match schoolOfManager db user.id with
    | some managerSchool => looseNe strToNumber managerSchool.id body.schoolId
    | none => true
  else false

/-- The part of `POST /students` after the required-field check: the teacher
and manager scope checks and the write.  `name` and `grade` are the body's
strings, untrimmed. -/
def studentsPostChecked (strToNumber : String → Option Int) (db : Db) (user : Identity)
    (body : StudentCreateBody) (name grade : String) : Response StudentOut × Db :=
  if studentsPostTeacherRefused strToNumber db user body grade then
    (errorResponse "Sadece kendi sınıfınıza öğrenci ekleyebilirsiniz" 403, db)
  else if studentsPostManagerRefused strToNumber db user body then
    (errorResponse "Sadece kendi okulunuza öğrenci ekleyebilirsiniz" 403, db)
  else
    match createStudent strToNumber db name grade body with
    | some (newStudent, db1) =>
      (successResponse (some (includeStudent db1 newStudent))
        "Yeni öğrenci başarıyla eklendi", db1)
    | none => (errorResponse "Öğrenci eklenirken hata oluştu" defaultErrorCode, db)

/-- The handler `router.post("/")` of `studentRoutes.js`, with the store it
leaves behind.  In `!name?.trim()` a `null` or absent field is missing, a
string is trimmed, and any other value raises a TypeError (no `trim` method). -/
def studentsPost (strToNumber : String → Option Int) (db : Db) (user : Identity)
    (body : StudentCreateBody) : Response StudentOut × Db :=
  let thrown : Response StudentOut × Db :=
    (errorResponse "Öğrenci eklenirken hata oluştu" defaultErrorCode, db)
  let missing : Response StudentOut × Db :=
    (errorResponse "Zorunlu alanlar eksik (name, grade, schoolId)" 400, db)
  if !isStaffRole user.role then
    (errorResponse "Bu işlem için yetkiniz yok" 403, db)
  else
    match body.name with
    | .undefined => missing
    | .null => missing
    | .str name =>
      if jsTrim name = "" then missing
      else
        match body.grade with
        | .undefined => missing
        | .null => missing
        | .str grade =>
          if jsTrim grade = "" then missing
          else if !body.schoolId.truthy then missing
          else studentsPostChecked strToNumber db user body name grade
        | _ => thrown
    | _ => thrown

/-- The body of `PATCH /students/:id` after destructuring. -/
structure StudentPatchBody where
  name : JsVal
  grade : JsVal
  parentId : JsVal
  userId : JsVal
  deriving DecidableEq, Repr

/-- The write `prisma.student.update` of `PATCH /students/:id` on the row
`student` found under `studentId`: only the supplied (truthy) fields are set.
It gives the updated row and the new store, and `none` when Prisma throws (a
value of the wrong type, or a parent or user that does not exist). -/
def updateStudent (db : Db) (studentId : Int) (student : Student) (body : StudentPatchBody) :
    Option (Student × Db) :=
  match optionalStr body.name, optionalStr body.grade,
      optionalInt body.parentId, optionalInt body.userId with
  | some name, some grade, some parentId, some userId =>
    if (parentId.all fun pid => (parentById db pid).isSome)
        && (userId.all fun uid => (userById db uid).isSome) then
      let patch (s : Student) : Student :=
        { s with
          name := name.getD s.name
          grade := grade.getD s.grade
          parentId := if parentId.isSome then parentId else s.parentId
          userId := if userId.isSome then userId else s.userId }
      some (patch student,
        { db with students := db.students.map fun s => if s.id = studentId then patch s else s })
    else none
  | _, _, _, _ => none

/-- The handler `router.patch("/:id")` of `studentRoutes.js`, with the store it
leaves behind. -/
def studentsPatch (db : Db) (user : Identity) (idParam : String) (body : StudentPatchBody) :
    Response StudentOut × Db :=
  let thrown : Response StudentOut × Db :=
    (errorResponse "Öğrenci güncellenirken hata oluştu" defaultErrorCode, db)
  if !isStaffRole user.role then
    (errorResponse "Bu işlem için yetkiniz yok" 403, db)
  else
    match parseInt idParam with
    | none => thrown
    | some studentId =>
      match studentById db studentId with
      | none => (errorResponse "Öğrenci bulunamadı" 404, db)
      | some student =>
        match studentStaffRefusal db user student with
        | some r => (r, db)
        | none =>
          match updateStudent db studentId student body with
          | none => thrown
          | some (updated, db1) =>
            (successResponse (some (includeStudent db1 updated)) "Öğrenci bilgileri güncellendi", db1)

/-- The handler `router.delete("/:id")` of `studentRoutes.js`, with the store it
leaves behind. -/
def studentsDelete (db : Db) (user : Identity) (idParam : String) : Response Unit × Db :=
  if !isStaffRole user.role then
    (errorResponse "Bu işlem için yetkiniz yok" 403, db)
  else
    match parseInt idParam with
    | none => (errorResponse "Öğrenci silinirken hata oluştu" defaultErrorCode, db)
    | some studentId =>
      match studentById db studentId with
      | none => (errorResponse "Öğrenci bulunamadı" 404, db)
      | some student =>
        match studentStaffRefusal db user student with
        | some r => (r, db)
        | none =>
          (successResponse none "Öğrenci başarıyla silindi",
            { db with students := db.students.filter fun s => s.id != studentId })

/-! ## Parents -/

/-- A parent row with `include: { students: true, user: true }`. -/
structure ParentOut where
  row : Parent
  students : List Student
  user : Option User
  deriving DecidableEq, Repr

/-- The `students` relation of a parent: the student rows whose `parentId` is
the parent's id. -/
def studentsOfParent (db : Db) (p : Parent) : List Student :=
  db.students.filter (fun s => s.parentId == some p.id)

/-- Resolves the `students` and `user` relations of a parent row. -/
def includeParent (db : Db) (p : Parent) : ParentOut :=
  { row := p
    students := studentsOfParent db p
    user := p.userId.bind (userById db) }

/-- The rows selected by the role chain of `GET /parents`; `none` is the final
`else` branch. -/
def parentsGetRows (db : Db) (user : Identity) : Option (List Parent) :=
  if user.role = "admin" then
    some db.parents
  else if user.role = "manager" then
    match schoolOfManager db user.id with
    | some school =>
      some (db.parents.filter fun p =>
        (studentsOfParent db p).any fun s => s.schoolId == school.id)
    | none => some []
  else if user.role = "teacher" then
    match teacherOfUser db user.id with
    | some teacher =>
      some (db.parents.filter fun p =>
        (studentsOfParent db p).any fun s =>
          s.grade == teacher.className && s.schoolId == teacher.schoolId)
    | none => some []
  else if user.role = "parent" then
    match parentOfUser db user.id with
    | some parent => some [parent]
    | none => some []
  else
    none

/-- The handler `router.get("/")` of `parentRoutes.js`. -/
def parentsGet (db : Db) (user : Identity) : Response (List ParentOut) :=
  match parentsGetRows db user with
  | some parents =>
    successResponse (some (parents.map (includeParent db))) "Veliler başarıyla listelendi"
  | none => errorResponse "Bu işlem için yetkiniz yok" 403

/-- A student row with `include: { school: true }`. -/
structure StudentWithSchool where
  row : Student
  school : Option School
  deriving DecidableEq, Repr

/-- A parent row with `include: { students: { include: { school: true } }, user: true }`. -/
structure ParentDetail where
  row : Parent
  students : List StudentWithSchool
  user : Option User
  deriving DecidableEq, Repr

/-- Resolves the relations of a parent row for `GET /parents/:id`. -/
def includeParentDetail (db : Db) (p : Parent) : ParentDetail :=
  { row := p
    students := (studentsOfParent db p).map fun s =>
      { row := s, school := schoolById db s.schoolId }
    user := p.userId.bind (userById db) }

/-- The handler `router.get("/:id")` of `parentRoutes.js`.  In the `some`
callbacks `managerSchool?.id` and `teacher?.schoolId` are `undefined` when the
lookup found nothing, and then no student matches. -/
def parentsGetOne (db : Db) (user : Identity) (idParam : String) : Response ParentDetail :=
  match parseInt idParam with
  | none => errorResponse "Veli bilgileri alınamadı" defaultErrorCode
  | some parentId =>
    match parentById db parentId with
    | none => errorResponse "Veli bulunamadı" 404
    | some parent =>
      let detail := includeParentDetail db parent
      let managerAccess : Bool :=
        detail.students.any fun s =>
          match schoolOfManager db user.id with
          | some managerSchool => s.row.schoolId == managerSchool.id
          | none => false
      let teacherAccess : Bool :=
        detail.students.any fun s =>
          match teacherOfUser db user.id with
          | some teacher => s.row.schoolId == teacher.schoolId && s.row.grade == teacher.className
          | none => false
      if user.role = "manager" ∧ managerAccess = false then
        errorResponse "Bu veli sizin okulunuza ait değil" 403
      else if user.role = "teacher" ∧ teacherAccess = false then
        errorResponse "Bu veli sizin sınıfınıza ait değil" 403
      else if user.role = "parent" ∧ parent.userId ≠ some user.id then
        errorResponse "Kendi dışınızdaki velilere erişemezsiniz" 403
      else
        successResponse (some detail) "Veli bilgileri getirildi"

/-! ## Teachers -/

/-- A teacher row with `include: { school: true, user: true }`. -/
structure TeacherOut where
  row : Teacher
  school : Option School
  user : Option User
  deriving DecidableEq, Repr

/-- Resolves the `school` and `user` relations of a teacher row. -/
def includeTeacher (db : Db) (t : Teacher) : TeacherOut :=
  { row := t
    school := schoolById db t.schoolId
    user := t.userId.bind (userById db) }

/-- The rows selected by the role chain of `GET /teachers`; `none` is the final
`else` branch. -/
def teachersGetRows (db : Db) (user : Identity) : Option (List Teacher) :=
  if user.role = "admin" then
    some db.teachers
  else if user.role = "manager" then
    match schoolOfManager db user.id with
    | some school => some (db.teachers.filter fun t => t.schoolId == school.id)
    | none => some []
  else if user.role = "teacher" then
    some (db.teachers.filter fun t => t.userId == some user.id)
  else
    none

/-- The handler `router.get("/")` of `teacherRoutes.js`. -/
def teachersGet (db : Db) (user : Identity) : Response (List TeacherOut) :=
  match teachersGetRows db user with
  | some teachers =>
    successResponse (some (teachers.map (includeTeacher db))) "Öğretmenler başarıyla listelendi"
  | none => errorResponse "Bu işlem için yetkiniz yok" 403

/-- The handler `router.get("/:id")` of `teacherRoutes.js`. -/
def teachersGetOne (db : Db) (user : Identity) (idParam : String) : Response TeacherOut :=
  match parseInt idParam with
  | none => errorResponse "Öğretmen bilgileri alınamadı" defaultErrorCode
  | some teacherId =>
    match teacherById db teacherId with
    | none => errorResponse "Öğretmen bulunamadı" 404
    | some teacher =>
      let managerRefused : Bool :=
        if user.role = "manager" then
          match schoolOfManager db user.id with
          | some managerSchool => teacher.schoolId != managerSchool.id
          | none => true
        else false
      if managerRefused then
        errorResponse "Bu öğretmen sizin okulunuza ait değil" 403
      else if user.role = "teacher" ∧ teacher.userId ≠ some user.id then
        errorResponse "Kendi dışınızdaki öğretmen bilgilerine erişemezsiniz" 403
      else
        successResponse (some (includeTeacher db teacher)) "Öğretmen bilgileri getirildi"

/-! ## Teachers: writes -/

/-- The body of `POST /teachers` after destructuring. -/
structure TeacherCreateBody where
  name : JsVal
  subject : JsVal
  schoolId : JsVal
  className : JsVal
  userId : JsVal
  deriving DecidableEq, Repr

/-- The test `user.role !== "admin" && user.role !== "manager"` of the teacher
and parent write handlers. -/
def notAdminOrManager (role : String) : Bool :=
  role != "admin" && role != "manager"

/-- The manager branch of `POST /teachers`: whether the manager scope check
refuses the request. -/
def teachersPostManagerRefused (strToNumber : String → Option Int) (db : Db) (user : Identity)
    (body : TeacherCreateBody) : Bool :=
  if user.role = "manager" then
    match schoolOfManager db user.id with
    | some managerSchool => looseNe strToNumber managerSchool.id body.schoolId
    | none => true
  else false

/-- The write `prisma.teacher.create` of `POST /teachers`: `none` when Prisma
throws (a column value that is not a string, an id that is not an integer, or a
`connect` to a row that does not exist).  In this data model `className` is a
required string column, so a body without it makes the create throw. -/
def createTeacher (strToNumber : String → Option Int) (db : Db) (body : TeacherCreateBody) :
    Option (Teacher × Db) :=
  match body.name, body.subject, body.className,
      toNumber strToNumber body.schoolId, optionalInt body.userId with
  | .str name, .str subject, .str className, some schoolId, some userId =>
    if (schoolById db schoolId).isSome && (userId.all fun uid => (userById db uid).isSome) then
      let row : Teacher :=
        { id := freshId (db.teachers.map Teacher.id)
          name := name
          subject := subject
          className := className
          schoolId := schoolId
          userId := userId }
      some (row, { db with teachers := db.teachers ++ [row] })
    else none
  | _, _, _, _, _ => none

/-- The handler `router.post("/")` of `teacherRoutes.js`, with the store it
leaves behind. -/
def teachersPost (strToNumber : String → Option Int) (db : Db) (user : Identity)
    (body : TeacherCreateBody) : Response TeacherOut × Db :=
  if notAdminOrManager user.role then
    (errorResponse "Bu işlem için yetkiniz yok" 403, db)
  else if !body.name.truthy || !body.subject.truthy || !body.schoolId.truthy then
    (errorResponse "Zorunlu alanlar eksik (name, subject, schoolId)" 400, db)
  else if teachersPostManagerRefused strToNumber db user body then
    (errorResponse "Sadece kendi okulunuza öğretmen ekleyebilirsiniz" 403, db)
  else
    match createTeacher strToNumber db body with
    | some (newTeacher, db1) =>
      (successResponse (some (includeTeacher db1 newTeacher)) "Öğretmen başarıyla eklendi", db1)
    | none => (errorResponse "Öğretmen eklenirken hata oluştu" defaultErrorCode, db)

/-- The manager scope check shared by `PATCH` and `DELETE /teachers/:id`:
`!managerSchool || teacher.schoolId !== managerSchool.id`. -/
def teacherManagerRefused (db : Db) (user : Identity) (teacher : Teacher) : Bool :=
  if user.role = "manager" then
    match schoolOfManager db user.id with
    | some managerSchool => teacher.schoolId != managerSchool.id
    | none => true
  else false

/-- The body of `PATCH /teachers/:id` after destructuring. -/
structure TeacherPatchBody where
  name : JsVal
  subject : JsVal
  className : JsVal
  userId : JsVal
  deriving DecidableEq, Repr

/-- The write `prisma.teacher.update` of `PATCH /teachers/:id` on the row
`teacher` found under `teacherId`: only the supplied (truthy) fields are set.
It gives the updated row and the new store, and `none` when Prisma throws (a
value of the wrong type, or a user that does not exist). -/
def updateTeacher (db : Db) (teacherId : Int) (teacher : Teacher) (body : TeacherPatchBody) :
    Option (Teacher × Db) :=
  match optionalStr body.name, optionalStr body.subject,
      optionalStr body.className, optionalInt body.userId with
  | some name, some subject, some className, some userId =>
    if userId.all fun uid => (userById db uid).isSome then
      let patch (t : Teacher) : Teacher :=
        { t with
          name := name.getD t.name
          subject := subject.getD t.subject
          className := className.getD t.className
          userId := if userId.isSome then userId else t.userId }
      some (patch teacher,
        { db with teachers := db.teachers.map fun t => if t.id = teacherId then patch t else t })
    else none
  | _, _, _, _ => none

/-- The handler `router.patch("/:id")` of `teacherRoutes.js`, with the store it
leaves behind. -/
def teachersPatch (db : Db) (user : Identity) (idParam : String) (body : TeacherPatchBody) :
    Response TeacherOut × Db :=
  let thrown : Response TeacherOut × Db :=
    (errorResponse "Öğretmen güncellenirken hata oluştu" defaultErrorCode, db)
  if notAdminOrManager user.role then
    (errorResponse "Bu işlem için yetkiniz yok" 403, db)
  else
    match parseInt idParam with
    | none => thrown
    | some teacherId =>
      match teacherById db teacherId with
      | none => (errorResponse "Öğretmen bulunamadı" 404, db)
      | some teacher =>
        if teacherManagerRefused db user teacher then
          (errorResponse "Bu öğretmen sizin okulunuza ait değil" 403, db)
        else
          match updateTeacher db teacherId teacher body with
          | none => thrown
          | some (updatedTeacher, db1) =>
            (successResponse (some (includeTeacher db1 updatedTeacher))
              "Öğretmen bilgileri güncellendi", db1)

/-- The handler `router.delete("/:id")` of `teacherRoutes.js`, with the store it
leaves behind. -/
def teachersDelete (db : Db) (user : Identity) (idParam : String) : Response Unit × Db :=
  if notAdminOrManager user.role then
    (errorResponse "Bu işlem için yetkiniz yok" 403, db)
  else
    match parseInt idParam with
    | none => (errorResponse "Öğretmen silinirken hata oluştu" defaultErrorCode, db)
    | some teacherId =>
      match teacherById db teacherId with
      | none => (errorResponse "Öğretmen bulunamadı" 404, db)
      | some teacher =>
        if teacherManagerRefused db user teacher then
          (errorResponse "Bu öğretmen sizin okulunuza ait değil" 403, db)
        else
          (successResponse none "Öğretmen başarıyla silindi",
            { db with teachers := db.teachers.filter fun t => t.id != teacherId })

/-! ## Parents: writes -/

/-- The body of `POST /parents` and of `PATCH /parents/:id` after destructuring;
`studentIds` is an array or absent. -/
structure ParentBody where
  name : JsVal
  phone : JsVal
  email : JsVal
  userId : JsVal
  studentIds : Option (List JsVal)
  deriving DecidableEq, Repr

/-- Whether `studentIds?.length` is truthy: the array is there and not empty. -/
def hasStudentIds (body : ParentBody) : Bool :=
  match body.studentIds with
  | some (_ :: _) => true
  | _ => false

/-- The ids of `studentIds` as Prisma accepts them in `in`, `connect` and `set`:
`none` is the validation error raised when an element is not an integer. -/
def studentIdList : List JsVal → Option (List Int)
  | [] => some []
  | .num n :: vs => (studentIdList vs).map (fun ns => n :: ns)
  | _ :: _ => none

/-- The manager branch of `POST /parents`, entered when `studentIds` is not
empty: `none` when the `findMany` throws, else whether `invalidStudents` is not
empty.  Without an own school the filter is `not: undefined`, which Prisma reads
as no condition on `schoolId`. -/
def parentsPostManagerRefused (db : Db) (user : Identity) (body : ParentBody) : Option Bool :=
  if user.role = "manager" ∧ hasStudentIds body = true then
    match studentIdList (body.studentIds.getD []) with
    | none => none
    | some ids =>
      let invalidStudents := db.students.filter fun s =>
        ids.contains s.id &&
          (match schoolOfManager db user.id with
            | some managerSchool => s.schoolId != managerSchool.id
            | none => true)
      some (!invalidStudents.isEmpty)
  else some false

/-- A value `v || null` for a nullable string column: `none` is the validation
error Prisma raises for a truthy value that is not a string. -/
def orNullStr : JsVal → Option (Option String)
  | .str t => if t = "" then some none else some (some t)
  | v => if v.truthy then none else some none

/-- The ids to link in a parent write: `some none` when `studentIds?.length` is
falsy, `some (some ids)` for a non-empty array of ids of stored students, and
`none` when Prisma throws (an element that is not an integer, or an id of no
stored student). -/
def linkedStudentIds (db : Db) (body : ParentBody) : Option (Option (List Int)) :=
  if hasStudentIds body then
    match studentIdList (body.studentIds.getD []) with
    | some ids => if ids.all fun i => (studentById db i).isSome then some (some ids) else none
    | none => none
  else some none

/-- The write `prisma.parent.create` of `POST /parents`: the new row and the
new store, in which the connected students point to the new parent; `none` when
Prisma throws. -/
def createParent (db : Db) (body : ParentBody) : Option (Parent × Db) :=
  match body.name, orNullStr body.phone, orNullStr body.email, optionalInt body.userId,
      linkedStudentIds db body with
  | .str name, some phone, some email, some userId, some links =>
    if userId.all fun uid => (userById db uid).isSome then
      let row : Parent :=
        { id := freshId (db.parents.map Parent.id)
          name := name
          phone := phone
          email := email
          userId := userId }
      some (row,
        { db with
          parents := db.parents ++ [row]
          students := db.students.map fun s =>
            if (links.getD []).contains s.id then { s with parentId := some row.id } else s })
    else none
  | _, _, _, _, _ => none

/-- The handler `router.post("/")` of `parentRoutes.js`, with the store it
leaves behind. -/
def parentsPost (db : Db) (user : Identity) (body : ParentBody) : Response ParentOut × Db :=
  let thrown : Response ParentOut × Db :=
    (errorResponse "Veli eklenirken hata oluştu" defaultErrorCode, db)
  if notAdminOrManager user.role then
    (errorResponse "Bu işlem için yetkiniz yok" 403, db)
  else if !body.name.truthy then
    (errorResponse "Veli ismi gerekli" 400, db)
  else
    match parentsPostManagerRefused db user body with
    | none => thrown
    | some true => (errorResponse "Bu öğrenciler sizin okulunuza ait değil" 403, db)
    | some false =>
      match createParent db body with
      | some (newParent, db1) =>
        (successResponse (some (includeParent db1 newParent)) "Yeni veli başarıyla eklendi", db1)
      | none => thrown

/-- The manager scope check shared by `PATCH` and `DELETE /parents/:id`: whether
no student of the parent is in the manager's own school. -/
def parentManagerRefused (db : Db) (user : Identity) (parent : Parent) : Bool :=
  if user.role = "manager" then
    !(studentsOfParent db parent).any fun s =>
      match schoolOfManager db user.id with
      | some managerSchool => s.schoolId == managerSchool.id
      | none => false
  else false

/-- The write `prisma.parent.update` of `PATCH /parents/:id` on the row `parent`
found under `parentId`: only the supplied (truthy) fields are set, and a
non-empty `studentIds` replaces the parent's students (`set`).  It gives the
updated row and the new store, and `none` when Prisma throws. -/
def updateParent (db : Db) (parentId : Int) (parent : Parent) (body : ParentBody) :
    Option (Parent × Db) :=
  match optionalStr body.name, optionalStr body.phone, optionalStr body.email,
      optionalInt body.userId, linkedStudentIds db body with
  | some name, some phone, some email, some userId, some links =>
    if userId.all fun uid => (userById db uid).isSome then
      let patch (p : Parent) : Parent :=
        { p with
          name := name.getD p.name
          phone := if phone.isSome then phone else p.phone
          email := if email.isSome then email else p.email
          userId := if userId.isSome then userId else p.userId }
      let relink (s : Student) : Student :=
        match links with
        | some ids =>
          if ids.contains s.id then { s with parentId := some parentId }
          else if s.parentId = some parentId then { s with parentId := none }
          else s
        | none => s
      some (patch parent,
        { db with
          parents := db.parents.map fun p => if p.id = parentId then patch p else p
          students := db.students.map relink })
    else none
  | _, _, _, _, _ => none

/-- The handler `router.patch("/:id")` of `parentRoutes.js`, with the store it
leaves behind. -/
def parentsPatch (db : Db) (user : Identity) (idParam : String) (body : ParentBody) :
    Response ParentOut × Db :=
  let thrown : Response ParentOut × Db :=
    (errorResponse "Veli güncellenirken hata oluştu" defaultErrorCode, db)
  if notAdminOrManager user.role then
    (errorResponse "Bu işlem için yetkiniz yok" 403, db)
  else
    match parseInt idParam with
    | none => thrown
    | some parentId =>
      match parentById db parentId with
      | none => (errorResponse "Veli bulunamadı" 404, db)
      | some existing =>
        if parentManagerRefused db user existing then
          (errorResponse "Bu veli sizin okulunuza ait değil" 403, db)
        else
          match updateParent db parentId existing body with
          | none => thrown
          | some (updated, db1) =>
            (successResponse (some (includeParent db1 updated)) "Veli bilgileri güncellendi", db1)

/-- The handler `router.delete("/:id")` of `parentRoutes.js`, with the store it
leaves behind.  The students of the deleted parent keep their rows and lose the
link (the referential action of an optional relation). -/
def parentsDelete (db : Db) (user : Identity) (idParam : String) : Response Unit × Db :=
  if notAdminOrManager user.role then
    (errorResponse "Bu işlem için yetkiniz yok" 403, db)
  else
    match parseInt idParam with
    | none => (errorResponse "Veli silinirken hata oluştu" defaultErrorCode, db)
    | some parentId =>
      match parentById db parentId with
      | none => (errorResponse "Veli bulunamadı" 404, db)
      | some parent =>
        if parentManagerRefused db user parent then
          (errorResponse "Bu veli sizin okulunuza ait değil" 403, db)
        else
          (successResponse none "Veli başarıyla silindi",
            { db with
              parents := db.parents.filter fun p => p.id != parentId
              students := db.students.map fun s =>
                if s.parentId = some parentId then { s with parentId := none } else s })

/-! ## Auth gate -/

/-- The pieces of `cs` between occurrences of `sep`, as `String.prototype.split`
gives them for a one-character separator. -/
def splitOnChar (sep : Char) : List Char → List (List Char)
  | [] => [[]]
  | c :: cs =>
    if c = sep then [] :: splitOnChar sep cs
    else
      match splitOnChar sep cs with
      | [] => [[c]]
      | w :: ws => (c :: w) :: ws

/-- The call `s.split(" ")`. -/
def jsSplitSpace (s : String) : List String :=
  (splitOnChar ' ' s.data).map String.mk

/-- The call `s.startsWith("Bearer ")`. -/
def startsWithBearer (s : String) : Bool :=
  "Bearer ".data.isPrefixOf s.data

/-- What `authMiddleware` does with a request: it answers it, or calls `next()`
with `req.user` set. -/
inductive AuthResult where
  | respond (r : Response Unit)
  | next (user : Identity)
  deriving DecidableEq, Repr

/-- The middleware `authMiddleware` of `authMiddleware.js`.  `authorization` is
`req.headers.authorization`, `jwtSecret` is `process.env.JWT_SECRET`, and
`verify token secret` is `jwt.verify` of the jsonwebtoken library: the decoded
payload, or `none` when it throws. -/
def authMiddleware (verify : String → Option String → Option Identity)
    (jwtSecret : Option String) (authorization : Option String) : AuthResult :=
  match authorization with
  | none => .respond (errorResponse "Yetkilendirme gerekli" 401)
  | some authHeader =>
    if authHeader = "" ∨ startsWithBearer authHeader = false then
      .respond (errorResponse "Yetkilendirme gerekli" 401)
    else
      match (jsSplitSpace authHeader)[1]? with
      | none => .respond (errorResponse "Geçersiz veya süresi dolmuş token" 403)
      | some token =>
        match verify token jwtSecret with
        | some decoded => .next decoded
        | none => .respond (errorResponse "Geçersiz veya süresi dolmuş token" 403)

/-! ## Configuration and libraries of the auth routes -/

/-- The environment variables that `config.js` and `authMiddleware.js` read from
`process.env`; `none` is an unset variable. -/
structure ProcessEnv where
  JWT_SECRET : Option String
  JWT_REFRESH_SECRET : Option String
  deriving DecidableEq, Repr

/-- The expression `v || fallback` on an environment variable: an unset or
empty variable gives the fallback. -/
def orFallback (v : Option String) (fallback : String) : String :=
  match v with
  | some s => if s = "" then fallback else s
  | none => fallback

/-- The JWT part of the object `CONFIG` of `config.js`. -/
structure Config where
  jwtSecret : String
  jwtRefreshSecret : String
  deriving DecidableEq, Repr

/-- The object `CONFIG` of `config.js`, as built from the environment. -/
def CONFIG (env : ProcessEnv) : Config :=
  { jwtSecret := orFallback env.JWT_SECRET "fallback_secret_key"
    jwtRefreshSecret := orFallback env.JWT_REFRESH_SECRET "fallback_refresh_key" }

/-- The claims the routes put in a token: `id`, and `role` in an access token. -/
structure JwtPayload where
  id : Int
  role : Option String
  deriving DecidableEq, Repr

/-- The jsonwebtoken library, an external collaborator.  `sign payload secret ttl now`
is `jwt.sign(payload, secret, { expiresIn })` called when the clock reads `now`
seconds, `ttl` being `expiresIn` in seconds; `verify token secret now` is
`jwt.verify(token, secret)` at time `now`: the decoded payload, or `none` when
it throws. -/
structure JwtLib where
  sign : JwtPayload → String → Nat → Nat → String
  verify : String → Option String → Nat → Option JwtPayload

/-- The bcryptjs library, an external collaborator.  The function `hash` is
`bcrypt.hash(password, 10)` as it comes out in the request at hand, and
`compare password hash` is `bcrypt.compare`. -/
structure BcryptLib where
  hash : String → String
  compare : String → String → Bool

/-- The option `expiresIn: "2h"` in seconds. -/
def accessTtl : Nat := 7200

/-- The option `expiresIn: "7d"` in seconds. -/
def refreshTtl : Nat := 604800

/-- Failures of the store that do not depend on the request: `find` makes the
handler's lookup throw and `write` makes its create or update throw. -/
structure Faults where
  find : Bool
  write : Bool
  deriving DecidableEq, Repr

/-- The store answers every call. -/
def noFaults : Faults :=
  { find := false, write := false }

/-- The verification that `authMiddleware` runs when the clock reads `now`; a
payload without `role` leaves `req.user.role` undefined, which is read here as
the empty string, equal to no role name. -/
def verifyIdentity (jwt : JwtLib) (now : Nat) (token : String) (secret : Option String) :
    Option Identity :=
  (jwt.verify token secret now).map fun p => { id := p.id, role := p.role.getD "" }

/-- The write `prisma.user.update({ where: { id }, data })`, `f` setting the
fields of `data`. -/
def updateUser (db : Db) (id : Int) (f : User → User) : Db :=
  { db with users := db.users.map fun u => if u.id = id then f u else u }

/-! ## Auth routes -/

/-- The access token of the routes: `jwt.sign` of `id` and `role` under
`CONFIG.jwtSecret`, expiring in two hours. -/
def issueAccessToken (jwt : JwtLib) (env : ProcessEnv) (user : User) (now : Nat) : String :=
  jwt.sign { id := user.id, role := some user.role } (CONFIG env).jwtSecret accessTtl now

/-- The refresh token of the routes: `jwt.sign` of `id` under
`CONFIG.jwtRefreshSecret`, expiring in seven days. -/
def issueRefreshToken (jwt : JwtLib) (env : ProcessEnv) (user : User) (now : Nat) : String :=
  jwt.sign { id := user.id, role := none } (CONFIG env).jwtRefreshSecret refreshTtl now

/-- The body of `POST /register` after destructuring. -/
structure RegisterBody where
  name : JsVal
  email : JsVal
  password : JsVal
  role : JsVal
  deriving DecidableEq, Repr

/-- The value `role || "user"` as the `role` column takes it: `none` is the
validation error Prisma raises for a truthy value that is not a string. -/
def roleOrUser : JsVal → Option String
  | .str r => if r = "" then some "user" else some r
  | v => if v.truthy then none else some "user"

/-- The `try` block of `POST /register`; `none` when an exception is thrown: a
store failure, an `email` or `name` that is not a string (Prisma validation), or
a `password` that is not a string (bcryptjs). -/
def registerTry (bcrypt : BcryptLib) (faults : Faults) (db : Db) (body : RegisterBody) :
    Option (Response User × Db) :=
  match body.email with
  | .str email =>
    if faults.find then none
    else
      match db.users.find? (fun u => u.email == email) with
      | some _ => some (errorResponse "Bu e-posta adresiyle kayıtlı bir kullanıcı var" 400, db)
      | none =>
        match body.password, body.name, roleOrUser body.role with
        | .str password, .str name, some role =>
          if faults.write then none
          else
            let newUser : User :=
              { id := freshId (db.users.map User.id)
                name := name
                email := email
                password := bcrypt.hash password
                role := role
                refreshToken := none }
            some (successResponse (some newUser) "Kullanıcı başarıyla oluşturuldu",
              { db with users := db.users ++ [newUser] })
        | _, _, _ => none
  | _ => none

/-- The handler `router.post("/register")` of `authRoutes.js`, with the store it
leaves behind. -/
def register (bcrypt : BcryptLib) (faults : Faults) (db : Db) (body : RegisterBody) :
    Response User × Db :=
  match registerTry bcrypt faults db body with
  | some r => r
  | none => (errorResponse "Kullanıcı oluşturulurken bir hata oluştu" 500, db)

/-- The body of `POST /login` after destructuring. -/
structure LoginBody where
  email : JsVal
  password : JsVal
  deriving DecidableEq, Repr

/-- The data of a successful `POST /login`; `user` is the row as it was read,
before the new refresh token was stored. -/
structure LoginData where
  accessToken : String
  refreshToken : String
  user : User
  deriving DecidableEq, Repr

/-- The `try` block of `POST /login`; `none` when an exception is thrown. -/
def loginTry (jwt : JwtLib) (bcrypt : BcryptLib) (env : ProcessEnv) (faults : Faults)
    (now : Nat) (db : Db) (body : LoginBody) : Option (Response LoginData × Db) :=
  match body.email with
  | .str email =>
    if faults.find then none
    else
      match db.users.find? (fun u => u.email == email) with
      | none => some (errorResponse "Kullanıcı bulunamadı" 404, db)
      | some user =>
        match body.password with
        | .str password =>
          if bcrypt.compare password user.password = false then
            some (errorResponse "Geçersiz şifre" 401, db)
          else if (CONFIG env).jwtSecret = "" ∨ (CONFIG env).jwtRefreshSecret = "" then
            some (errorResponse "Sunucu yapılandırma hatası: JWT_SECRET eksik" 500, db)
          else
            let accessToken := issueAccessToken jwt env user now
            let refreshToken := issueRefreshToken jwt env user now
            if faults.write then none
            else
              some (successResponse
                  (some { accessToken := accessToken, refreshToken := refreshToken, user := user })
                  "Giriş başarılı",
                updateUser db user.id fun u => { u with refreshToken := some refreshToken })
        | _ => none
  | _ => none

/-- The handler `router.post("/login")` of `authRoutes.js`, with the store it
leaves behind. -/
def login (jwt : JwtLib) (bcrypt : BcryptLib) (env : ProcessEnv) (faults : Faults)
    (now : Nat) (db : Db) (body : LoginBody) : Response LoginData × Db :=
  match loginTry jwt bcrypt env faults now db body with
  | some r => r
  | none => (errorResponse "Giriş yapılırken bir hata oluştu" 500, db)

/-- The columns that `GET /me` selects; the `createdAt` column is not part of
this model. -/
structure MeData where
  id : Int
  name : String
  email : String
  role : String
  deriving DecidableEq, Repr

/-- The `try` block of `GET /me`; `none` when an exception is thrown. -/
def meTry (faults : Faults) (db : Db) (user : Identity) : Option (Response MeData) :=
  if faults.find then none
  else
    match userById db user.id with
    | none => some (errorResponse "Kullanıcı bulunamadı" 404)
    | some u =>
      some (successResponse (some { id := u.id, name := u.name, email := u.email, role := u.role })
        "Kullanıcı bilgisi getirildi")

/-- The handler `router.get("/me")` of `authRoutes.js`. -/
def me (faults : Faults) (db : Db) (user : Identity) : Response MeData :=
  match meTry faults db user with
  | some r => r
  | none => errorResponse "Kullanıcı bilgisi alınamadı" 500

/-- The data of a successful `POST /refresh`. -/
structure RefreshData where
  accessToken : String
  refreshToken : String
  deriving DecidableEq, Repr

/-- The `try` block of `POST /refresh` for a truthy `refreshToken`; `none` when
an exception is thrown: the token is not a string or does not verify, or the
store fails. -/
def refreshTry (jwt : JwtLib) (env : ProcessEnv) (faults : Faults) (now : Nat) (db : Db)
    (refreshToken : JsVal) : Option (Response RefreshData × Db) :=
  match refreshToken with
  | .str token =>
    match jwt.verify token (some (CONFIG env).jwtRefreshSecret) now with
    | none => none
    | some decoded =>
      if faults.find then none
      else
        match userById db decoded.id with
        | none => some (errorResponse "Geçersiz veya eşleşmeyen refresh token" 403, db)
        | some user =>
          if user.refreshToken ≠ some token then
            some (errorResponse "Geçersiz veya eşleşmeyen refresh token" 403, db)
          else
            let newAccessToken := issueAccessToken jwt env user now
            let newRefreshToken := issueRefreshToken jwt env user now
            if faults.write then none
            else
              some (successResponse
                  (some { accessToken := newAccessToken, refreshToken := newRefreshToken })
                  "Token başarıyla yenilendi",
                updateUser db user.id fun u => { u with refreshToken := some newRefreshToken })
  | _ => none

/-- The handler `router.post("/refresh")` of `authRoutes.js`, with the store it
leaves behind; `refreshToken` is the field of the body. -/
def refresh (jwt : JwtLib) (env : ProcessEnv) (faults : Faults) (now : Nat) (db : Db)
    (refreshToken : JsVal) : Response RefreshData × Db :=
  if !refreshToken.truthy then
    (errorResponse "Refresh token gerekli" 400, db)
  else
    match refreshTry jwt env faults now db refreshToken with
    | some r => r
    | none => (errorResponse "Refresh token geçersiz veya süresi dolmuş" 403, db)

/-- The body of `POST /change-password` after destructuring. -/
structure ChangePasswordBody where
  oldPassword : JsVal
  newPassword : JsVal
  deriving DecidableEq, Repr

/-- The `try` block of `POST /change-password`; `none` when an exception is
thrown: the store fails, or a password is not a string (bcryptjs). -/
def changePasswordTry (bcrypt : BcryptLib) (faults : Faults) (db : Db) (user : Identity)
    (body : ChangePasswordBody) : Option (Response Unit × Db) :=
  if !body.oldPassword.truthy || !body.newPassword.truthy then
    some (errorResponse "Eski ve yeni şifre gereklidir" 400, db)
  else if faults.find then none
  else
    match userById db user.id with
    | none => some (errorResponse "Kullanıcı bulunamadı" 404, db)
    | some u =>
      match body.oldPassword with
      | .str oldPassword =>
        if bcrypt.compare oldPassword u.password = false then
          some (errorResponse "Eski şifre hatalı" 401, db)
        else
          match body.newPassword with
          | .str newPassword =>
            if faults.write then none
            else
              some (successResponse none "Şifre başarıyla değiştirildi",
                updateUser db u.id fun row => { row with password := bcrypt.hash newPassword })
          | _ => none
      | _ => none

/-- The handler `router.post("/change-password")` of `authRoutes.js`, with the
store it leaves behind. -/
def changePassword (bcrypt : BcryptLib) (faults : Faults) (db : Db) (user : Identity)
    (body : ChangePasswordBody) : Response Unit × Db :=
  match changePasswordTry bcrypt faults db user body with
  | some r => r
  | none => (errorResponse "Şifre değiştirilirken bir hata oluştu" 500, db)

/-- The `try` block of `POST /logout`; `none` when an exception is thrown: the
store fails, or there is no row to update. -/
def logoutTry (faults : Faults) (db : Db) (user : Identity) : Option (Response Unit × Db) :=
  if faults.write then none
  else
    match userById db user.id with
    | none => none
    | some _ =>
      some (successResponse none "Çıkış başarılı",
        updateUser db user.id fun u => { u with refreshToken := none })

/-- The handler `router.post("/logout")` of `authRoutes.js`, with the store it
leaves behind. -/
def logout (faults : Faults) (db : Db) (user : Identity) : Response Unit × Db :=
  match logoutTry faults db user with
  | some r => r
  | none => (errorResponse "Çıkış yapılırken hata oluştu" 500, db)

/-! ## Specification vocabulary -/

/-- The five roles of the rule table. -/
def fiveRoles : List String :=
  ["admin", "manager", "teacher", "parent", "student"]

/-- The list `rows` holds exactly the members of `all` that satisfy `P`: in the
stored order, each as often as it is stored, and nothing else. -/
def ExactlyThose {α : Type} [DecidableEq α] (rows all : List α) (P : α → Prop) : Prop :=
  rows.Sublist all ∧ (∀ x, x ∈ rows ↔ x ∈ all ∧ P x) ∧ ∀ x ∈ rows, rows.count x = all.count x

/-- The row `x` is the first stored row of `rows` that satisfies `P`: it is stored,
it satisfies `P`, and no row stored before it does.  When at most one row
satisfies `P`, it is that row.  This is the row an identity owns in a table: the
School whose `managerId` is the identity, or the Teacher, Parent or Student whose
`userId` is the identity. -/
def FirstWhere {α : Type} (rows : List α) (P : α → Prop) (x : α) : Prop :=
  ∃ front back, rows = front ++ x :: back ∧ P x ∧ ∀ y ∈ front, ¬ P y

/-- A small store for concrete runs: two schools, two teachers of class 5A in
school 1, one parent with one child, and students graded "5A", "5a" and "5B". -/
def sampleDb : Db :=
  { users := [⟨40, "Can", "can@example.org", "hash", "student", none⟩]
    schools := [⟨1, some 10⟩, ⟨2, some 11⟩]
    teachers := [⟨1, "Ayşe", "math", "5A", 1, some 20⟩, ⟨2, "Ali", "art", "5A", 1, some 21⟩]
    parents := [⟨1, "Veli", none, none, some 30⟩, ⟨2, "Deniz", none, none, some 31⟩]
    students :=
      [⟨1, "Can", "5A", 1, some 1, some 40⟩, ⟨2, "Ece", "5a", 1, none, none⟩,
       ⟨3, "Efe", "5B", 1, none, none⟩, ⟨4, "Su", "5A", 2, none, none⟩] }

/-- The roles that may write students: `["admin", "manager", "teacher"]`. -/
def staffRoles : List String :=
  ["admin", "manager", "teacher"]

/-- The single-item authority of the rule table over a student `s`, read off the
stored columns: any record for admin; for a manager, `s.schoolId` is the id of the
School with `managerId` = identity; for a teacher, `s.schoolId` and `s.grade` are
the `schoolId` and `className` of the Teacher with `userId` = identity; for a
parent, `s.parentId` is the id of the Parent with `userId` = identity; for a
student, `s` has the id of the Student with `userId` = identity.  An identity
that owns no such row has no authority. -/
def StudentInAuthority (db : Db) (user : Identity) (s : Student) : Prop :=
  user.role = "admin"
  ∨ (user.role = "manager" ∧
      ∃ sc, FirstWhere db.schools (fun x => x.managerId = some user.id) sc ∧ s.schoolId = sc.id)
  ∨ (user.role = "teacher" ∧
      ∃ t, FirstWhere db.teachers (fun x => x.userId = some user.id) t
        ∧ s.schoolId = t.schoolId ∧ s.grade = t.className)
  ∨ (user.role = "parent" ∧
      ∃ p, FirstWhere db.parents (fun x => x.userId = some user.id) p ∧ s.parentId = some p.id)
  ∨ (user.role = "student" ∧
      ∃ self, FirstWhere db.students (fun x => x.userId = some user.id) self ∧ self.id = s.id)

/-- A store in which the teacher's stored class name carries a leading blank, as
`POST /teachers` stores `className` exactly as it was sent. -/
def paddedClassDb : Db :=
  { users := []
    schools := [⟨1, some 10⟩]
    teachers := [⟨1, "Ayşe", "math", " 5A", 1, some 20⟩]
    parents := []
    students := [] }

/-- The status of the response when `authMiddleware` answers the request itself;
`none` when it calls `next()`. -/
def AuthResult.status : AuthResult → Option Nat
  | .respond r => some r.status
  | .next _ => none

/-- The header shape of the contract: `Bearer ` followed by exactly one token, a
non-empty run of characters with no space. -/
def ExactBearerShape (s : String) : Prop :=
  startsWithBearer s = true ∧ s.data.drop 7 ≠ [] ∧ ' ' ∉ s.data.drop 7

/-- A sample `jwt.verify` for concrete runs: it accepts the token "abc" under
the secret "k", with the payload of an admin, and throws on anything else. -/
def sampleVerify (token : String) (secret : Option String) : Option Identity :=
  if token = "abc" ∧ secret = some "k" then some ⟨1, "admin"⟩ else none

/-- A request to one of the auth routes that write the store, with the clock
reading and the store failures under which it is served. -/
inductive AuthEvent where
  | register (faults : Faults) (body : RegisterBody)
  | login (faults : Faults) (now : Nat) (body : LoginBody)
  | refresh (faults : Faults) (now : Nat) (refreshToken : JsVal)
  | changePassword (faults : Faults) (user : Identity) (body : ChangePasswordBody)
  | logout (faults : Faults) (user : Identity)

/-- The store after one auth request has been served. -/
def authStep (jwt : JwtLib) (bcrypt : BcryptLib) (env : ProcessEnv) (db : Db) : AuthEvent → Db
  | .register faults body => (register bcrypt faults db body).2
  | .login faults now body => (login jwt bcrypt env faults now db body).2
  | .refresh faults now refreshToken => (refresh jwt env faults now db refreshToken).2
  | .changePassword faults user body => (changePassword bcrypt faults db user body).2
  | .logout faults user => (logout faults db user).2

/-- The store after a sequence of auth requests has been served, one after the
other. -/
def authRun (jwt : JwtLib) (bcrypt : BcryptLib) (env : ProcessEnv) (db : Db) :
    List AuthEvent → Db
  | [] => db
  | ev :: evs => authRun jwt bcrypt env (authStep jwt bcrypt env db ev) evs

/-- No request of the sequence, served from `db` on, is a login that succeeds
for the user with id `uid`. -/
def NoLoginOf (jwt : JwtLib) (bcrypt : BcryptLib) (env : ProcessEnv) (uid : Int) :
    Db → List AuthEvent → Prop
  | _, [] => True
  | db, ev :: evs =>
    (match ev with
      | .login faults now body =>
        ∀ d, (login jwt bcrypt env faults now db body).1.data = some d → d.user.id ≠ uid
      | _ => True)
    ∧ NoLoginOf jwt bcrypt env uid (authStep jwt bcrypt env db ev) evs

/-- The clock readings at which the refresh requests of a sequence are served. -/
def refreshTimes : List AuthEvent → List Nat
  | [] => []
  | .refresh _ now _ :: evs => now :: refreshTimes evs
  | _ :: evs => refreshTimes evs

/-- A sample token library for concrete runs.  A token is the secret, the kind
("a" followed by the role for an access token, "r" for a refresh token), the id
and the expiry time, joined by dots: like an HS256 token it is determined by the
payload, the secret and the second of issue. -/
def toySign (payload : JwtPayload) (secret : String) (ttl now : Nat) : String :=
  String.intercalate "."
    [secret, (match payload.role with | some r => "a" ++ r | none => "r"),
      toString payload.id, toString (now + ttl)]

/-- Verification of a sample token: it throws without a secret, on a token of
another shape or secret, and on an expired token. -/
def toyVerify (token : String) (secret : Option String) (now : Nat) : Option JwtPayload :=
  match secret with
  | none => none
  | some s =>
    if s = "" then none
    else
      match splitOnChar '.' token.data with
      | [sec, kind, id, exp] =>
        if String.mk sec = s then
          match parseInt (String.mk id), parseInt (String.mk exp) with
          | some i, some e =>
            if (now : Int) < e then
              some { id := i
                     role := match kind with
                       | 'a' :: r => some (String.mk r)
                       | _ => none }
            else none
          | _, _ => none
        else none
      | _ => none

/-- The sample token library. -/
def toyJwt : JwtLib :=
  { sign := toySign, verify := toyVerify }

/-- A sample password library for concrete runs: the hash is the password behind
a marker. -/
def toyBcrypt : BcryptLib :=
  { hash := fun password => "hash:" ++ password
    compare := fun password hash => hash == "hash:" ++ password }

/-- An environment in which neither secret is set. -/
def unsetEnv : ProcessEnv :=
  { JWT_SECRET := none, JWT_REFRESH_SECRET := none }

/-- An environment in which both secrets are set. -/
def setEnv : ProcessEnv :=
  { JWT_SECRET := some "s1", JWT_REFRESH_SECRET := some "s2" }

/-- A store with one registered account, whose password is "pw". -/
def accountDb : Db :=
  { users := [⟨1, "Ada", "ada@example.org", "hash:pw", "admin", none⟩]
    schools := []
    teachers := []
    parents := []
    students := [] }

/-- Every stored row of the user with id `uid` has a refresh token satisfying
`Q`. -/
def StoredTokenIs (Q : Option String → Prop) (uid : Int) (db : Db) : Prop :=
  ∀ u ∈ db.users, u.id = uid → Q u.refreshToken

/-- The status of a role, validation, not-found or scope error. -/
def Rejected (status : Nat) : Prop :=
  status = 400 ∨ status = 403 ∨ status = 404

/-- The PATCH rule for a string field: a falsy body value leaves the stored
value, a truthy one is a string and becomes the stored value. -/
def PatchedStr (v : JsVal) (old new : String) : Prop :=
  (v.truthy = false → new = old) ∧ (v.truthy = true → v = .str new)

/-- The PATCH rule for an optional integer field: a falsy body value leaves the
stored value, a truthy one is an integer and becomes the stored value. -/
def PatchedInt (v : JsVal) (old new : Option Int) : Prop :=
  (v.truthy = false → new = old) ∧ (v.truthy = true → ∃ n, v = .num n ∧ new = some n)

/-- A store in which parent 1 has one child in school 1, class "5A", and one
child in school 2, class "7C"; manager 10 owns school 1 and the user of teacher 1
teaches class "5A" in school 1. -/
def mixedFamilyDb : Db :=
  { users := []
    schools := [⟨1, some 10⟩, ⟨2, some 11⟩]
    teachers := [⟨1, "Ayşe", "math", "5A", 1, some 20⟩]
    parents := [⟨1, "Veli", none, none, some 30⟩]
    students :=
      [⟨1, "Can", "5A", 1, some 1, none⟩, ⟨5, "Naz", "7C", 2, some 1, none⟩] }

/-! ## Theorems -/

theorem exactlyThose_filter {α : Type} [DecidableEq α] (all : List α) (q : α → Bool)
    (P : α → Prop) (h : ∀ x, q x = true ↔ P x) : ExactlyThose (all.filter q) all P := by
  refine ⟨List.filter_sublist all, ?_, ?_⟩
  · intro x
    simp [List.mem_filter, h]
  · intro x hx
    rw [List.count_filter (List.mem_filter.mp hx).2]

theorem exactlyThose_nil {α : Type} [DecidableEq α] (all : List α) (P : α → Prop)
    (h : ∀ x, ¬ P x) : ExactlyThose [] all P := by
  refine ⟨List.nil_sublist all, ?_, ?_⟩
  · intro x
    simp [h]
  · intro x hx
    simp at hx

/-! ### The row an identity owns -/

theorem firstWhere_of_find (α : Type) (rows : List α) (q : α → Bool) (P : α → Prop)
    (hq : ∀ x, q x = true ↔ P x) (x : α) :
    rows.find? q = some x ↔ FirstWhere rows P x := by
  rw [List.find?_eq_some]
  constructor
  · rintro ⟨hx, front, back, hrows, hfront⟩
    refine ⟨front, back, hrows, (hq x).mp hx, ?_⟩
    intro y hy hPy
    have := hfront y hy
    rw [(hq y).mpr hPy] at this
    cases this
  · rintro ⟨front, back, hrows, hx, hfront⟩
    refine ⟨(hq x).mpr hx, front, back, hrows, ?_⟩
    intro y hy
    cases hqy : q y with
    | false => rfl
    | true => exact absurd ((hq y).mp hqy) (hfront y hy)

theorem find_eq_none_of_forall (α : Type) (rows : List α) (q : α → Bool) (P : α → Prop)
    (hq : ∀ x, q x = true ↔ P x) :
    rows.find? q = none ↔ ∀ x ∈ rows, ¬ P x := by
  rw [List.find?_eq_none]
  constructor
  · intro h x hx hP
    exact h x hx ((hq x).mpr hP)
  · intro h x hx hqx
    exact h x hx ((hq x).mp hqx)

theorem firstWhere_unique (α : Type) (rows : List α) (P : α → Prop) (x y : α)
    (hx : FirstWhere rows P x) (hy : FirstWhere rows P y) : x = y := by
  classical
  have h1 := (firstWhere_of_find α rows (fun z => decide (P z)) P (by simp) x).mpr hx
  have h2 := (firstWhere_of_find α rows (fun z => decide (P z)) P (by simp) y).mpr hy
  rw [h1] at h2
  exact Option.some.inj h2

/-- The lookup `schoolOfManager` finds the first stored School whose `managerId`
is the identity. -/
theorem schoolOfManager_eq_some (db : Db) (uid : Int) (sc : School) :
    schoolOfManager db uid = some sc
      ↔ FirstWhere db.schools (fun x => x.managerId = some uid) sc :=
  firstWhere_of_find School db.schools _ _ (by simp) sc

/-- The lookup `schoolOfManager` finds nothing exactly when no stored School has
the identity as `managerId`. -/
theorem schoolOfManager_eq_none_iff (db : Db) (uid : Int) :
    schoolOfManager db uid = none ↔ ∀ sc ∈ db.schools, sc.managerId ≠ some uid :=
  find_eq_none_of_forall School db.schools _ _ (by simp)

/-- The lookup `teacherOfUser` finds the first stored Teacher whose `userId` is
the identity. -/
theorem teacherOfUser_eq_some (db : Db) (uid : Int) (t : Teacher) :
    teacherOfUser db uid = some t
      ↔ FirstWhere db.teachers (fun x => x.userId = some uid) t :=
  firstWhere_of_find Teacher db.teachers _ _ (by simp) t

/-- The lookup `teacherOfUser` finds nothing exactly when no stored Teacher has
the identity as `userId`. -/
theorem teacherOfUser_eq_none_iff (db : Db) (uid : Int) :
    teacherOfUser db uid = none ↔ ∀ t ∈ db.teachers, t.userId ≠ some uid :=
  find_eq_none_of_forall Teacher db.teachers _ _ (by simp)

/-- The lookup `parentOfUser` finds the first stored Parent whose `userId` is
the identity. -/
theorem parentOfUser_eq_some (db : Db) (uid : Int) (p : Parent) :
    parentOfUser db uid = some p
      ↔ FirstWhere db.parents (fun x => x.userId = some uid) p :=
  firstWhere_of_find Parent db.parents _ _ (by simp) p

/-- The lookup `parentOfUser` finds nothing exactly when no stored Parent has the
identity as `userId`. -/
theorem parentOfUser_eq_none_iff (db : Db) (uid : Int) :
    parentOfUser db uid = none ↔ ∀ p ∈ db.parents, p.userId ≠ some uid :=
  find_eq_none_of_forall Parent db.parents _ _ (by simp)

/-- The lookup `studentOfUser` finds the first stored Student whose `userId` is
the identity. -/
theorem studentOfUser_eq_some (db : Db) (uid : Int) (s : Student) :
    studentOfUser db uid = some s
      ↔ FirstWhere db.students (fun x => x.userId = some uid) s :=
  firstWhere_of_find Student db.students _ _ (by simp) s

/-- The lookup `studentOfUser` finds nothing exactly when no stored Student has
the identity as `userId`. -/
theorem studentOfUser_eq_none_iff (db : Db) (uid : Int) :
    studentOfUser db uid = none ↔ ∀ s ∈ db.students, s.userId ≠ some uid :=
  find_eq_none_of_forall Student db.students _ _ (by simp)

theorem exactlyThose_congr {α : Type} [DecidableEq α] (rows all : List α) (P Q : α → Prop)
    (hPQ : ∀ x, P x ↔ Q x) (h : ExactlyThose rows all P) : ExactlyThose rows all Q := by
  obtain ⟨h1, h2, h3⟩ := h
  exact ⟨h1, fun x => by rw [h2 x, hPQ x], h3⟩

theorem exactlyThose_false {α : Type} [DecidableEq α] (rows all : List α) (P : α → Prop)
    (hP : ∀ x, ¬ P x) (h : ExactlyThose rows all P) : rows = [] := by
  rw [List.eq_nil_iff_forall_not_mem]
  intro x hx
  exact hP x ((h.2.1 x).mp hx).2

/-- The rows of `GET /students` in terms of the handler's lookups. -/
theorem studentsGet_rows_by_lookup (db : Db) (user : Identity)
    (hrole : user.role ∈ fiveRoles) :
    ∃ rows : List Student,
      studentsGet db user =
        successResponse (some (rows.map (includeStudent db))) "Öğrenciler başarıyla listelendi"
      ∧ rows.Sublist db.students
      ∧ (user.role = "admin" → rows = db.students)
      ∧ (user.role = "manager" → ExactlyThose rows db.students fun s =>
          ∃ sc, schoolOfManager db user.id = some sc ∧ s.schoolId = sc.id)
      ∧ (user.role = "teacher" → ExactlyThose rows db.students fun s =>
          ∃ t, teacherOfUser db user.id = some t ∧ s.schoolId = t.schoolId ∧ s.grade = t.className)
      ∧ (user.role = "parent" → ExactlyThose rows db.students fun s =>
          ∃ p, parentOfUser db user.id = some p ∧ s.parentId = some p.id)
      ∧ (user.role = "student" → rows = (studentOfUser db user.id).toList)
      ∧ (user.role = "teacher" → ∀ t, teacherOfUser db user.id = some t → t.className = "5A" →
          ∀ s ∈ rows, s.grade ≠ "5a") := by
  simp only [fiveRoles, List.mem_cons, List.mem_singleton, List.not_mem_nil, or_false] at hrole
  rcases hrole with h | h | h | h | h
  · refine ⟨db.students, by simp [studentsGet, studentsGetRows, h], List.Sublist.refl _, ?_⟩
    rw [h]
    exact ⟨fun _ => rfl, fun e => absurd e (by decide), fun e => absurd e (by decide),
      fun e => absurd e (by decide), fun e => absurd e (by decide), fun e => absurd e (by decide)⟩
  · cases hs : schoolOfManager db user.id with
    | none =>
      refine ⟨[], by simp [studentsGet, studentsGetRows, h, hs], List.nil_sublist _, ?_⟩
      rw [h]
      exact ⟨fun e => absurd e (by decide), fun _ => exactlyThose_nil _ _ (by simp),
        fun e => absurd e (by decide), fun e => absurd e (by decide),
        fun e => absurd e (by decide), fun e => absurd e (by decide)⟩
    | some sc =>
      refine ⟨db.students.filter (fun s => s.schoolId == sc.id),
        by simp [studentsGet, studentsGetRows, h, hs], List.filter_sublist _, ?_⟩
      rw [h]
      exact ⟨fun e => absurd e (by decide), fun _ => exactlyThose_filter _ _ _ (by simp),
        fun e => absurd e (by decide), fun e => absurd e (by decide),
        fun e => absurd e (by decide), fun e => absurd e (by decide)⟩
  · cases hs : teacherOfUser db user.id with
    | none =>
      refine ⟨[], by simp [studentsGet, studentsGetRows, h, hs], List.nil_sublist _, ?_⟩
      rw [h]
      exact ⟨fun e => absurd e (by decide), fun e => absurd e (by decide),
        fun _ => exactlyThose_nil _ _ (by simp), fun e => absurd e (by decide),
        fun e => absurd e (by decide), fun _ t ht => by simp at ht⟩
    | some t =>
      refine ⟨db.students.filter (fun s => s.schoolId == t.schoolId && s.grade == t.className),
        by simp [studentsGet, studentsGetRows, h, hs], List.filter_sublist _, ?_⟩
      rw [h]
      refine ⟨fun e => absurd e (by decide), fun e => absurd e (by decide),
        fun _ => exactlyThose_filter _ _ _ (by simp), fun e => absurd e (by decide),
        fun e => absurd e (by decide), ?_⟩
      intro _ t1 ht1 hcls s hsmem hgrade
      have hg : s.grade = t.className := by
        have := (List.mem_filter.mp hsmem).2
        simp at this
        exact this.2
      simp only [Option.some.injEq] at ht1
      subst ht1
      rw [hgrade, hcls] at hg
      exact absurd hg (by decide)
  · cases hs : parentOfUser db user.id with
    | none =>
      refine ⟨[], by simp [studentsGet, studentsGetRows, h, hs], List.nil_sublist _, ?_⟩
      rw [h]
      exact ⟨fun e => absurd e (by decide), fun e => absurd e (by decide),
        fun e => absurd e (by decide), fun _ => exactlyThose_nil _ _ (by simp),
        fun e => absurd e (by decide), fun e => absurd e (by decide)⟩
    | some p =>
      refine ⟨db.students.filter (fun s => s.parentId == some p.id),
        by simp [studentsGet, studentsGetRows, h, hs], List.filter_sublist _, ?_⟩
      rw [h]
      exact ⟨fun e => absurd e (by decide), fun e => absurd e (by decide),
        fun e => absurd e (by decide), fun _ => exactlyThose_filter _ _ _ (by simp),
        fun e => absurd e (by decide), fun e => absurd e (by decide)⟩
  · cases hs : studentOfUser db user.id with
    | none =>
      refine ⟨[], by simp [studentsGet, studentsGetRows, h, hs], List.nil_sublist _, ?_⟩
      rw [h]
      exact ⟨fun e => absurd e (by decide), fun e => absurd e (by decide),
        fun e => absurd e (by decide), fun e => absurd e (by decide),
        fun _ => rfl, fun e => absurd e (by decide)⟩
    | some st =>
      have hmem : st ∈ db.students := List.mem_of_find?_eq_some hs
      refine ⟨[st], by simp [studentsGet, studentsGetRows, h, hs],
        List.singleton_sublist.mpr hmem, ?_⟩
      rw [h]
      exact ⟨fun e => absurd e (by decide), fun e => absurd e (by decide),
        fun e => absurd e (by decide), fun e => absurd e (by decide),
        fun _ => rfl, fun e => absurd e (by decide)⟩

/-- C1: for an identity with one of the five roles, `GET /students` succeeds and
its rows are: every student for admin; for a manager exactly the students whose
`schoolId` is the id of the School with `managerId` = identity; for a teacher
exactly the students whose `schoolId` and (case-sensitively) `grade` are the
`schoolId` and `className` of the Teacher with `userId` = identity; for a parent
exactly the students whose `parentId` is the id of the Parent with `userId` =
identity; for a student the one Student row with `userId` = identity; and no row
when the identity owns no such School, Teacher, Parent or Student.  A teacher of
class "5A" receives no student graded "5a". -/
theorem studentsGet_scope (db : Db) (user : Identity) (hrole : user.role ∈ fiveRoles) :
    ∃ rows : List Student,
      studentsGet db user =
        successResponse (some (rows.map (includeStudent db))) "Öğrenciler başarıyla listelendi"
      ∧ rows.Sublist db.students
      ∧ (user.role = "admin" → rows = db.students)
      ∧ (user.role = "manager" →
          (∀ sc, FirstWhere db.schools (fun x => x.managerId = some user.id) sc →
            ExactlyThose rows db.students fun s => s.schoolId = sc.id)
          ∧ ((∀ sc ∈ db.schools, sc.managerId ≠ some user.id) → rows = []))
      ∧ (user.role = "teacher" →
          (∀ t, FirstWhere db.teachers (fun x => x.userId = some user.id) t →
            ExactlyThose rows db.students fun s =>
              s.schoolId = t.schoolId ∧ s.grade = t.className)
          ∧ ((∀ t ∈ db.teachers, t.userId ≠ some user.id) → rows = []))
      ∧ (user.role = "parent" →
          (∀ p, FirstWhere db.parents (fun x => x.userId = some user.id) p →
            ExactlyThose rows db.students fun s => s.parentId = some p.id)
          ∧ ((∀ p ∈ db.parents, p.userId ≠ some user.id) → rows = []))
      ∧ (user.role = "student" →
          (∀ s, FirstWhere db.students (fun x => x.userId = some user.id) s → rows = [s])
          ∧ ((∀ s ∈ db.students, s.userId ≠ some user.id) → rows = []))
      ∧ (user.role = "teacher" →
          ∀ t, FirstWhere db.teachers (fun x => x.userId = some user.id) t →
            t.className = "5A" → ∀ s ∈ rows, s.grade ≠ "5a") := by
  obtain ⟨rows, hresp, hsub, hadmin, hmanager, hteacher, hparent, hstudent, hcase⟩ :=
    studentsGet_rows_by_lookup db user hrole
  refine ⟨rows, hresp, hsub, hadmin, ?_, ?_, ?_, ?_, ?_⟩
  · intro hr
    constructor
    · intro sc hsc
      have hlook := (schoolOfManager_eq_some db user.id sc).mpr hsc
      refine exactlyThose_congr _ _ _ _ ?_ (hmanager hr)
      intro s
      simp [hlook]
    · intro hnone
      have hlook := (schoolOfManager_eq_none_iff db user.id).mpr hnone
      exact exactlyThose_false _ _ _ (by simp [hlook]) (hmanager hr)
  · intro hr
    constructor
    · intro t ht
      have hlook := (teacherOfUser_eq_some db user.id t).mpr ht
      refine exactlyThose_congr _ _ _ _ ?_ (hteacher hr)
      intro s
      simp [hlook]
    · intro hnone
      have hlook := (teacherOfUser_eq_none_iff db user.id).mpr hnone
      exact exactlyThose_false _ _ _ (by simp [hlook]) (hteacher hr)
  · intro hr
    constructor
    · intro p hp
      have hlook := (parentOfUser_eq_some db user.id p).mpr hp
      refine exactlyThose_congr _ _ _ _ ?_ (hparent hr)
      intro s
      simp [hlook]
    · intro hnone
      have hlook := (parentOfUser_eq_none_iff db user.id).mpr hnone
      exact exactlyThose_false _ _ _ (by simp [hlook]) (hparent hr)
  · intro hr
    constructor
    · intro s hs
      have hlook := (studentOfUser_eq_some db user.id s).mpr hs
      rw [hstudent hr, hlook]
      rfl
    · intro hnone
      have hlook := (studentOfUser_eq_none_iff db user.id).mpr hnone
      rw [hstudent hr, hlook]
      rfl
  · intro hr t ht
    exact hcase hr t ((teacherOfUser_eq_some db user.id t).mpr ht)

/-- C1, concrete runs: Teacher 1, of class "5A" in school 1, is the Teacher row
of user 20; listing the students, that user receives Student 1 (school 1, "5A"),
not Student 2 (school 1, "5a") nor Student 4 (school 2, "5A"), and no student
graded "5a".  Student 1 is the Student row of user 40, who receives that row
alone.  Evaluated, the student's and the teacher's responses hold Student 1 alone, the response to
user 10, who manages School 1, holds the three students of school 1, and the
response to user 30, whose Parent row is Parent 1, holds the one child of
Parent 1. -/
theorem studentsGet_scope_witness :
    (∃ rows : List Student,
      (studentsGet sampleDb ⟨20, "teacher"⟩).data = some (rows.map (includeStudent sampleDb))
      ∧ (⟨1, "Can", "5A", 1, some 1, some 40⟩ : Student) ∈ rows
      ∧ (⟨2, "Ece", "5a", 1, none, none⟩ : Student) ∉ rows
      ∧ (⟨4, "Su", "5A", 2, none, none⟩ : Student) ∉ rows
      ∧ ∀ s ∈ rows, s.grade ≠ "5a")
    ∧ (∃ rows : List Student,
      (studentsGet sampleDb ⟨40, "student"⟩).data = some (rows.map (includeStudent sampleDb))
      ∧ rows = [⟨1, "Can", "5A", 1, some 1, some 40⟩])
    ∧ (studentsGet sampleDb ⟨40, "student"⟩).data
        = some ([⟨1, "Can", "5A", 1, some 1, some 40⟩].map (includeStudent sampleDb))
    ∧ (studentsGet sampleDb ⟨20, "teacher"⟩).data
        = some ([⟨1, "Can", "5A", 1, some 1, some 40⟩].map (includeStudent sampleDb))
    ∧ (studentsGet sampleDb ⟨10, "manager"⟩).data
        = some ([⟨1, "Can", "5A", 1, some 1, some 40⟩, ⟨2, "Ece", "5a", 1, none, none⟩,
            ⟨3, "Efe", "5B", 1, none, none⟩].map (includeStudent sampleDb))
    ∧ (studentsGet sampleDb ⟨30, "parent"⟩).data
        = some ([⟨1, "Can", "5A", 1, some 1, some 40⟩].map (includeStudent sampleDb)) := by
  have hfirst : FirstWhere sampleDb.teachers (fun x => x.userId = some 20)
      ⟨1, "Ayşe", "math", "5A", 1, some 20⟩ :=
    ⟨[], [⟨2, "Ali", "art", "5A", 1, some 21⟩], rfl, rfl, by simp⟩
  have hself : FirstWhere sampleDb.students (fun x => x.userId = some 40)
      ⟨1, "Can", "5A", 1, some 1, some 40⟩ :=
    ⟨[], [⟨2, "Ece", "5a", 1, none, none⟩, ⟨3, "Efe", "5B", 1, none, none⟩,
      ⟨4, "Su", "5A", 2, none, none⟩], rfl, rfl, by simp⟩
  refine ⟨?_, ?_, by decide, by decide, by decide, by decide⟩
  · obtain ⟨rows, hresp, -, -, -, hteacher, -, -, hcase⟩ :=
      studentsGet_scope sampleDb ⟨20, "teacher"⟩ (by decide)
    obtain ⟨-, hiff, -⟩ := (hteacher rfl).1 _ hfirst
    refine ⟨rows, by rw [hresp]; rfl, ?_, ?_, ?_, hcase rfl _ hfirst rfl⟩
    · exact (hiff _).mpr ⟨by decide, by decide⟩
    · intro h
      exact absurd ((hiff _).mp h).2 (by decide)
    · intro h
      exact absurd ((hiff _).mp h).2 (by decide)
  · obtain ⟨rows, hresp, -, -, -, -, -, hstudent, -⟩ :=
      studentsGet_scope sampleDb ⟨40, "student"⟩ (by decide)
    exact ⟨rows, by rw [hresp]; rfl, (hstudent rfl).1 _ hself⟩

theorem studentStaffRefusal_status {α : Type} (db : Db) (user : Identity) (s : Student)
    (r : Response α) (h : studentStaffRefusal db user s = some r) : r.status = 403 := by
  unfold studentStaffRefusal at h
  simp only at h
  split at h
  · cases h
    rename_i heq
    split at heq
    · split at heq
      · split at heq
        · cases heq; rfl
        · cases heq
      · cases heq; rfl
    · cases heq
  · split at h
    · split at h
      · split at h
        · cases h; rfl
        · cases h
      · cases h; rfl
    · cases h

theorem studentStaffRefusal_none_iff {α : Type} (db : Db) (user : Identity) (s : Student) :
    studentStaffRefusal (α := α) db user s = none ↔
      (user.role = "teacher" →
        ∃ t, teacherOfUser db user.id = some t ∧ s.schoolId = t.schoolId ∧ s.grade = t.className)
      ∧ (user.role = "manager" →
        ∃ sc, schoolOfManager db user.id = some sc ∧ s.schoolId = sc.id) := by
  unfold studentStaffRefusal
  by_cases ht : user.role = "teacher"
  · have hm : ¬ ("teacher" = "manager") := by decide
    cases hT : teacherOfUser db user.id with
    | none => simp [ht, hT]
    | some t =>
      by_cases hc : s.schoolId = t.schoolId ∧ s.grade = t.className
      · simp [ht, hT, hc.1, hc.2]
      · have : ¬ (s.schoolId = t.schoolId) ∨ ¬ (s.grade = t.className) := by tauto
        rcases this with h1 | h1 <;> simp [ht, hT, h1]
  · by_cases hm : user.role = "manager"
    · cases hS : schoolOfManager db user.id with
      | none => simp [ht, hm, hS]
      | some sc =>
        by_cases hc : s.schoolId = sc.id
        · simp [hm, hS, hc]
        · simp [hm, hS, hc]
    · simp [ht, hm]

theorem studentFamilyRefusal_status {α : Type} (db : Db) (user : Identity) (s : Student)
    (r : Response α) (h : studentFamilyRefusal db user s = some r) : r.status = 403 := by
  unfold studentFamilyRefusal at h
  simp only at h
  split at h
  · cases h
    rename_i heq
    split at heq
    · split at heq
      · split at heq
        · cases heq; rfl
        · cases heq
      · cases heq; rfl
    · cases heq
  · split at h
    · split at h
      · split at h
        · cases h; rfl
        · cases h
      · cases h; rfl
    · cases h

theorem studentFamilyRefusal_none_iff {α : Type} (db : Db) (user : Identity) (s : Student) :
    studentFamilyRefusal (α := α) db user s = none ↔
      (user.role = "parent" →
        ∃ p, parentOfUser db user.id = some p ∧ s.parentId = some p.id)
      ∧ (user.role = "student" →
        ∃ self, studentOfUser db user.id = some self ∧ self.id = s.id) := by
  unfold studentFamilyRefusal
  by_cases hp : user.role = "parent"
  · cases hP : parentOfUser db user.id with
    | none => simp [hp, hP]
    | some p =>
      by_cases hc : s.parentId = some p.id
      · simp [hp, hP, hc]
      · simp [hp, hP, hc]
  · by_cases hst : user.role = "student"
    · cases hS : studentOfUser db user.id with
      | none => simp [hp, hst, hS]
      | some self =>
        by_cases hc : self.id = s.id
        · simp [hst, hS, hc]
        · simp [hst, hS, hc]
    · simp [hp, hst]

theorem studentInAuthority_iff_five (α : Type) (db : Db) (user : Identity) (s : Student)
    (hrole : user.role ∈ fiveRoles) :
    StudentInAuthority db user s ↔
      (studentStaffRefusal (α := α) db user s = none
        ∧ studentFamilyRefusal (α := α) db user s = none) := by
  rw [studentStaffRefusal_none_iff, studentFamilyRefusal_none_iff]
  simp only [schoolOfManager_eq_some, teacherOfUser_eq_some, parentOfUser_eq_some,
    studentOfUser_eq_some]
  unfold StudentInAuthority
  simp only [fiveRoles, List.mem_cons, List.mem_singleton, List.not_mem_nil, or_false] at hrole
  rcases hrole with h | h | h | h | h <;> rw [h] <;> simp

theorem studentInAuthority_iff_staff (α : Type) (db : Db) (user : Identity) (s : Student)
    (hrole : user.role ∈ staffRoles) :
    StudentInAuthority db user s ↔ studentStaffRefusal (α := α) db user s = none := by
  rw [studentStaffRefusal_none_iff]
  simp only [schoolOfManager_eq_some, teacherOfUser_eq_some]
  unfold StudentInAuthority
  simp only [staffRoles, List.mem_cons, List.mem_singleton, List.not_mem_nil, or_false] at hrole
  rcases hrole with h | h | h <;> rw [h] <;> simp

theorem isStaffRole_of_mem (role : String) (h : role ∈ staffRoles) : isStaffRole role = true := by
  simp only [staffRoles, List.mem_cons, List.mem_singleton, List.not_mem_nil, or_false] at h
  rcases h with h | h | h <;> rw [h] <;> decide

/-- C2: on `/students/:id`, for an existing target student `s`, a permitted role
is answered 403 exactly when `s` is outside the identity's authority: for GET
with any of the five roles, for PATCH and DELETE with admin, manager or teacher. -/
theorem students_item_refused_iff (db : Db) (user : Identity) (idParam : String) (s : Student)
    (body : StudentPatchBody)
    (hid : parseInt idParam = some s.id) (hs : studentById db s.id = some s) :
    (user.role ∈ fiveRoles →
      ((studentsGetOne db user idParam).status = 403 ↔ ¬ StudentInAuthority db user s))
    ∧ (user.role ∈ staffRoles →
      ((studentsPatch db user idParam body).1.status = 403 ↔ ¬ StudentInAuthority db user s))
    ∧ (user.role ∈ staffRoles →
      ((studentsDelete db user idParam).1.status = 403 ↔ ¬ StudentInAuthority db user s)) := by
  refine ⟨fun hrole => ?_, fun hrole => ?_, fun hrole => ?_⟩
  · rw [studentInAuthority_iff_five StudentOut db user s hrole]
    unfold studentsGetOne
    simp only [hid, hs]
    cases h1 : studentStaffRefusal (α := StudentOut) db user s with
    | some r => simp [studentStaffRefusal_status db user s r h1]
    | none =>
      cases h2 : studentFamilyRefusal (α := StudentOut) db user s with
      | some r => simp [studentFamilyRefusal_status db user s r h2]
      | none => simp [successResponse]
  · rw [studentInAuthority_iff_staff StudentOut db user s hrole]
    unfold studentsPatch
    simp only [hid, hs, isStaffRole_of_mem _ hrole]
    cases h1 : studentStaffRefusal (α := StudentOut) db user s with
    | some r => simp [studentStaffRefusal_status db user s r h1]
    | none =>
      cases h2 : updateStudent db s.id s body with
      | none => simp [errorResponse, defaultErrorCode]
      | some res => simp [successResponse]
  · rw [studentInAuthority_iff_staff Unit db user s hrole]
    unfold studentsDelete
    simp only [hid, hs, isStaffRole_of_mem _ hrole]
    cases h1 : studentStaffRefusal (α := Unit) db user s with
    | some r => simp [studentStaffRefusal_status db user s r h1]
    | none => simp [successResponse]

/-- C2, concrete runs on `GET /students/:id`: Teacher 1 (school 1, class "5A") is
the Teacher row of user 20, who is refused Student 3 (school 1, "5B") with 403 and
is not refused Student 1 (school 1, "5A"); Parent 1 is the Parent row of user 30,
who is not refused Student 1, a child of Parent 1; Student 1 is the Student row of
user 40, who is not refused Student 1 and is refused Student 2 with 403.  On
`DELETE /students/:id`, School 1 is the School managed by user 10, who is not
refused Student 1 and is refused Student 4 (school 2) with 403.  Evaluated, the
four granted requests are answered 200. -/
theorem students_item_refused_iff_witness :
    ((studentsGetOne sampleDb ⟨20, "teacher"⟩ "3").status = 403
      ∧ ¬ StudentInAuthority sampleDb ⟨20, "teacher"⟩ ⟨3, "Efe", "5B", 1, none, none⟩)
    ∧ (StudentInAuthority sampleDb ⟨20, "teacher"⟩ ⟨1, "Can", "5A", 1, some 1, some 40⟩
      ∧ (studentsGetOne sampleDb ⟨20, "teacher"⟩ "1").status ≠ 403)
    ∧ (StudentInAuthority sampleDb ⟨30, "parent"⟩ ⟨1, "Can", "5A", 1, some 1, some 40⟩
      ∧ (studentsGetOne sampleDb ⟨30, "parent"⟩ "1").status ≠ 403)
    ∧ (StudentInAuthority sampleDb ⟨40, "student"⟩ ⟨1, "Can", "5A", 1, some 1, some 40⟩
      ∧ (studentsGetOne sampleDb ⟨40, "student"⟩ "1").status ≠ 403)
    ∧ ((studentsGetOne sampleDb ⟨40, "student"⟩ "2").status = 403
      ∧ ¬ StudentInAuthority sampleDb ⟨40, "student"⟩ ⟨2, "Ece", "5a", 1, none, none⟩)
    ∧ (StudentInAuthority sampleDb ⟨10, "manager"⟩ ⟨1, "Can", "5A", 1, some 1, some 40⟩
      ∧ (studentsDelete sampleDb ⟨10, "manager"⟩ "1").1.status ≠ 403)
    ∧ ((studentsDelete sampleDb ⟨10, "manager"⟩ "4").1.status = 403
      ∧ ¬ StudentInAuthority sampleDb ⟨10, "manager"⟩ ⟨4, "Su", "5A", 2, none, none⟩)
    ∧ ((studentsGetOne sampleDb ⟨20, "teacher"⟩ "1").status = 200
      ∧ (studentsGetOne sampleDb ⟨30, "parent"⟩ "1").status = 200
      ∧ (studentsGetOne sampleDb ⟨40, "student"⟩ "1").status = 200
      ∧ (studentsDelete sampleDb ⟨10, "manager"⟩ "1").1.status = 200) := by
  have hschool : FirstWhere sampleDb.schools (fun x => x.managerId = some 10) ⟨1, some 10⟩ :=
    ⟨[], [⟨2, some 11⟩], rfl, rfl, by simp⟩
  have hteacher : FirstWhere sampleDb.teachers (fun x => x.userId = some 20)
      ⟨1, "Ayşe", "math", "5A", 1, some 20⟩ :=
    ⟨[], [⟨2, "Ali", "art", "5A", 1, some 21⟩], rfl, rfl, by simp⟩
  have hparent : FirstWhere sampleDb.parents (fun x => x.userId = some 30)
      ⟨1, "Veli", none, none, some 30⟩ :=
    ⟨[], [⟨2, "Deniz", none, none, some 31⟩], rfl, rfl, by simp⟩
  have hself : FirstWhere sampleDb.students (fun x => x.userId = some 40)
      ⟨1, "Can", "5A", 1, some 1, some 40⟩ :=
    ⟨[], [⟨2, "Ece", "5a", 1, none, none⟩, ⟨3, "Efe", "5B", 1, none, none⟩,
      ⟨4, "Su", "5A", 2, none, none⟩], rfl, rfl, by simp⟩
  have h1 := (students_item_refused_iff sampleDb ⟨20, "teacher"⟩ "3"
    ⟨3, "Efe", "5B", 1, none, none⟩
    ⟨.undefined, .undefined, .undefined, .undefined⟩ (by decide) (by decide)).1 (by decide)
  have h2 := (students_item_refused_iff sampleDb ⟨20, "teacher"⟩ "1"
    ⟨1, "Can", "5A", 1, some 1, some 40⟩
    ⟨.undefined, .undefined, .undefined, .undefined⟩ (by decide) (by decide)).1 (by decide)
  have h3 := (students_item_refused_iff sampleDb ⟨30, "parent"⟩ "1"
    ⟨1, "Can", "5A", 1, some 1, some 40⟩
    ⟨.undefined, .undefined, .undefined, .undefined⟩ (by decide) (by decide)).1 (by decide)
  have h4 := (students_item_refused_iff sampleDb ⟨40, "student"⟩ "1"
    ⟨1, "Can", "5A", 1, some 1, some 40⟩
    ⟨.undefined, .undefined, .undefined, .undefined⟩ (by decide) (by decide)).1 (by decide)
  have h5 := (students_item_refused_iff sampleDb ⟨40, "student"⟩ "2"
    ⟨2, "Ece", "5a", 1, none, none⟩
    ⟨.undefined, .undefined, .undefined, .undefined⟩ (by decide) (by decide)).1 (by decide)
  have h6 := (students_item_refused_iff sampleDb ⟨10, "manager"⟩ "1"
    ⟨1, "Can", "5A", 1, some 1, some 40⟩
    ⟨.undefined, .undefined, .undefined, .undefined⟩ (by decide) (by decide)).2.2 (by decide)
  have h7 := (students_item_refused_iff sampleDb ⟨10, "manager"⟩ "4"
    ⟨4, "Su", "5A", 2, none, none⟩
    ⟨.undefined, .undefined, .undefined, .undefined⟩ (by decide) (by decide)).2.2 (by decide)
  have a6 : StudentInAuthority sampleDb ⟨10, "manager"⟩ ⟨1, "Can", "5A", 1, some 1, some 40⟩ :=
    Or.inr (Or.inl ⟨rfl, _, hschool, rfl⟩)
  have r7 : (studentsDelete sampleDb ⟨10, "manager"⟩ "4").1.status = 403 := by decide
  have a2 : StudentInAuthority sampleDb ⟨20, "teacher"⟩ ⟨1, "Can", "5A", 1, some 1, some 40⟩ :=
    Or.inr (Or.inr (Or.inl ⟨rfl, _, hteacher, rfl, rfl⟩))
  have a3 : StudentInAuthority sampleDb ⟨30, "parent"⟩ ⟨1, "Can", "5A", 1, some 1, some 40⟩ :=
    Or.inr (Or.inr (Or.inr (Or.inl ⟨rfl, _, hparent, rfl⟩)))
  have a4 : StudentInAuthority sampleDb ⟨40, "student"⟩ ⟨1, "Can", "5A", 1, some 1, some 40⟩ :=
    Or.inr (Or.inr (Or.inr (Or.inr ⟨rfl, _, hself, rfl⟩)))
  have r1 : (studentsGetOne sampleDb ⟨20, "teacher"⟩ "3").status = 403 := by decide
  have r5 : (studentsGetOne sampleDb ⟨40, "student"⟩ "2").status = 403 := by decide
  exact ⟨⟨r1, h1.mp r1⟩, ⟨a2, fun h => h2.mp h a2⟩, ⟨a3, fun h => h3.mp h a3⟩,
    ⟨a4, fun h => h4.mp h a4⟩, ⟨r5, h5.mp r5⟩, ⟨a6, fun h => h6.mp h a6⟩, ⟨r7, h7.mp r7⟩,
    by decide, by decide, by decide, by decide⟩

theorem looseNe_eq_false (strToNumber : String → Option Int) (a : Int) (v : JsVal)
    (h : looseNe strToNumber a v = false) : toNumber strToNumber v = some a := by
  cases v <;> simp [looseNe] at h <;> exact h

theorem looseNe_of_truthy (strToNumber : String → Option Int) (a : Int) (v : JsVal)
    (ht : v.truthy = true) (h : toNumber strToNumber v ≠ some a) :
    looseNe strToNumber a v = true := by
  cases v <;> simp [JsVal.truthy] at ht <;> simp [looseNe] <;> exact h

theorem createStudent_spec (strToNumber : String → Option Int) (db db1 : Db)
    (name grade : String) (body : StudentCreateBody) (row : Student)
    (h : createStudent strToNumber db name grade body = some (row, db1)) :
    db1 = { db with students := db.students ++ [row] }
    ∧ toNumber strToNumber body.schoolId = some row.schoolId
    ∧ row.name = jsTrim name ∧ row.grade = jsTrim grade := by
  unfold createStudent at h
  split at h
  · rename_i schoolId parentId userId h1 h2 h3
    split at h
    · simp only [Option.some.injEq, Prod.mk.injEq] at h
      obtain ⟨hrow, hdb⟩ := h
      subst hrow
      exact ⟨hdb.symm, h1, rfl, rfl⟩
    · cases h
  · cases h

theorem studentsPostChecked_cases (strToNumber : String → Option Int) (db : Db)
    (user : Identity) (body : StudentCreateBody) (name grade : String) :
    ((studentsPostChecked strToNumber db user body name grade).2 = db
      ∧ (studentsPostChecked strToNumber db user body name grade).1.success = false)
    ∨ ∃ row db1,
        createStudent strToNumber db name grade body = some (row, db1)
        ∧ studentsPostChecked strToNumber db user body name grade =
            (successResponse (some (includeStudent db1 row)) "Yeni öğrenci başarıyla eklendi", db1)
        ∧ (user.role = "teacher" → ∃ t, teacherOfUser db user.id = some t
            ∧ looseNe strToNumber t.schoolId body.schoolId = false ∧ t.className = grade)
        ∧ (user.role = "manager" → ∃ sc, schoolOfManager db user.id = some sc
            ∧ looseNe strToNumber sc.id body.schoolId = false) := by
  unfold studentsPostChecked
  cases hT : studentsPostTeacherRefused strToNumber db user body grade with
  | true => left; exact ⟨rfl, rfl⟩
  | false =>
    cases hM : studentsPostManagerRefused strToNumber db user body with
    | true => left; exact ⟨rfl, rfl⟩
    | false =>
      cases hc : createStudent strToNumber db name grade body with
      | none => left; exact ⟨rfl, rfl⟩
      | some res =>
        obtain ⟨row, db1⟩ := res
        right
        refine ⟨row, db1, rfl, rfl, ?_, ?_⟩
        · intro hr
          unfold studentsPostTeacherRefused at hT
          cases ht : teacherOfUser db user.id with
          | none => simp [hr, ht] at hT
          | some t =>
            simp [hr, ht] at hT
            exact ⟨t, rfl, hT.1, hT.2⟩
        · intro hr
          unfold studentsPostManagerRefused at hM
          cases hs : schoolOfManager db user.id with
          | none => simp [hr, hs] at hM
          | some sc =>
            simp [hr, hs] at hM
            exact ⟨sc, rfl, hM⟩

theorem studentsPost_cases (strToNumber : String → Option Int) (db : Db)
    (user : Identity) (body : StudentCreateBody) :
    ((studentsPost strToNumber db user body).2 = db
      ∧ (studentsPost strToNumber db user body).1.success = false)
    ∨ ∃ name grade, body.name = .str name ∧ body.grade = .str grade
        ∧ studentsPost strToNumber db user body =
            studentsPostChecked strToNumber db user body name grade := by
  unfold studentsPost
  simp only
  split
  · left; exact ⟨rfl, rfl⟩
  · split
    · left; exact ⟨rfl, rfl⟩
    · left; exact ⟨rfl, rfl⟩
    · rename_i name hn
      split
      · left; exact ⟨rfl, rfl⟩
      · split
        · left; exact ⟨rfl, rfl⟩
        · left; exact ⟨rfl, rfl⟩
        · rename_i grade hg
          split
          · left; exact ⟨rfl, rfl⟩
          · split
            · left; exact ⟨rfl, rfl⟩
            · right; exact ⟨name, grade, hn, hg, rfl⟩
        · left; exact ⟨rfl, rfl⟩
    · left; exact ⟨rfl, rfl⟩

/-- C3 as stated fails: the manager of school 1 posts a student with non-blank
name and grade and `schoolId: 0`, which is not the id of the own school, and is
answered 400 by the required-field check, not 403. -/
theorem studentsPost_manager_falsy_schoolId :
    schoolOfManager sampleDb 10 = some ⟨1, some 10⟩
    ∧ toNumber decimalToNumber (.num 0) ≠ some 1
    ∧ (studentsPost decimalToNumber sampleDb ⟨10, "manager"⟩
        ⟨.str "Ali", .str "5A", .num 0, .undefined, .undefined⟩).1.status = 400
    ∧ (studentsPost decimalToNumber sampleDb ⟨10, "manager"⟩
        ⟨.str "Ali", .str "5A", .num 0, .undefined, .undefined⟩).1.status ≠ 403 := by
  decide

/-- C3, amended: for a manager and a body with non-blank string name and grade,
a truthy `schoolId` whose number is not the own school's id (or any truthy
`schoolId` when the manager owns no school) is answered 403, and a falsy
`schoolId` is answered 400, the store being unchanged in both cases; and whenever
the handler succeeds or changes the store, it has appended exactly one student
row, whose `schoolId` is the own school's id. -/
theorem studentsPost_manager_scope (strToNumber : String → Option Int) (db : Db)
    (user : Identity) (body : StudentCreateBody) (hrole : user.role = "manager") :
    (∀ name grade, body.name = .str name → body.grade = .str grade →
        jsTrim name ≠ "" → jsTrim grade ≠ "" →
        (body.schoolId.truthy = true →
          (∀ sc, schoolOfManager db user.id = some sc →
            toNumber strToNumber body.schoolId ≠ some sc.id) →
          (studentsPost strToNumber db user body).1.status = 403
          ∧ (studentsPost strToNumber db user body).2 = db)
        ∧ (body.schoolId.truthy = false →
          (studentsPost strToNumber db user body).1.status = 400
          ∧ (studentsPost strToNumber db user body).2 = db))
    ∧ ((studentsPost strToNumber db user body).1.success = true
          ∨ (studentsPost strToNumber db user body).2 ≠ db →
        ∃ sc row, schoolOfManager db user.id = some sc
          ∧ (studentsPost strToNumber db user body).2 = { db with students := db.students ++ [row] }
          ∧ (studentsPost strToNumber db user body).1.success = true
          ∧ row.schoolId = sc.id) := by
  have hstaff : isStaffRole user.role = true := by rw [hrole]; decide
  have hnt : ¬ ("manager" = "teacher") := by decide
  refine ⟨fun name grade hn hg hnb hgb => ⟨fun htr hne => ?_, fun hfa => ?_⟩, fun hch => ?_⟩
  · have hM : studentsPostManagerRefused strToNumber db user body = true := by
      unfold studentsPostManagerRefused
      cases hs : schoolOfManager db user.id with
      | none => simp [hrole]
      | some sc => simpa [hrole] using looseNe_of_truthy strToNumber sc.id _ htr (hne sc hs)
    have hT : studentsPostTeacherRefused strToNumber db user body grade = false := by
      simp [studentsPostTeacherRefused, hrole]
    simp [studentsPost, studentsPostChecked, hstaff, hn, hg, hnb, hgb, htr, hM, hT, errorResponse]
  · simp [studentsPost, hstaff, hn, hg, hnb, hgb, hfa, errorResponse]
  · rcases studentsPost_cases strToNumber db user body with ⟨h2, h1⟩ | ⟨name, grade, hn, hg, heq⟩
    · rcases hch with h | h
      · rw [h1] at h; cases h
      · exact absurd h2 h
    · rw [heq] at hch ⊢
      rcases studentsPostChecked_cases strToNumber db user body name grade with
        ⟨h2, h1⟩ | ⟨row, db1, hc, hres, -, hm⟩
      · rcases hch with h | h
        · rw [h1] at h; cases h
        · exact absurd h2 h
      · obtain ⟨sc, hsc, hl⟩ := hm hrole
        obtain ⟨hdb, hnum, -, -⟩ := createStudent_spec strToNumber db db1 name grade body row hc
        have := looseNe_eq_false strToNumber sc.id _ hl
        rw [hnum] at this
        refine ⟨sc, row, hsc, ?_, ?_, Option.some.inj this⟩
        · rw [hres]; exact hdb
        · rw [hres]; rfl

/-- C3, concrete runs: the manager of school 1 posting a student into school 2 is
answered 403 with the store unchanged, and posting into school 1 (sent as the
string "1") stores a row of school 1. -/
theorem studentsPost_manager_scope_witness :
    ((studentsPost decimalToNumber sampleDb ⟨10, "manager"⟩
        ⟨.str "Ali", .str "5A", .num 2, .undefined, .undefined⟩).1.status = 403
      ∧ (studentsPost decimalToNumber sampleDb ⟨10, "manager"⟩
        ⟨.str "Ali", .str "5A", .num 2, .undefined, .undefined⟩).2 = sampleDb)
    ∧ ∃ sc row, schoolOfManager sampleDb 10 = some sc
        ∧ (studentsPost decimalToNumber sampleDb ⟨10, "manager"⟩
            ⟨.str "Ali", .str "5A", .str "1", .undefined, .undefined⟩).2 =
          { sampleDb with students := sampleDb.students ++ [row] }
        ∧ (studentsPost decimalToNumber sampleDb ⟨10, "manager"⟩
            ⟨.str "Ali", .str "5A", .str "1", .undefined, .undefined⟩).1.success = true
        ∧ row.schoolId = sc.id :=
  ⟨((studentsPost_manager_scope decimalToNumber sampleDb ⟨10, "manager"⟩
        ⟨.str "Ali", .str "5A", .num 2, .undefined, .undefined⟩ rfl).1
      "Ali" "5A" rfl rfl (by decide) (by decide)).1 (by decide) (by decide),
   (studentsPost_manager_scope decimalToNumber sampleDb ⟨10, "manager"⟩
        ⟨.str "Ali", .str "5A", .str "1", .undefined, .undefined⟩ rfl).2 (Or.inl (by decide))⟩

/-- C4 fails on the code: a teacher whose stored class name is " 5A" posts a
student with grade " 5A" in the own school.  The scope check compares the
untrimmed grade and passes, the row is stored with the trimmed grade "5A", which
is not the teacher's class name, and the teacher's own `GET /students` on the
new store does not return the created student. -/
theorem studentsPost_teacher_trimmed_grade_leaves_scope :
    teacherOfUser paddedClassDb 20 = some ⟨1, "Ayşe", "math", " 5A", 1, some 20⟩
    ∧ (studentsPost decimalToNumber paddedClassDb ⟨20, "teacher"⟩
        ⟨.str "Ali", .str " 5A", .num 1, .undefined, .undefined⟩).1.success = true
    ∧ (studentsPost decimalToNumber paddedClassDb ⟨20, "teacher"⟩
        ⟨.str "Ali", .str " 5A", .num 1, .undefined, .undefined⟩).2.students =
          [⟨1, "Ali", "5A", 1, none, none⟩]
    ∧ ("5A" : String) ≠ " 5A"
    ∧ (studentsGet
        (studentsPost decimalToNumber paddedClassDb ⟨20, "teacher"⟩
          ⟨.str "Ali", .str " 5A", .num 1, .undefined, .undefined⟩).2
        ⟨20, "teacher"⟩).data = some [] := by
  decide

/-- The teacher branch of `POST /students` keeps the created row inside the
teacher's scope when the teacher's stored class name has no surrounding white
space: the stored pair is then the teacher's own (schoolId, className). -/
theorem studentsPost_teacher_scope_of_trimmed (strToNumber : String → Option Int) (db : Db)
    (user : Identity) (body : StudentCreateBody) (t : Teacher)
    (hrole : user.role = "teacher") (ht : teacherOfUser db user.id = some t)
    (htrim : jsTrim t.className = t.className)
    (hch : (studentsPost strToNumber db user body).1.success = true) :
    ∃ row, (studentsPost strToNumber db user body).2 = { db with students := db.students ++ [row] }
      ∧ row.schoolId = t.schoolId ∧ row.grade = t.className := by
  rcases studentsPost_cases strToNumber db user body with ⟨-, h1⟩ | ⟨name, grade, hn, hg, heq⟩
  · rw [h1] at hch; cases hch
  · rw [heq] at hch ⊢
    rcases studentsPostChecked_cases strToNumber db user body name grade with
      ⟨-, h1⟩ | ⟨row, db1, hc, hres, htc, -⟩
    · rw [h1] at hch; cases hch
    · obtain ⟨t1, ht1, hl, hcls⟩ := htc hrole
      rw [ht] at ht1
      cases ht1
      obtain ⟨hdb, hnum, -, hgr⟩ := createStudent_spec strToNumber db db1 name grade body row hc
      have := looseNe_eq_false strToNumber t.schoolId _ hl
      rw [hnum] at this
      refine ⟨row, ?_, Option.some.inj this, ?_⟩
      · rw [hres]; exact hdb
      · rw [hgr, ← hcls, htrim]

/-- The rows of `GET /parents` in terms of the handler's lookups. -/
theorem parentsGet_rows_by_lookup (db : Db) (user : Identity) :
    (user.role = "admin" →
      parentsGet db user =
        successResponse (some (db.parents.map (includeParent db))) "Veliler başarıyla listelendi")
    ∧ (user.role = "manager" → ∃ rows,
        parentsGet db user =
          successResponse (some (rows.map (includeParent db))) "Veliler başarıyla listelendi"
        ∧ ExactlyThose rows db.parents fun p =>
            ∃ sc, schoolOfManager db user.id = some sc
              ∧ ∃ s ∈ db.students, s.parentId = some p.id ∧ s.schoolId = sc.id)
    ∧ (user.role = "teacher" → ∃ rows,
        parentsGet db user =
          successResponse (some (rows.map (includeParent db))) "Veliler başarıyla listelendi"
        ∧ ExactlyThose rows db.parents fun p =>
            ∃ t, teacherOfUser db user.id = some t
              ∧ ∃ s ∈ db.students, s.parentId = some p.id
                  ∧ s.schoolId = t.schoolId ∧ s.grade = t.className)
    ∧ (user.role = "parent" → ∃ rows,
        parentsGet db user =
          successResponse (some (rows.map (includeParent db))) "Veliler başarıyla listelendi"
        ∧ rows = (parentOfUser db user.id).toList
        ∧ ∀ p ∈ rows, p ∈ db.parents ∧ p.userId = some user.id)
    ∧ (user.role = "student" →
        (parentsGet db user).status = 403 ∧ (parentsGet db user).data = none) := by
  refine ⟨fun h => ?_, fun h => ?_, fun h => ?_, fun h => ?_, fun h => ?_⟩
  · simp [parentsGet, parentsGetRows, h]
  · cases hs : schoolOfManager db user.id with
    | none =>
      exact ⟨[], by simp [parentsGet, parentsGetRows, h, hs], exactlyThose_nil _ _ (by simp)⟩
    | some sc =>
      refine ⟨_, by simp [parentsGet, parentsGetRows, h, hs]; rfl, exactlyThose_filter _ _ _ ?_⟩
      intro p
      simp [studentsOfParent, List.any_eq_true, List.mem_filter, and_assoc]
  · cases hs : teacherOfUser db user.id with
    | none =>
      exact ⟨[], by simp [parentsGet, parentsGetRows, h, hs], exactlyThose_nil _ _ (by simp)⟩
    | some t =>
      refine ⟨_, by simp [parentsGet, parentsGetRows, h, hs]; rfl, exactlyThose_filter _ _ _ ?_⟩
      intro p
      simp only [studentsOfParent, List.any_eq_true, List.mem_filter, Bool.and_eq_true,
        beq_iff_eq, Option.some.injEq, exists_eq_left']
      constructor
      · rintro ⟨s, ⟨hm, hp⟩, hg, hsc⟩
        exact ⟨s, hm, hp, hsc, hg⟩
      · rintro ⟨s, hm, hp, hsc, hg⟩
        exact ⟨s, ⟨hm, hp⟩, hg, hsc⟩
  · cases hs : parentOfUser db user.id with
    | none =>
      exact ⟨[], by simp [parentsGet, parentsGetRows, h, hs], rfl, by simp⟩
    | some p =>
      refine ⟨[p], by simp [parentsGet, parentsGetRows, h, hs], rfl, ?_⟩
      intro q hq
      simp only [List.mem_singleton] at hq
      subst hq
      have := List.find?_some hs
      exact ⟨List.mem_of_find?_eq_some hs, by simpa using this⟩
  · constructor <;> simp [parentsGet, parentsGetRows, h, errorResponse]

/-- C5: `GET /parents` answers within the caller's authority: admin receives all
parents; a manager exactly the parents with a student whose `schoolId` is the id
of the School with `managerId` = identity; a teacher exactly the parents with a
student whose `schoolId` and `grade` are the `schoolId` and `className` of the
Teacher with `userId` = identity; a parent only the Parent row with `userId` =
identity; no row when the identity owns no such School, Teacher or Parent; a
student-role caller is answered 403. -/
theorem parentsGet_scope (db : Db) (user : Identity) :
    (user.role = "admin" →
      parentsGet db user =
        successResponse (some (db.parents.map (includeParent db))) "Veliler başarıyla listelendi")
    ∧ (user.role = "manager" → ∃ rows,
        parentsGet db user =
          successResponse (some (rows.map (includeParent db))) "Veliler başarıyla listelendi"
        ∧ (∀ sc, FirstWhere db.schools (fun x => x.managerId = some user.id) sc →
            ExactlyThose rows db.parents fun p =>
              ∃ s ∈ db.students, s.parentId = some p.id ∧ s.schoolId = sc.id)
        ∧ ((∀ sc ∈ db.schools, sc.managerId ≠ some user.id) → rows = []))
    ∧ (user.role = "teacher" → ∃ rows,
        parentsGet db user =
          successResponse (some (rows.map (includeParent db))) "Veliler başarıyla listelendi"
        ∧ (∀ t, FirstWhere db.teachers (fun x => x.userId = some user.id) t →
            ExactlyThose rows db.parents fun p =>
              ∃ s ∈ db.students, s.parentId = some p.id
                ∧ s.schoolId = t.schoolId ∧ s.grade = t.className)
        ∧ ((∀ t ∈ db.teachers, t.userId ≠ some user.id) → rows = []))
    ∧ (user.role = "parent" → ∃ rows,
        parentsGet db user =
          successResponse (some (rows.map (includeParent db))) "Veliler başarıyla listelendi"
        ∧ (∀ p, FirstWhere db.parents (fun x => x.userId = some user.id) p → rows = [p])
        ∧ ((∀ p ∈ db.parents, p.userId ≠ some user.id) → rows = [])
        ∧ ∀ p ∈ rows, p ∈ db.parents ∧ p.userId = some user.id)
    ∧ (user.role = "student" →
        (parentsGet db user).status = 403 ∧ (parentsGet db user).data = none) := by
  obtain ⟨hadmin, hmanager, hteacher, hparent, hstudent⟩ := parentsGet_rows_by_lookup db user
  refine ⟨hadmin, fun hr => ?_, fun hr => ?_, fun hr => ?_, hstudent⟩
  · obtain ⟨rows, hresp, hex⟩ := hmanager hr
    refine ⟨rows, hresp, ?_, ?_⟩
    · intro sc hsc
      have hlook := (schoolOfManager_eq_some db user.id sc).mpr hsc
      refine exactlyThose_congr _ _ _ _ ?_ hex
      intro p
      simp [hlook]
    · intro hnone
      have hlook := (schoolOfManager_eq_none_iff db user.id).mpr hnone
      exact exactlyThose_false _ _ _ (by simp [hlook]) hex
  · obtain ⟨rows, hresp, hex⟩ := hteacher hr
    refine ⟨rows, hresp, ?_, ?_⟩
    · intro t ht
      have hlook := (teacherOfUser_eq_some db user.id t).mpr ht
      refine exactlyThose_congr _ _ _ _ ?_ hex
      intro p
      simp [hlook]
    · intro hnone
      have hlook := (teacherOfUser_eq_none_iff db user.id).mpr hnone
      exact exactlyThose_false _ _ _ (by simp [hlook]) hex
  · obtain ⟨rows, hresp, hrows, hown⟩ := hparent hr
    refine ⟨rows, hresp, ?_, ?_, hown⟩
    · intro p hp
      rw [hrows, (parentOfUser_eq_some db user.id p).mpr hp]
      rfl
    · intro hnone
      rw [hrows, (parentOfUser_eq_none_iff db user.id).mpr hnone]
      rfl

/-- C5, concrete runs: School 1 is the School managed by user 10 and Teacher 1
(school 1, class "5A") is the Teacher row of user 20; each of the two receives
Parent 1, whose child Student 1 attends school 1 in class "5A", and not Parent 2,
who has no child.  Parent 1 is the Parent row of user 30, who receives that row
alone, and a student-role caller is answered 403.  Evaluated, the parent's, the
manager's and the teacher's responses hold Parent 1 alone. -/
theorem parentsGet_scope_witness :
    (∃ rows : List Parent,
      (parentsGet sampleDb ⟨10, "manager"⟩).data = some (rows.map (includeParent sampleDb))
      ∧ (⟨1, "Veli", none, none, some 30⟩ : Parent) ∈ rows
      ∧ (⟨2, "Deniz", none, none, some 31⟩ : Parent) ∉ rows)
    ∧ (∃ rows : List Parent,
      (parentsGet sampleDb ⟨20, "teacher"⟩).data = some (rows.map (includeParent sampleDb))
      ∧ (⟨1, "Veli", none, none, some 30⟩ : Parent) ∈ rows
      ∧ (⟨2, "Deniz", none, none, some 31⟩ : Parent) ∉ rows)
    ∧ (∃ rows : List Parent,
      (parentsGet sampleDb ⟨30, "parent"⟩).data = some (rows.map (includeParent sampleDb))
      ∧ rows = [⟨1, "Veli", none, none, some 30⟩])
    ∧ (parentsGet sampleDb ⟨40, "student"⟩).status = 403
    ∧ (parentsGet sampleDb ⟨30, "parent"⟩).data
        = some ([⟨1, "Veli", none, none, some 30⟩].map (includeParent sampleDb))
    ∧ (parentsGet sampleDb ⟨10, "manager"⟩).data
        = some ([⟨1, "Veli", none, none, some 30⟩].map (includeParent sampleDb))
    ∧ (parentsGet sampleDb ⟨20, "teacher"⟩).data
        = some ([⟨1, "Veli", none, none, some 30⟩].map (includeParent sampleDb)) := by
  have hschool : FirstWhere sampleDb.schools (fun x => x.managerId = some 10) ⟨1, some 10⟩ :=
    ⟨[], [⟨2, some 11⟩], rfl, rfl, by simp⟩
  have hteacher : FirstWhere sampleDb.teachers (fun x => x.userId = some 20)
      ⟨1, "Ayşe", "math", "5A", 1, some 20⟩ :=
    ⟨[], [⟨2, "Ali", "art", "5A", 1, some 21⟩], rfl, rfl, by simp⟩
  have hparent : FirstWhere sampleDb.parents (fun x => x.userId = some 30)
      ⟨1, "Veli", none, none, some 30⟩ :=
    ⟨[], [⟨2, "Deniz", none, none, some 31⟩], rfl, rfl, by simp⟩
  refine ⟨?_, ?_, ?_, ((parentsGet_scope sampleDb ⟨40, "student"⟩).2.2.2.2 rfl).1,
    by decide, by decide, by decide⟩
  · obtain ⟨rows, hresp, hex, -⟩ := (parentsGet_scope sampleDb ⟨10, "manager"⟩).2.1 rfl
    obtain ⟨-, hiff, -⟩ := hex _ hschool
    refine ⟨rows, by rw [hresp]; rfl, ?_, ?_⟩
    · exact (hiff _).mpr ⟨by decide, ⟨1, "Can", "5A", 1, some 1, some 40⟩, by decide, rfl, rfl⟩
    · intro h
      exact absurd ((hiff _).mp h).2 (by decide)
  · obtain ⟨rows, hresp, hex, -⟩ := (parentsGet_scope sampleDb ⟨20, "teacher"⟩).2.2.1 rfl
    obtain ⟨-, hiff, -⟩ := hex _ hteacher
    refine ⟨rows, by rw [hresp]; rfl, ?_, ?_⟩
    · exact (hiff _).mpr
        ⟨by decide, ⟨1, "Can", "5A", 1, some 1, some 40⟩, by decide, rfl, rfl, rfl⟩
    · intro h
      exact absurd ((hiff _).mp h).2 (by decide)
  · obtain ⟨rows, hresp, hrows, -⟩ := (parentsGet_scope sampleDb ⟨30, "parent"⟩).2.2.2.1 rfl
    exact ⟨rows, by rw [hresp]; rfl, hrows _ hparent⟩

theorem schoolOfManager_eq_none (db : Db) (uid : Int)
    (h : ∀ sc ∈ db.schools, sc.managerId ≠ some uid) : schoolOfManager db uid = none := by
  unfold schoolOfManager
  rw [List.find?_eq_none]
  intro sc hsc
  simpa using h sc hsc

/-- C6: when no School has `managerId` equal to the acting manager's id, each of
`GET /teachers`, `GET /students` and `GET /parents` answers with a success
response whose data is the empty list. -/
theorem manager_without_school_gets_empty_lists (db : Db) (user : Identity)
    (hrole : user.role = "manager") (hno : ∀ sc ∈ db.schools, sc.managerId ≠ some user.id) :
    teachersGet db user = successResponse (some []) "Öğretmenler başarıyla listelendi"
    ∧ studentsGet db user = successResponse (some []) "Öğrenciler başarıyla listelendi"
    ∧ parentsGet db user = successResponse (some []) "Veliler başarıyla listelendi"
    ∧ (teachersGet db user).success = true
    ∧ (studentsGet db user).success = true
    ∧ (parentsGet db user).success = true := by
  have hs := schoolOfManager_eq_none db user.id hno
  have h1 : teachersGet db user = successResponse (some []) "Öğretmenler başarıyla listelendi" := by
    simp [teachersGet, teachersGetRows, hrole, hs]
  have h2 : studentsGet db user = successResponse (some []) "Öğrenciler başarıyla listelendi" := by
    simp [studentsGet, studentsGetRows, hrole, hs]
  have h3 : parentsGet db user = successResponse (some []) "Veliler başarıyla listelendi" := by
    simp [parentsGet, parentsGetRows, hrole, hs]
  refine ⟨h1, h2, h3, ?_, ?_, ?_⟩
  · rw [h1]; rfl
  · rw [h2]; rfl
  · rw [h3]; rfl

/-- C6, a concrete run: manager 12 owns no school of the sample store, which
holds teachers, students and parents, and receives three empty lists. -/
theorem manager_without_school_gets_empty_lists_witness :
    (∀ sc ∈ sampleDb.schools, sc.managerId ≠ some 12)
    ∧ (teachersGet sampleDb ⟨12, "manager"⟩).data = some []
    ∧ (studentsGet sampleDb ⟨12, "manager"⟩).data = some []
    ∧ (parentsGet sampleDb ⟨12, "manager"⟩).data = some [] := by
  have hno : ∀ sc ∈ sampleDb.schools, sc.managerId ≠ some 12 := by decide
  obtain ⟨h1, h2, h3, -⟩ :=
    manager_without_school_gets_empty_lists sampleDb ⟨12, "manager"⟩ rfl hno
  exact ⟨hno, by rw [h1]; rfl, by rw [h2]; rfl, by rw [h3]; rfl⟩

/-- C7 as stated fails: teachers 1 and 2 of the sample store share school 1 and
class "5A", yet `GET /teachers` gives the user of teacher 1 only teacher 1. -/
theorem teachersGet_teacher_omits_classmate :
    teacherOfUser sampleDb 20 = some ⟨1, "Ayşe", "math", "5A", 1, some 20⟩
    ∧ (⟨2, "Ali", "art", "5A", 1, some 21⟩ : Teacher) ∈ sampleDb.teachers
    ∧ (teachersGet sampleDb ⟨20, "teacher"⟩).data =
        some [includeTeacher sampleDb ⟨1, "Ayşe", "math", "5A", 1, some 20⟩]
    ∧ ¬ ExactlyThose [(⟨1, "Ayşe", "math", "5A", 1, some 20⟩ : Teacher)] sampleDb.teachers
        (fun t => t.schoolId = 1 ∧ t.className = "5A") := by
  refine ⟨by decide, by decide, by decide, ?_⟩
  rintro ⟨-, hiff, -⟩
  have := (hiff ⟨2, "Ali", "art", "5A", 1, some 21⟩).mpr ⟨by decide, rfl, rfl⟩
  exact absurd this (by decide)

/-- C7, amended: for a teacher-role identity, `GET /teachers` returns exactly the
Teacher records whose `userId` is the identity (the teacher's own record), and
the empty list when the identity has no Teacher record. -/
theorem teachersGet_teacher_own_rows (db : Db) (user : Identity)
    (hrole : user.role = "teacher") :
    ∃ rows,
      teachersGet db user =
        successResponse (some (rows.map (includeTeacher db))) "Öğretmenler başarıyla listelendi"
      ∧ ExactlyThose rows db.teachers (fun t => t.userId = some user.id)
      ∧ (teacherOfUser db user.id = none → rows = []) := by
  refine ⟨db.teachers.filter (fun t => t.userId == some user.id),
    by simp [teachersGet, teachersGetRows, hrole], exactlyThose_filter _ _ _ (by simp), ?_⟩
  intro hnone
  unfold teacherOfUser at hnone
  rw [List.find?_eq_none] at hnone
  exact List.filter_eq_nil_iff.mpr hnone

/-- C7, a concrete run: the user of teacher 1 receives teacher 1 alone. -/
theorem teachersGet_teacher_own_rows_witness :
    ∃ rows,
      teachersGet sampleDb ⟨20, "teacher"⟩ =
        successResponse (some (rows.map (includeTeacher sampleDb))) "Öğretmenler başarıyla listelendi"
      ∧ ExactlyThose rows sampleDb.teachers (fun t => t.userId = some 20)
      ∧ (teacherOfUser sampleDb 20 = none → rows = []) :=
  teachersGet_teacher_own_rows sampleDb ⟨20, "teacher"⟩ rfl

/-- C8: a parent-role identity reading the own Parent record by id succeeds and
receives the record with its stored students list, whatever that list is; with no
linked Student the list is empty. -/
theorem parentsGetOne_own_record (db : Db) (user : Identity) (idParam : String) (p : Parent)
    (hrole : user.role = "parent") (hown : p.userId = some user.id)
    (hid : parseInt idParam = some p.id) (hp : parentById db p.id = some p) :
    ∃ d : ParentDetail,
      parentsGetOne db user idParam = successResponse (some d) "Veli bilgileri getirildi"
      ∧ d.row = p
      ∧ d.students.map (fun s => s.row) = db.students.filter (fun s => s.parentId == some p.id)
      ∧ ((∀ s ∈ db.students, s.parentId ≠ some p.id) → d.students = []) := by
  refine ⟨includeParentDetail db p, ?_, rfl, ?_, ?_⟩
  · have h1 : ¬ ("parent" = "manager") := by decide
    have h2 : ¬ ("parent" = "teacher") := by decide
    simp [parentsGetOne, hid, hp, hrole, hown, h1, h2]
  · simp [includeParentDetail, studentsOfParent, List.map_map, Function.comp_def]
  · intro hno
    simp only [includeParentDetail, studentsOfParent, List.map_eq_nil_iff,
      List.filter_eq_nil_iff]
    intro s hs
    simpa using hno s hs

/-- C8, concrete runs: parent 30 reads the own record 1 and receives it with the
one linked student, and parent 31, who has no linked Student, reads the own
record 2 and receives it with an empty students list. -/
theorem parentsGetOne_own_record_witness :
    (∃ d : ParentDetail,
      parentsGetOne sampleDb ⟨31, "parent"⟩ "2" = successResponse (some d) "Veli bilgileri getirildi"
      ∧ d.row = ⟨2, "Deniz", none, none, some 31⟩ ∧ d.students = [])
    ∧ (parentsGetOne sampleDb ⟨30, "parent"⟩ "1").success = true := by
  obtain ⟨d, h1, h2, -, h4⟩ := parentsGetOne_own_record sampleDb ⟨31, "parent"⟩ "2"
    ⟨2, "Deniz", none, none, some 31⟩ rfl rfl (by decide) (by decide)
  exact ⟨⟨d, h1, h2, h4 (by decide)⟩, by decide⟩

/-- C9 fails on the code: `GET /parents` answers a student-role identity with 403
and `GET /teachers` answers parent- and student-role identities with 403, yet
`GET /parents/:id` and `GET /teachers/:id` answer the same identities with a
success response carrying the record. -/
theorem item_reads_skip_the_role_gate :
    (parentsGet sampleDb ⟨40, "student"⟩).status = 403
    ∧ parentsGetOne sampleDb ⟨40, "student"⟩ "2" =
        successResponse (some (includeParentDetail sampleDb ⟨2, "Deniz", none, none, some 31⟩))
          "Veli bilgileri getirildi"
    ∧ (teachersGet sampleDb ⟨30, "parent"⟩).status = 403
    ∧ teachersGetOne sampleDb ⟨30, "parent"⟩ "1" =
        successResponse (some (includeTeacher sampleDb ⟨1, "Ayşe", "math", "5A", 1, some 20⟩))
          "Öğretmen bilgileri getirildi"
    ∧ (teachersGet sampleDb ⟨40, "student"⟩).status = 403
    ∧ teachersGetOne sampleDb ⟨40, "student"⟩ "2" =
        successResponse (some (includeTeacher sampleDb ⟨2, "Ali", "art", "5A", 1, some 21⟩))
          "Öğretmen bilgileri getirildi" := by
  decide

theorem splitOnChar_ne_nil (sep : Char) (cs : List Char) : splitOnChar sep cs ≠ [] := by
  cases cs with
  | nil => simp [splitOnChar]
  | cons c cs =>
    unfold splitOnChar
    split
    · simp
    · split <;> simp

theorem splitOnChar_head (sep : Char) (cs : List Char) :
    (splitOnChar sep cs).head? = some (cs.takeWhile (fun c => c != sep)) := by
  induction cs with
  | nil => simp [splitOnChar]
  | cons c cs ih =>
    unfold splitOnChar
    by_cases hc : c = sep
    · simp [hc]
    · cases hsp : splitOnChar sep cs with
      | nil => exact absurd hsp (splitOnChar_ne_nil sep cs)
      | cons w ws =>
        rw [hsp] at ih
        simp only [List.head?_cons, Option.some.injEq] at ih
        simp [hc, ih]

theorem bearer_data : "Bearer ".data = ['B', 'e', 'a', 'r', 'e', 'r', ' '] := by
  decide

theorem splitOnChar_bearer (rest : List Char) :
    (splitOnChar ' ' ("Bearer ".data ++ rest))[1]? =
      some (rest.takeWhile (fun c => c != ' ')) := by
  have hh := splitOnChar_head ' ' rest
  cases hsp : splitOnChar ' ' rest with
  | nil => exact absurd hsp (splitOnChar_ne_nil ' ' rest)
  | cons w ws =>
    rw [hsp] at hh
    simp only [List.head?_cons, Option.some.injEq] at hh
    rw [bearer_data]
    simp [splitOnChar, hsp, hh]

theorem startsWithBearer_iff (s : String) :
    startsWithBearer s = true ↔ ∃ rest : String, s = "Bearer " ++ rest := by
  unfold startsWithBearer
  rw [List.isPrefixOf_iff_prefix]
  constructor
  · rintro ⟨t, ht⟩
    refine ⟨String.mk t, ?_⟩
    apply String.ext
    simp [String.data_append, ht]
  · rintro ⟨rest, rfl⟩
    exact ⟨rest.data, by simp [String.data_append]⟩

theorem authMiddleware_bearer (verify : String → Option String → Option Identity)
    (jwtSecret : Option String) (rest : String) :
    authMiddleware verify jwtSecret (some ("Bearer " ++ rest)) =
      match verify (String.mk (rest.data.takeWhile (fun c => c != ' '))) jwtSecret with
      | some decoded => .next decoded
      | none => .respond (errorResponse "Geçersiz veya süresi dolmuş token" 403) := by
  have hb : startsWithBearer ("Bearer " ++ rest) = true :=
    (startsWithBearer_iff _).mpr ⟨rest, rfl⟩
  have hne : ("Bearer " ++ rest) ≠ "" := by
    intro h
    have := congrArg String.data h
    rw [String.data_append, bearer_data] at this
    simp at this
  have hsplit : (jsSplitSpace ("Bearer " ++ rest))[1]? =
      some (String.mk (rest.data.takeWhile (fun c => c != ' '))) := by
    unfold jsSplitSpace
    rw [List.getElem?_map, String.data_append, splitOnChar_bearer]
    rfl
  unfold authMiddleware
  simp only [hb, hne, hsplit, false_or, Bool.true_eq_false, if_false]

/-- C10 as stated fails: the header "Bearer abc def" is not `Bearer ` followed by
one token, and its whole remainder "abc def" does not verify, yet the middleware
verifies only "abc", answers neither 401 nor 403, and calls `next()`. -/
theorem authMiddleware_extra_segment_passes :
    authMiddleware sampleVerify (some "k") (some "Bearer abc def") = .next ⟨1, "admin"⟩
    ∧ ¬ ExactBearerShape "Bearer abc def"
    ∧ sampleVerify "abc def" (some "k") = none
    ∧ (authMiddleware sampleVerify (some "k") (some "Bearer abc def")).status ≠ some 401 := by
  refine ⟨by decide, ?_, by decide, by decide⟩
  unfold ExactBearerShape
  decide

/-- C10, amended: `authMiddleware` answers 401 exactly when the header is absent
or does not start with "Bearer " (an empty header included); otherwise the token
it verifies is the part of the header after "Bearer " up to the next space, it
answers 403 when verification of that token fails, and it calls `next()` with
`req.user` set to the decoded payload when verification succeeds. -/
theorem authMiddleware_contract (verify : String → Option String → Option Identity)
    (jwtSecret : Option String) (authorization : Option String) :
    ((authMiddleware verify jwtSecret authorization).status = some 401 ↔
      (authorization = none
        ∨ ∃ s, authorization = some s ∧ ¬ ∃ rest : String, s = "Bearer " ++ rest))
    ∧ (∀ rest : String, authorization = some ("Bearer " ++ rest) →
        (verify (String.mk (rest.data.takeWhile (fun c => c != ' '))) jwtSecret = none →
          authMiddleware verify jwtSecret authorization =
            .respond (errorResponse "Geçersiz veya süresi dolmuş token" 403))
        ∧ (∀ decoded,
          verify (String.mk (rest.data.takeWhile (fun c => c != ' '))) jwtSecret = some decoded →
          authMiddleware verify jwtSecret authorization = .next decoded)) := by
  constructor
  · cases authorization with
    | none => simp [authMiddleware, AuthResult.status, errorResponse]
    | some s =>
      by_cases hb : startsWithBearer s = true
      · obtain ⟨rest, rfl⟩ := (startsWithBearer_iff s).mp hb
        rw [authMiddleware_bearer]
        constructor
        · intro h
          cases hv : verify (String.mk (rest.data.takeWhile (fun c => c != ' '))) jwtSecret with
          | none => rw [hv] at h; simp [AuthResult.status, errorResponse] at h
          | some d => rw [hv] at h; simp [AuthResult.status] at h
        · rintro (h | ⟨s1, hs1, hno⟩)
          · cases h
          · cases hs1
            exact absurd ⟨rest, rfl⟩ hno
      · have hb1 : startsWithBearer s = false := by simpa using hb
        have hno : ¬ ∃ rest : String, s = "Bearer " ++ rest :=
          fun h => hb ((startsWithBearer_iff s).mpr h)
        have hno1 : ∀ x : String, ¬ s = "Bearer " ++ x := fun x hx => hno ⟨x, hx⟩
        simp [authMiddleware, hb1, AuthResult.status, errorResponse, hno1]
  · rintro rest rfl
    rw [authMiddleware_bearer]
    constructor
    · intro hv; rw [hv]
    · intro d hv; rw [hv]

/-- C10, concrete runs: an absent header and a lower-case scheme are answered
401, a token that does not verify is answered 403, and the verified token reaches
`next()` with its payload. -/
theorem authMiddleware_contract_witness :
    (authMiddleware sampleVerify (some "k") none).status = some 401
    ∧ (authMiddleware sampleVerify (some "k") (some "bearer abc")).status = some 401
    ∧ authMiddleware sampleVerify (some "k") (some "Bearer xyz") =
        .respond (errorResponse "Geçersiz veya süresi dolmuş token" 403)
    ∧ authMiddleware sampleVerify (some "k") (some "Bearer abc") = .next ⟨1, "admin"⟩ :=
  ⟨(authMiddleware_contract sampleVerify (some "k") none).1.mpr (Or.inl rfl),
   by decide,
   ((authMiddleware_contract sampleVerify (some "k") (some "Bearer xyz")).2 "xyz" rfl).1 (by decide),
   ((authMiddleware_contract sampleVerify (some "k") (some "Bearer abc")).2 "abc" rfl).2 _ (by decide)⟩

/-! ### Auth routes: what each handler can do to the store -/

theorem refresh_cases (jwt : JwtLib) (env : ProcessEnv) (faults : Faults) (now : Nat) (db : Db)
    (v : JsVal) :
    ((refresh jwt env faults now db v).2 = db
      ∧ (refresh jwt env faults now db v).1.success = false
      ∧ (refresh jwt env faults now db v).1.data = none
      ∧ ((v.truthy = false ∧ (refresh jwt env faults now db v).1.status = 400)
          ∨ (v.truthy = true ∧ (refresh jwt env faults now db v).1.status = 403)))
    ∨ ∃ token decoded user,
        v = .str token ∧ token ≠ ""
        ∧ jwt.verify token (some (CONFIG env).jwtRefreshSecret) now = some decoded
        ∧ userById db decoded.id = some user
        ∧ user.refreshToken = some token
        ∧ refresh jwt env faults now db v =
          (successResponse
            (some ⟨issueAccessToken jwt env user now, issueRefreshToken jwt env user now⟩)
            "Token başarıyla yenilendi",
           updateUser db user.id fun u =>
            { u with refreshToken := some (issueRefreshToken jwt env user now) }) := by
  unfold refresh refreshTry
  by_cases ht : v.truthy = true
  · cases v with
    | str token =>
      cases hv : jwt.verify token (some (CONFIG env).jwtRefreshSecret) now with
      | none => left; simp [ht, hv, errorResponse]
      | some decoded =>
        by_cases hf : faults.find = true
        · left; simp [ht, hv, hf, errorResponse]
        · cases hu : userById db decoded.id with
          | none => left; simp [ht, hv, hf, hu, errorResponse]
          | some user =>
            by_cases hst : user.refreshToken = some token
            · by_cases hw : faults.write = true
              · left; simp [ht, hv, hf, hu, hst, hw, errorResponse]
              · right
                have hne : token ≠ "" := by simpa [JsVal.truthy] using ht
                exact ⟨token, decoded, user, rfl, hne, hv, hu, hst,
                  by simp [ht, hv, hf, hu, hst, hw]⟩
            · left; simp [ht, hv, hf, hu, hst, errorResponse]
    | undefined => simp [JsVal.truthy] at ht
    | null => simp [JsVal.truthy] at ht
    | bool b => left; simp [ht, errorResponse]
    | num n => left; simp [ht, errorResponse]
  · have hf : v.truthy = false := by simpa using ht
    left; simp [hf, errorResponse]

theorem login_cases (jwt : JwtLib) (bcrypt : BcryptLib) (env : ProcessEnv) (faults : Faults)
    (now : Nat) (db : Db) (body : LoginBody) :
    ((login jwt bcrypt env faults now db body).2 = db
      ∧ (login jwt bcrypt env faults now db body).1.success = false
      ∧ (login jwt bcrypt env faults now db body).1.data = none)
    ∨ ∃ email password user,
        body.email = .str email ∧ body.password = .str password
        ∧ db.users.find? (fun u => u.email == email) = some user
        ∧ bcrypt.compare password user.password = true
        ∧ login jwt bcrypt env faults now db body =
          (successResponse
            (some ⟨issueAccessToken jwt env user now, issueRefreshToken jwt env user now, user⟩)
            "Giriş başarılı",
           updateUser db user.id fun u =>
            { u with refreshToken := some (issueRefreshToken jwt env user now) }) := by
  unfold login loginTry
  cases he : body.email with
  | str email =>
    by_cases hf : faults.find = true
    · left; simp [hf, errorResponse]
    · cases hu : db.users.find? (fun u => u.email == email) with
      | none => left; simp [hf, hu, errorResponse]
      | some user =>
        cases hp : body.password with
        | str password =>
          by_cases hc : bcrypt.compare password user.password = true
          · by_cases hcfg : (CONFIG env).jwtSecret = "" ∨ (CONFIG env).jwtRefreshSecret = ""
            · left; simp [hf, hu, hc, hcfg, errorResponse]
            · by_cases hw : faults.write = true
              · left; simp [hf, hu, hc, hcfg, hw, errorResponse]
              · right
                exact ⟨email, password, user, rfl, rfl, hu, hc, by simp [hf, hu, hc, hcfg, hw]⟩
          · have hc1 : bcrypt.compare password user.password = false := by simpa using hc
            left; simp [hf, hu, hc1, errorResponse]
        | undefined => left; simp [hf, hu, errorResponse]
        | null => left; simp [hf, hu, errorResponse]
        | bool b => left; simp [hf, hu, errorResponse]
        | num n => left; simp [hf, hu, errorResponse]
  | undefined => left; simp [errorResponse]
  | null => left; simp [errorResponse]
  | bool b => left; simp [errorResponse]
  | num n => left; simp [errorResponse]

theorem register_cases (bcrypt : BcryptLib) (faults : Faults) (db : Db) (body : RegisterBody) :
    ((register bcrypt faults db body).2 = db
      ∧ (register bcrypt faults db body).1.success = false
      ∧ (register bcrypt faults db body).1.data = none)
    ∨ ∃ email password name role,
        body.email = .str email ∧ body.password = .str password ∧ body.name = .str name
        ∧ roleOrUser body.role = some role
        ∧ db.users.find? (fun u => u.email == email) = none
        ∧ register bcrypt faults db body =
          (successResponse
            (some ⟨freshId (db.users.map User.id), name, email, bcrypt.hash password, role, none⟩)
            "Kullanıcı başarıyla oluşturuldu",
           { db with users := db.users ++
              [⟨freshId (db.users.map User.id), name, email, bcrypt.hash password, role, none⟩] }) := by
  unfold register registerTry
  cases he : body.email with
  | str email =>
    by_cases hf : faults.find = true
    · left; simp [hf, errorResponse]
    · cases hu : db.users.find? (fun u => u.email == email) with
      | some user => left; simp [hf, hu, errorResponse]
      | none =>
        cases hp : body.password with
        | str password =>
          cases hn : body.name with
          | str name =>
            cases hr : roleOrUser body.role with
            | some role =>
              by_cases hw : faults.write = true
              · left; simp [hf, hu, hw, errorResponse]
              · right
                exact ⟨email, password, name, role, rfl, rfl, rfl, rfl, hu,
                  by simp [hf, hu, hw]⟩
            | none => left; simp [hf, hu, errorResponse]
          | undefined => left; simp [hf, hu, errorResponse]
          | null => left; simp [hf, hu, errorResponse]
          | bool b => left; simp [hf, hu, errorResponse]
          | num n => left; simp [hf, hu, errorResponse]
        | undefined => left; simp [hf, hu, errorResponse]
        | null => left; simp [hf, hu, errorResponse]
        | bool b => left; simp [hf, hu, errorResponse]
        | num n => left; simp [hf, hu, errorResponse]
  | undefined => left; simp [errorResponse]
  | null => left; simp [errorResponse]
  | bool b => left; simp [errorResponse]
  | num n => left; simp [errorResponse]

theorem changePassword_cases (bcrypt : BcryptLib) (faults : Faults) (db : Db) (user : Identity)
    (body : ChangePasswordBody) :
    ((changePassword bcrypt faults db user body).2 = db
      ∧ (changePassword bcrypt faults db user body).1.success = false)
    ∨ ∃ u oldPassword newPassword,
        userById db user.id = some u
        ∧ body.oldPassword = .str oldPassword ∧ body.newPassword = .str newPassword
        ∧ bcrypt.compare oldPassword u.password = true
        ∧ changePassword bcrypt faults db user body =
          (successResponse none "Şifre başarıyla değiştirildi",
           updateUser db u.id fun row => { row with password := bcrypt.hash newPassword }) := by
  unfold changePassword changePasswordTry
  cases h1 : body.oldPassword.truthy with
  | false => left; simp [errorResponse]
  | true =>
    cases h2 : body.newPassword.truthy with
    | false => left; simp [errorResponse]
    | true =>
      by_cases hf : faults.find = true
      · left; simp [hf, errorResponse]
      · cases hu : userById db user.id with
        | none => left; simp [hf, errorResponse]
        | some u =>
          cases ho : body.oldPassword with
          | str oldPassword =>
            by_cases hc : bcrypt.compare oldPassword u.password = true
            · cases hn : body.newPassword with
              | str newPassword =>
                by_cases hw : faults.write = true
                · left; simp [hf, hc, hw, errorResponse]
                · right
                  exact ⟨u, oldPassword, newPassword, rfl, rfl, rfl, hc, by simp [hf, hc, hw]⟩
              | undefined => left; simp [hf, hc, errorResponse]
              | null => left; simp [hf, hc, errorResponse]
              | bool b => left; simp [hf, hc, errorResponse]
              | num n => left; simp [hf, hc, errorResponse]
            · have hc1 : bcrypt.compare oldPassword u.password = false := by simpa using hc
              left; simp [hf, hc1, errorResponse]
          | undefined => left; simp [hf, errorResponse]
          | null => left; simp [hf, errorResponse]
          | bool b => left; simp [hf, errorResponse]
          | num n => left; simp [hf, errorResponse]

theorem logout_cases (faults : Faults) (db : Db) (user : Identity) :
    ((logout faults db user).2 = db
      ∧ (logout faults db user).1.success = false
      ∧ (logout faults db user).1.status = 500)
    ∨ ∃ u, userById db user.id = some u
        ∧ logout faults db user =
          (successResponse none "Çıkış başarılı",
           updateUser db user.id fun u => { u with refreshToken := none }) := by
  unfold logout logoutTry
  by_cases hw : faults.write = true
  · left; simp [hw, errorResponse]
  · cases hu : userById db user.id with
    | none => left; simp [hw, errorResponse]
    | some u => right; exact ⟨u, rfl, by simp [hw]⟩

/-! ### Auth routes: the stored refresh token along a run -/

theorem userById_some (db : Db) (id : Int) (u : User) (h : userById db id = some u) :
    u ∈ db.users ∧ u.id = id := by
  unfold userById at h
  exact ⟨List.mem_of_find?_eq_some h, by simpa using List.find?_some h⟩

theorem storedTokenIs_updateUser (Q : Option String → Prop) (uid id : Int) (db : Db)
    (f : User → User) (hinv : StoredTokenIs Q uid db)
    (hf : ∀ u ∈ db.users, u.id = id → (f u).id = uid → Q (f u).refreshToken) :
    StoredTokenIs Q uid (updateUser db id f) := by
  intro u1 hu1 hid
  simp only [updateUser, List.mem_map] at hu1
  obtain ⟨u, hu, rfl⟩ := hu1
  by_cases h : u.id = id
  · simp only [h, if_true] at hid ⊢
    exact hf u hu h hid
  · simp only [h, if_false] at hid ⊢
    exact hinv u hu hid

theorem storedTokenIs_authStep (jwt : JwtLib) (bcrypt : BcryptLib) (env : ProcessEnv)
    (Q : Option String → Prop) (hQ : Q none) (uid : Int) (db : Db) (ev : AuthEvent)
    (hinv : StoredTokenIs Q uid db)
    (hlogin : ∀ faults now body, ev = .login faults now body →
      ∀ d, (login jwt bcrypt env faults now db body).1.data = some d → d.user.id ≠ uid)
    (hrefresh : ∀ faults now v, ev = .refresh faults now v → ∀ token, Q (some token) →
      Q (some (jwt.sign { id := uid, role := none } (CONFIG env).jwtRefreshSecret refreshTtl now))) :
    StoredTokenIs Q uid (authStep jwt bcrypt env db ev) := by
  cases ev with
  | register faults body =>
    simp only [authStep]
    rcases register_cases bcrypt faults db body with ⟨h, -⟩ | ⟨e, pw, n, r, -, -, -, -, -, h⟩
    · rw [h]; exact hinv
    · rw [h]
      intro u hu hid
      simp only [List.mem_append, List.mem_singleton] at hu
      rcases hu with hu | rfl
      · exact hinv u hu hid
      · exact hQ
  | login faults now body =>
    simp only [authStep]
    rcases login_cases jwt bcrypt env faults now db body with ⟨h, -⟩ | ⟨e, pw, user, -, -, -, -, h⟩
    · rw [h]; exact hinv
    · have hne : user.id ≠ uid := by
        have := hlogin faults now body rfl
        rw [h] at this
        exact this _ rfl
      rw [h]
      apply storedTokenIs_updateUser Q uid user.id db _ hinv
      intro u _ hid huid
      exact absurd (hid.symm.trans huid) hne
  | refresh faults now v =>
    simp only [authStep]
    rcases refresh_cases jwt env faults now db v with
      ⟨h, -⟩ | ⟨token, decoded, user, -, -, -, hu, hst, h⟩
    · rw [h]; exact hinv
    · rw [h]
      apply storedTokenIs_updateUser Q uid user.id db _ hinv
      intro u _ hid huid
      have huser : user.id = uid := hid.symm.trans huid
      have hmem := (userById_some db decoded.id user hu).1
      have hq : Q (some token) := by
        have := hinv user hmem huser
        rwa [hst] at this
      have := hrefresh faults now v rfl token hq
      simpa [issueRefreshToken, huser] using this
  | changePassword faults user body =>
    simp only [authStep]
    rcases changePassword_cases bcrypt faults db user body with ⟨h, -⟩ | ⟨u, o, n, -, -, -, -, h⟩
    · rw [h]; exact hinv
    · rw [h]
      apply storedTokenIs_updateUser Q uid u.id db _ hinv
      intro u1 hu1 _ huid
      exact hinv u1 hu1 huid
  | logout faults user =>
    simp only [authStep]
    rcases logout_cases faults db user with ⟨h, -⟩ | ⟨u, -, h⟩
    · rw [h]; exact hinv
    · rw [h]
      apply storedTokenIs_updateUser Q uid user.id db _ hinv
      intro _ _ _ _
      exact hQ

theorem storedTokenIs_authRun (jwt : JwtLib) (bcrypt : BcryptLib) (env : ProcessEnv)
    (Q : Option String → Prop) (hQ : Q none) (uid : Int) (evs : List AuthEvent) :
    ∀ db : Db, StoredTokenIs Q uid db → NoLoginOf jwt bcrypt env uid db evs →
      (∀ now ∈ refreshTimes evs, ∀ token, Q (some token) →
        Q (some (jwt.sign { id := uid, role := none } (CONFIG env).jwtRefreshSecret
          refreshTtl now))) →
      StoredTokenIs Q uid (authRun jwt bcrypt env db evs) := by
  induction evs with
  | nil => intro db hinv _ _; exact hinv
  | cons ev evs ih =>
    intro db hinv hno hfresh
    simp only [authRun]
    obtain ⟨hno1, hno2⟩ := hno
    apply ih _ _ hno2
    · intro now hnow
      apply hfresh now
      cases ev <;> simp [refreshTimes, hnow]
    · apply storedTokenIs_authStep jwt bcrypt env Q hQ uid db ev hinv
      · intro faults now body hev
        subst hev
        exact hno1
      · intro faults now v hev
        subst hev
        exact hfresh now (by simp [refreshTimes])

/-- C11 fails on the code: rotation is not single-use.  The handler signs the new
refresh token from the user id, the secret and the second of issue alone, without
a nonce.  A login at second 100 issues the token `t`; a `POST /refresh` with `t`
in that same second succeeds, signs `t` again and stores it as the "new" token;
a later `POST /refresh` presenting `t` again, at second 500 and with no login in
between, is answered 200 with fresh tokens instead of 403. -/
theorem refresh_reissues_token_within_the_second :
    (login toyJwt toyBcrypt setEnv noFaults 100 accountDb
        ⟨.str "ada@example.org", .str "pw"⟩).1.data.map (fun d => d.refreshToken)
      = some "s2.r.1.604900"
    ∧ (refresh toyJwt setEnv noFaults 100
        (login toyJwt toyBcrypt setEnv noFaults 100 accountDb
          ⟨.str "ada@example.org", .str "pw"⟩).2 (.str "s2.r.1.604900")).1.success = true
    ∧ (refresh toyJwt setEnv noFaults 500
        (refresh toyJwt setEnv noFaults 100
          (login toyJwt toyBcrypt setEnv noFaults 100 accountDb
            ⟨.str "ada@example.org", .str "pw"⟩).2 (.str "s2.r.1.604900")).2
        (.str "s2.r.1.604900")).1.status = 200
    ∧ (refresh toyJwt setEnv noFaults 500
        (refresh toyJwt setEnv noFaults 100
          (login toyJwt toyBcrypt setEnv noFaults 100 accountDb
            ⟨.str "ada@example.org", .str "pw"⟩).2 (.str "s2.r.1.604900")).2
        (.str "s2.r.1.604900")).1.data
      = some ⟨"s1.aadmin.1.7700", "s2.r.1.605300"⟩ := by
  decide

/-- What the rotation does guarantee: let `t` be a refresh token of the user `uid`
and let a `POST /refresh` with `t` succeed.  If the refresh tokens signed for
`uid` by that request and by the later refresh requests differ from `t`, then
after any later auth requests without a successful login of `uid`, a
`POST /refresh` presenting `t` is answered 403, issues no tokens and leaves the
store unchanged.  The handler itself does nothing to make the signed tokens
differ. -/
theorem refresh_rotation_single_use (jwt : JwtLib) (bcrypt : BcryptLib) (env : ProcessEnv)
    (db : Db) (uid : Int) (t : String) (faults : Faults) (now : Nat) (evs : List AuthEvent)
    (faults2 : Faults) (now2 : Nat)
    (hsucc : (refresh jwt env faults now db (.str t)).1.success = true)
    (hid : ∀ n p, jwt.verify t (some (CONFIG env).jwtRefreshSecret) n = some p → p.id = uid)
    (hfresh : ∀ n ∈ now :: refreshTimes evs,
      jwt.sign { id := uid, role := none } (CONFIG env).jwtRefreshSecret refreshTtl n ≠ t)
    (hnologin : NoLoginOf jwt bcrypt env uid (refresh jwt env faults now db (.str t)).2 evs) :
    (refresh jwt env faults2 now2
        (authRun jwt bcrypt env (refresh jwt env faults now db (.str t)).2 evs) (.str t)).1.status
      = 403
    ∧ (refresh jwt env faults2 now2
        (authRun jwt bcrypt env (refresh jwt env faults now db (.str t)).2 evs) (.str t)).1.data
      = none
    ∧ (refresh jwt env faults2 now2
        (authRun jwt bcrypt env (refresh jwt env faults now db (.str t)).2 evs) (.str t)).2
      = authRun jwt bcrypt env (refresh jwt env faults now db (.str t)).2 evs := by
  have hne : t ≠ "" ∧ StoredTokenIs (fun x => x ≠ some t) uid
      (refresh jwt env faults now db (.str t)).2 := by
    rcases refresh_cases jwt env faults now db (.str t) with
      ⟨-, h, -⟩ | ⟨token, decoded, user, htok, hne, hv, hu, -, h⟩
    · rw [h] at hsucc; cases hsucc
    · cases htok
      refine ⟨hne, ?_⟩
      have huid : user.id = uid :=
        (userById_some db decoded.id user hu).2.trans (hid now decoded hv)
      rw [h]
      intro u1 hu1 hid1
      simp only [updateUser, List.mem_map] at hu1
      obtain ⟨u, -, rfl⟩ := hu1
      by_cases hc : u.id = user.id
      · simp only [hc, if_true]
        have := hfresh now (by simp)
        simpa [issueRefreshToken, huid] using this
      · simp only [hc, if_false] at hid1
        exact absurd (hid1.trans huid.symm) hc
  obtain ⟨hne, hinv0⟩ := hne
  have hinv := storedTokenIs_authRun jwt bcrypt env (fun x => x ≠ some t) (by simp) uid evs
    _ hinv0 hnologin (by
      intro n hn token _
      have := hfresh n (by simp [hn])
      simpa using this)
  rcases refresh_cases jwt env faults2 now2
      (authRun jwt bcrypt env (refresh jwt env faults now db (.str t)).2 evs) (.str t) with
    ⟨h2, -, hd, hst⟩ | ⟨token, decoded, user, htok, -, hv, hu, hstored, -⟩
  · rcases hst with ⟨hf, -⟩ | ⟨-, h403⟩
    · simp [JsVal.truthy, hne] at hf
    · exact ⟨h403, hd, h2⟩
  · cases htok
    obtain ⟨hmem, hdid⟩ := userById_some _ decoded.id user hu
    exact absurd hstored (hinv user hmem (hdid.trans (hid now2 decoded hv)))

theorem toyVerify_sample (n : Nat) (p : JwtPayload)
    (h : toyJwt.verify "s2.r.1.604900" (some (CONFIG setEnv).jwtRefreshSecret) n = some p) :
    p.id = 1 := by
  have hc : (CONFIG setEnv).jwtRefreshSecret = "s2" := by decide
  rw [hc] at h
  simp only [toyJwt] at h
  have hs : splitOnChar '.' "s2.r.1.604900".data =
      [['s', '2'], ['r'], ['1'], ['6', '0', '4', '9', '0', '0']] := by decide
  have h1 : parseInt (String.mk ['1']) = some 1 := by decide
  have h2 : parseInt (String.mk ['6', '0', '4', '9', '0', '0']) = some 604900 := by decide
  have h3 : String.mk ['s', '2'] = "s2" := by decide
  have h4 : ("s2" : String) ≠ "" := by decide
  unfold toyVerify at h
  simp only [hs, h1, h2, h3, h4, if_true, if_false] at h
  split at h
  · cases h; rfl
  · cases h

/-- A concrete run of the guarantee: a token is issued at second 100 and refreshed
at second 200; after one more refresh request, presenting it again at second 300
is answered 403. -/
theorem refresh_rotation_single_use_witness :
    (refresh toyJwt setEnv noFaults 300
      (authRun toyJwt toyBcrypt setEnv
        (refresh toyJwt setEnv noFaults 200
          (login toyJwt toyBcrypt setEnv noFaults 100 accountDb
            ⟨.str "ada@example.org", .str "pw"⟩).2 (.str "s2.r.1.604900")).2
        [.refresh noFaults 250 (.str "s2.r.1.605000")])
      (.str "s2.r.1.604900")).1.status = 403 := by
  have hfresh : ∀ n ∈ 200 :: refreshTimes [AuthEvent.refresh noFaults 250 (.str "s2.r.1.605000")],
      toyJwt.sign { id := 1, role := none } (CONFIG setEnv).jwtRefreshSecret refreshTtl n
        ≠ "s2.r.1.604900" := by
    simp only [refreshTimes, List.mem_cons, List.mem_singleton, List.not_mem_nil, or_false]
    rintro n (rfl | rfl) <;> decide
  exact (refresh_rotation_single_use toyJwt toyBcrypt setEnv
    (login toyJwt toyBcrypt setEnv noFaults 100 accountDb ⟨.str "ada@example.org", .str "pw"⟩).2
    1 "s2.r.1.604900" noFaults 200 [.refresh noFaults 250 (.str "s2.r.1.605000")] noFaults 300
    (by decide) toyVerify_sample hfresh ⟨trivial, trivial⟩).1

/-! ### Registration -/

theorem register_existing_email (bcrypt : BcryptLib) (faults : Faults) (db : Db)
    (body : RegisterBody) (email : String) (he : body.email = .str email)
    (hex : ∃ u ∈ db.users, u.email = email) :
    (register bcrypt faults db body).2 = db
    ∧ (register bcrypt faults db body).1.success = false
    ∧ (faults.find = false → (register bcrypt faults db body).1.status = 400) := by
  obtain ⟨u, hu, hue⟩ := hex
  have hfind : ∃ u1, db.users.find? (fun u => u.email == email) = some u1 := by
    cases h : db.users.find? (fun u => u.email == email) with
    | some u1 => exact ⟨u1, rfl⟩
    | none =>
      rw [List.find?_eq_none] at h
      exact absurd (by simpa using hue) (h u hu)
  obtain ⟨u1, hu1⟩ := hfind
  unfold register registerTry
  by_cases hf : faults.find = true
  · simp [he, hf, errorResponse]
  · simp [he, hf, hu1, errorResponse]

theorem register_emails_nodup (bcrypt : BcryptLib) (faults : Faults) (db : Db)
    (body : RegisterBody) (h : (db.users.map User.email).Nodup) :
    ((register bcrypt faults db body).2.users.map User.email).Nodup := by
  rcases register_cases bcrypt faults db body with ⟨h1, -⟩ | ⟨e, pw, n, r, -, -, -, -, hnone, h1⟩
  · rw [h1]; exact h
  · rw [h1]
    simp only [List.map_append, List.map_cons, List.map_nil]
    rw [List.nodup_append]
    refine ⟨h, List.nodup_singleton _, ?_⟩
    rw [List.find?_eq_none] at hnone
    intro a ha hb
    simp only [List.mem_singleton] at hb
    subst hb
    simp only [List.mem_map] at ha
    obtain ⟨u, hu, hue⟩ := ha
    exact hnone u hu (by simpa using hue)

/-- C12: `POST /register` preserves email uniqueness.  When an account with the
requested email exists the handler creates no row and, the lookup being
answered, responds 400; from a store with pairwise distinct emails every
sequence of register requests leaves pairwise distinct emails; and after a
successful registration a second one with the same email is answered 400 and
creates no row. -/
theorem register_keeps_emails_unique (bcrypt : BcryptLib) :
    (∀ (faults : Faults) (db : Db) (body : RegisterBody) (email : String),
        body.email = .str email → (∃ u ∈ db.users, u.email = email) →
        (register bcrypt faults db body).2 = db
        ∧ (faults.find = false → (register bcrypt faults db body).1.status = 400))
    ∧ (∀ (db : Db) (reqs : List (Faults × RegisterBody)),
        (db.users.map User.email).Nodup →
        ((reqs.foldl (fun d r => (register bcrypt r.1 d r.2).2) db).users.map User.email).Nodup)
    ∧ (∀ (faults1 faults2 : Faults) (db : Db) (body1 body2 : RegisterBody),
        (register bcrypt faults1 db body1).1.success = true →
        body2.email = body1.email → faults2.find = false →
        (register bcrypt faults2 (register bcrypt faults1 db body1).2 body2).1.status = 400
        ∧ (register bcrypt faults2 (register bcrypt faults1 db body1).2 body2).2
            = (register bcrypt faults1 db body1).2) := by
  refine ⟨?_, ?_, ?_⟩
  · intro faults db body email he hex
    obtain ⟨h1, -, h3⟩ := register_existing_email bcrypt faults db body email he hex
    exact ⟨h1, h3⟩
  · intro db reqs
    induction reqs generalizing db with
    | nil => intro h; exact h
    | cons r reqs ih =>
      intro h
      simp only [List.foldl_cons]
      exact ih _ (register_emails_nodup bcrypt r.1 db r.2 h)
  · intro faults1 faults2 db body1 body2 hsucc hemail hfind
    rcases register_cases bcrypt faults1 db body1 with
      ⟨-, h1, -⟩ | ⟨e, pw, n, r, he, -, -, -, -, h1⟩
    · rw [h1] at hsucc; cases hsucc
    · have hex : ∃ u ∈ (register bcrypt faults1 db body1).2.users, u.email = e := by
        rw [h1]
        exact ⟨⟨freshId (db.users.map User.id), n, e, bcrypt.hash pw, r, none⟩, by simp, rfl⟩
      obtain ⟨h2, -, h3⟩ := register_existing_email bcrypt faults2 _ body2 e
        (hemail.trans he) hex
      exact ⟨h3 hfind, h2⟩

/-- C12, a concrete run: a new email is registered, and the same request sent
again is answered 400 with the store left as it was. -/
theorem register_keeps_emails_unique_witness :
    (register toyBcrypt noFaults accountDb
      ⟨.str "Bo", .str "bo@example.org", .str "x", .undefined⟩).1.success = true
    ∧ (register toyBcrypt noFaults
        (register toyBcrypt noFaults accountDb
          ⟨.str "Bo", .str "bo@example.org", .str "x", .undefined⟩).2
        ⟨.str "Bo", .str "bo@example.org", .str "x", .undefined⟩).1.status = 400 :=
  ⟨by decide,
   ((register_keeps_emails_unique toyBcrypt).2.2 noFaults noFaults accountDb
      ⟨.str "Bo", .str "bo@example.org", .str "x", .undefined⟩
      ⟨.str "Bo", .str "bo@example.org", .str "x", .undefined⟩ (by decide) rfl rfl).1⟩

/-- C13 fails on the code: the data of a successful `POST /register` is the whole
created row, and its `password` field holds the stored hash. -/
theorem register_response_carries_password_hash :
    (register toyBcrypt noFaults accountDb
      ⟨.str "Bo", .str "bo@example.org", .str "x", .undefined⟩).1.success = true
    ∧ (register toyBcrypt noFaults accountDb
      ⟨.str "Bo", .str "bo@example.org", .str "x", .undefined⟩).1.data
        = some ⟨2, "Bo", "bo@example.org", "hash:x", "user", none⟩
    ∧ (register toyBcrypt noFaults accountDb
      ⟨.str "Bo", .str "bo@example.org", .str "x", .undefined⟩).1.data.map User.password
        = some (toyBcrypt.hash "x") := by
  decide

/-- Every successful `POST /register` answers with the stored row, whose
`password` is the hash of the password sent. -/
theorem register_success_data (bcrypt : BcryptLib) (faults : Faults) (db : Db)
    (body : RegisterBody) (h : (register bcrypt faults db body).1.success = true) :
    ∃ password row, body.password = .str password
      ∧ (register bcrypt faults db body).1.data = some row
      ∧ row.password = bcrypt.hash password
      ∧ (register bcrypt faults db body).2.users = db.users ++ [row] := by
  rcases register_cases bcrypt faults db body with ⟨-, h1, -⟩ | ⟨e, pw, n, r, -, hp, -, -, -, h1⟩
  · rw [h1] at h; cases h
  · exact ⟨pw, _, hp, by rw [h1]; rfl, rfl, by rw [h1]⟩

/-- C14: for an authenticated user with a stored account, a `POST /change-password`
with a non-empty old password that does not match the stored hash, and a
non-empty new password, leaves the store unchanged and, the lookup being
answered, responds 401; and whenever the handler changes the store, the old
password matched the stored hash of the acting user. -/
theorem changePassword_wrong_old_password (bcrypt : BcryptLib) (faults : Faults) (db : Db)
    (user : Identity) (body : ChangePasswordBody) (u : User)
    (hu : userById db user.id = some u) :
    (∀ oldPassword, body.oldPassword = .str oldPassword → oldPassword ≠ "" →
        body.newPassword.truthy = true → bcrypt.compare oldPassword u.password = false →
        (changePassword bcrypt faults db user body).2 = db
        ∧ (faults.find = false → (changePassword bcrypt faults db user body).1.status = 401))
    ∧ ((changePassword bcrypt faults db user body).2 ≠ db →
        ∃ oldPassword, body.oldPassword = .str oldPassword
          ∧ bcrypt.compare oldPassword u.password = true) := by
  constructor
  · intro oldPassword ho hne hn hmis
    have hto : (JsVal.str oldPassword).truthy = true := by simp [JsVal.truthy, hne]
    unfold changePassword changePasswordTry
    rw [ho]
    by_cases hf : faults.find = true
    · simp [hto, hn, hf, errorResponse]
    · simp [hto, hn, hf, hu, hmis, errorResponse]
  · intro hch
    rcases changePassword_cases bcrypt faults db user body with
      ⟨h, -⟩ | ⟨u1, o, n, hu1, ho, -, hc, -⟩
    · exact absurd h hch
    · rw [hu] at hu1
      cases hu1
      exact ⟨o, ho, hc⟩

/-- C14, a concrete run: the account's password is "pw"; a change request with
old password "no" is answered 401 and the store is unchanged. -/
theorem changePassword_wrong_old_password_witness :
    (changePassword toyBcrypt noFaults accountDb ⟨1, "admin"⟩ ⟨.str "no", .str "new"⟩).2
      = accountDb
    ∧ (changePassword toyBcrypt noFaults accountDb ⟨1, "admin"⟩
        ⟨.str "no", .str "new"⟩).1.status = 401 := by
  have h := (changePassword_wrong_old_password toyBcrypt noFaults accountDb ⟨1, "admin"⟩
    ⟨.str "no", .str "new"⟩ ⟨1, "Ada", "ada@example.org", "hash:pw", "admin", none⟩
    (by decide)).1 "no" rfl (by decide) (by decide) (by decide)
  exact ⟨h.1, h.2 rfl⟩

/-- C15: a successful `POST /logout` of a user sets the stored refresh token of
that user to null and changes nothing else; and after any later auth requests
without a successful login of that user, a `POST /refresh` carrying a token of
that user is answered 403, issues no tokens and leaves the store unchanged. -/
theorem logout_clears_refresh_token (jwt : JwtLib) (bcrypt : BcryptLib) (env : ProcessEnv)
    (faults : Faults) (db : Db) (user : Identity)
    (hsucc : (logout faults db user).1.success = true) :
    (logout faults db user).2.users =
        db.users.map (fun u => if u.id = user.id then { u with refreshToken := none } else u)
    ∧ (∀ u ∈ (logout faults db user).2.users, u.id = user.id → u.refreshToken = none)
    ∧ (logout faults db user).2.schools = db.schools
    ∧ (logout faults db user).2.teachers = db.teachers
    ∧ (logout faults db user).2.parents = db.parents
    ∧ (logout faults db user).2.students = db.students
    ∧ (∀ (evs : List AuthEvent) (faults2 : Faults) (now2 : Nat) (v : JsVal),
        NoLoginOf jwt bcrypt env user.id (logout faults db user).2 evs →
        v.truthy = true →
        (∀ token p, v = .str token →
          jwt.verify token (some (CONFIG env).jwtRefreshSecret) now2 = some p → p.id = user.id) →
        (refresh jwt env faults2 now2
            (authRun jwt bcrypt env (logout faults db user).2 evs) v).1.status = 403
        ∧ (refresh jwt env faults2 now2
            (authRun jwt bcrypt env (logout faults db user).2 evs) v).1.data = none
        ∧ (refresh jwt env faults2 now2
            (authRun jwt bcrypt env (logout faults db user).2 evs) v).2
          = authRun jwt bcrypt env (logout faults db user).2 evs) := by
  rcases logout_cases faults db user with ⟨-, h, -⟩ | ⟨u0, -, h⟩
  · rw [h] at hsucc; cases hsucc
  · have hinv0 : StoredTokenIs (fun x => x = none) user.id (logout faults db user).2 := by
      rw [h]
      intro u1 hu1 hid1
      simp only [updateUser, List.mem_map] at hu1
      obtain ⟨u, -, rfl⟩ := hu1
      by_cases hc : u.id = user.id
      · simp [hc]
      · simp only [hc, if_false] at hid1
    refine ⟨by rw [h]; rfl, hinv0, by rw [h]; rfl, by rw [h]; rfl, by rw [h]; rfl,
      by rw [h]; rfl, ?_⟩
    intro evs faults2 now2 v hno hv hid
    have hinv := storedTokenIs_authRun jwt bcrypt env (fun x => x = none) rfl user.id evs
      _ hinv0 hno (by intro n _ token hq; cases hq)
    rcases refresh_cases jwt env faults2 now2
        (authRun jwt bcrypt env (logout faults db user).2 evs) v with
      ⟨h2, -, hd, hst⟩ | ⟨token, decoded, usr, htok, -, hver, hu, hstored, -⟩
    · rcases hst with ⟨hf, -⟩ | ⟨-, h403⟩
      · rw [hv] at hf; cases hf
      · exact ⟨h403, hd, h2⟩
    · obtain ⟨hmem, hdid⟩ := userById_some _ decoded.id usr hu
      have := hinv usr hmem (hdid.trans (hid token decoded htok hver))
      rw [hstored] at this
      cases this

/-- C15, a concrete run: the user logs in at second 100 and logs out; the refresh
token of that login, presented at second 200, is answered 403. -/
theorem logout_clears_refresh_token_witness :
    (refresh toyJwt setEnv noFaults 200
      (authRun toyJwt toyBcrypt setEnv
        (logout noFaults
          (login toyJwt toyBcrypt setEnv noFaults 100 accountDb
            ⟨.str "ada@example.org", .str "pw"⟩).2 ⟨1, "admin"⟩).2 [])
      (.str "s2.r.1.604900")).1.status = 403 :=
  ((logout_clears_refresh_token toyJwt toyBcrypt setEnv noFaults
      (login toyJwt toyBcrypt setEnv noFaults 100 accountDb
        ⟨.str "ada@example.org", .str "pw"⟩).2 ⟨1, "admin"⟩ (by decide)).2.2.2.2.2.2
    [] noFaults 200 (.str "s2.r.1.604900") trivial (by decide)
    (fun token p htok hver => by
      cases htok
      exact toyVerify_sample 200 p hver)).1

/-! ### Writes: a refused request leaves the store as it was -/

theorem studentsPost_unchanged_or_ok (strToNumber : String → Option Int) (db : Db)
    (user : Identity) (body : StudentCreateBody) :
    (studentsPost strToNumber db user body).2 = db
    ∨ (studentsPost strToNumber db user body).1.status = 200 := by
  rcases studentsPost_cases strToNumber db user body with ⟨h, -⟩ | ⟨name, grade, -, -, heq⟩
  · exact Or.inl h
  · rw [heq]
    rcases studentsPostChecked_cases strToNumber db user body name grade with
      ⟨h, -⟩ | ⟨row, db1, -, hres, -, -⟩
    · exact Or.inl h
    · right; rw [hres]; rfl

theorem studentsPatch_unchanged_or_ok (db : Db) (user : Identity) (idParam : String)
    (body : StudentPatchBody) :
    (studentsPatch db user idParam body).2 = db
    ∨ (studentsPatch db user idParam body).1.status = 200 := by
  unfold studentsPatch
  simp only []
  repeat' split
  all_goals first | (left; rfl) | (right; rfl)

theorem studentsDelete_unchanged_or_ok (db : Db) (user : Identity) (idParam : String) :
    (studentsDelete db user idParam).2 = db
    ∨ (studentsDelete db user idParam).1.status = 200 := by
  unfold studentsDelete
  repeat' split
  all_goals first | (left; rfl) | (right; rfl)

theorem teachersPost_unchanged_or_ok (strToNumber : String → Option Int) (db : Db)
    (user : Identity) (body : TeacherCreateBody) :
    (teachersPost strToNumber db user body).2 = db
    ∨ (teachersPost strToNumber db user body).1.status = 200 := by
  unfold teachersPost
  repeat' split
  all_goals first | (left; rfl) | (right; rfl)

theorem teachersPatch_unchanged_or_ok (db : Db) (user : Identity) (idParam : String)
    (body : TeacherPatchBody) :
    (teachersPatch db user idParam body).2 = db
    ∨ (teachersPatch db user idParam body).1.status = 200 := by
  unfold teachersPatch
  simp only []
  repeat' split
  all_goals first | (left; rfl) | (right; rfl)

theorem teachersDelete_unchanged_or_ok (db : Db) (user : Identity) (idParam : String) :
    (teachersDelete db user idParam).2 = db
    ∨ (teachersDelete db user idParam).1.status = 200 := by
  unfold teachersDelete
  repeat' split
  all_goals first | (left; rfl) | (right; rfl)

theorem parentsPost_unchanged_or_ok (db : Db) (user : Identity) (body : ParentBody) :
    (parentsPost db user body).2 = db ∨ (parentsPost db user body).1.status = 200 := by
  unfold parentsPost
  simp only []
  repeat' split
  all_goals first | (left; rfl) | (right; rfl)

theorem parentsPatch_unchanged_or_ok (db : Db) (user : Identity) (idParam : String)
    (body : ParentBody) :
    (parentsPatch db user idParam body).2 = db
    ∨ (parentsPatch db user idParam body).1.status = 200 := by
  unfold parentsPatch
  simp only []
  repeat' split
  all_goals first | (left; rfl) | (right; rfl)

theorem parentsDelete_unchanged_or_ok (db : Db) (user : Identity) (idParam : String) :
    (parentsDelete db user idParam).2 = db
    ∨ (parentsDelete db user idParam).1.status = 200 := by
  unfold parentsDelete
  repeat' split
  all_goals first | (left; rfl) | (right; rfl)

theorem unchanged_of_rejected {α : Type} (r : Response α × Db) (db : Db)
    (h : r.2 = db ∨ r.1.status = 200) (hrej : Rejected r.1.status) : r.2 = db := by
  rcases h with h | h
  · exact h
  · rw [h] at hrej
    rcases hrej with h1 | h1 | h1 <;> cases h1

/-- C16: every POST, PATCH and DELETE handler of students, teachers and parents
that answers a request with 400, 403 or 404 leaves the store exactly as it was. -/
theorem rejected_writes_leave_store_unchanged (strToNumber : String → Option Int) (db : Db)
    (user : Identity) (idParam : String) (studentBody : StudentCreateBody)
    (studentPatch : StudentPatchBody) (teacherBody : TeacherCreateBody)
    (teacherPatch : TeacherPatchBody) (parentBody : ParentBody) :
    (Rejected (studentsPost strToNumber db user studentBody).1.status →
      (studentsPost strToNumber db user studentBody).2 = db)
    ∧ (Rejected (studentsPatch db user idParam studentPatch).1.status →
      (studentsPatch db user idParam studentPatch).2 = db)
    ∧ (Rejected (studentsDelete db user idParam).1.status →
      (studentsDelete db user idParam).2 = db)
    ∧ (Rejected (teachersPost strToNumber db user teacherBody).1.status →
      (teachersPost strToNumber db user teacherBody).2 = db)
    ∧ (Rejected (teachersPatch db user idParam teacherPatch).1.status →
      (teachersPatch db user idParam teacherPatch).2 = db)
    ∧ (Rejected (teachersDelete db user idParam).1.status →
      (teachersDelete db user idParam).2 = db)
    ∧ (Rejected (parentsPost db user parentBody).1.status →
      (parentsPost db user parentBody).2 = db)
    ∧ (Rejected (parentsPatch db user idParam parentBody).1.status →
      (parentsPatch db user idParam parentBody).2 = db)
    ∧ (Rejected (parentsDelete db user idParam).1.status →
      (parentsDelete db user idParam).2 = db) :=
  ⟨unchanged_of_rejected _ db (studentsPost_unchanged_or_ok strToNumber db user studentBody),
   unchanged_of_rejected _ db (studentsPatch_unchanged_or_ok db user idParam studentPatch),
   unchanged_of_rejected _ db (studentsDelete_unchanged_or_ok db user idParam),
   unchanged_of_rejected _ db (teachersPost_unchanged_or_ok strToNumber db user teacherBody),
   unchanged_of_rejected _ db (teachersPatch_unchanged_or_ok db user idParam teacherPatch),
   unchanged_of_rejected _ db (teachersDelete_unchanged_or_ok db user idParam),
   unchanged_of_rejected _ db (parentsPost_unchanged_or_ok db user parentBody),
   unchanged_of_rejected _ db (parentsPatch_unchanged_or_ok db user idParam parentBody),
   unchanged_of_rejected _ db (parentsDelete_unchanged_or_ok db user idParam)⟩

/-- C16, concrete runs: a teacher deleting a student of another class is answered
403, a manager patching a teacher that does not exist is answered 404, and a
manager posting a parent without a name is answered 400; the store is unchanged
each time. -/
theorem rejected_writes_leave_store_unchanged_witness :
    ((studentsDelete sampleDb ⟨20, "teacher"⟩ "3").1.status = 403
      ∧ (studentsDelete sampleDb ⟨20, "teacher"⟩ "3").2 = sampleDb)
    ∧ ((teachersPatch sampleDb ⟨10, "manager"⟩ "9"
          ⟨.str "x", .undefined, .undefined, .undefined⟩).1.status = 404
      ∧ (teachersPatch sampleDb ⟨10, "manager"⟩ "9"
          ⟨.str "x", .undefined, .undefined, .undefined⟩).2 = sampleDb)
    ∧ ((parentsPost sampleDb ⟨10, "manager"⟩
          ⟨.undefined, .undefined, .undefined, .undefined, none⟩).1.status = 400
      ∧ (parentsPost sampleDb ⟨10, "manager"⟩
          ⟨.undefined, .undefined, .undefined, .undefined, none⟩).2 = sampleDb) := by
  have h := rejected_writes_leave_store_unchanged decimalToNumber sampleDb ⟨10, "manager"⟩ "9"
    ⟨.undefined, .undefined, .undefined, .undefined, .undefined⟩
    ⟨.str "x", .undefined, .undefined, .undefined⟩
    ⟨.undefined, .undefined, .undefined, .undefined, .undefined⟩
    ⟨.str "x", .undefined, .undefined, .undefined⟩
    ⟨.undefined, .undefined, .undefined, .undefined, none⟩
  have h2 := rejected_writes_leave_store_unchanged decimalToNumber sampleDb ⟨20, "teacher"⟩ "3"
    ⟨.undefined, .undefined, .undefined, .undefined, .undefined⟩
    ⟨.str "x", .undefined, .undefined, .undefined⟩
    ⟨.undefined, .undefined, .undefined, .undefined, .undefined⟩
    ⟨.str "x", .undefined, .undefined, .undefined⟩
    ⟨.undefined, .undefined, .undefined, .undefined, none⟩
  have s1 : (studentsDelete sampleDb ⟨20, "teacher"⟩ "3").1.status = 403 := by decide
  have s2 : (teachersPatch sampleDb ⟨10, "manager"⟩ "9"
      ⟨.str "x", .undefined, .undefined, .undefined⟩).1.status = 404 := by decide
  have s3 : (parentsPost sampleDb ⟨10, "manager"⟩
      ⟨.undefined, .undefined, .undefined, .undefined, none⟩).1.status = 400 := by decide
  exact ⟨⟨s1, h2.2.2.1 (Or.inr (Or.inl s1))⟩, ⟨s2, h.2.2.2.2.1 (Or.inr (Or.inr s2))⟩,
    ⟨s3, h.2.2.2.2.2.2.1 (Or.inl s3)⟩⟩

/-! ### PATCH: which fields change -/

theorem patchedStr_of_optionalStr (v : JsVal) (o : Option String) (old : String)
    (h : optionalStr v = some o) : PatchedStr v old (o.getD old) := by
  cases v with
  | str t =>
    by_cases ht : t = ""
    · simp [optionalStr, ht] at h
      subst h
      simp [PatchedStr, JsVal.truthy, ht]
    · simp [optionalStr, ht] at h
      subst h
      simp [PatchedStr, JsVal.truthy, ht]
  | undefined => simp [optionalStr, JsVal.truthy] at h; subst h; simp [PatchedStr, JsVal.truthy]
  | null => simp [optionalStr, JsVal.truthy] at h; subst h; simp [PatchedStr, JsVal.truthy]
  | bool b =>
    cases b
    · simp [optionalStr, JsVal.truthy] at h; subst h; simp [PatchedStr, JsVal.truthy]
    · simp [optionalStr, JsVal.truthy] at h
  | num n =>
    by_cases hn : n = 0
    · simp [optionalStr, JsVal.truthy, hn] at h; subst h; simp [PatchedStr, JsVal.truthy, hn]
    · simp [optionalStr, JsVal.truthy, hn] at h

theorem patchedInt_of_optionalInt (v : JsVal) (o old : Option Int)
    (h : optionalInt v = some o) : PatchedInt v old (if o.isSome then o else old) := by
  cases v with
  | num n =>
    by_cases hn : n = 0
    · simp [optionalInt, hn] at h; subst h; simp [PatchedInt, JsVal.truthy, hn]
    · simp [optionalInt, hn] at h; subst h; simp [PatchedInt, JsVal.truthy, hn]
  | undefined => simp [optionalInt, JsVal.truthy] at h; subst h; simp [PatchedInt, JsVal.truthy]
  | null => simp [optionalInt, JsVal.truthy] at h; subst h; simp [PatchedInt, JsVal.truthy]
  | bool b =>
    cases b
    · simp [optionalInt, JsVal.truthy] at h; subst h; simp [PatchedInt, JsVal.truthy]
    · simp [optionalInt, JsVal.truthy] at h
  | str t =>
    by_cases ht : t = ""
    · simp [optionalInt, JsVal.truthy, ht] at h; subst h; simp [PatchedInt, JsVal.truthy, ht]
    · simp [optionalInt, JsVal.truthy, ht] at h

theorem updateStudent_spec (db db1 : Db) (studentId : Int) (s s1 : Student)
    (body : StudentPatchBody) (hsid : s.id = studentId)
    (h : updateStudent db studentId s body = some (s1, db1)) :
    s1.id = s.id ∧ s1.schoolId = s.schoolId
    ∧ PatchedStr body.name s.name s1.name ∧ PatchedStr body.grade s.grade s1.grade
    ∧ PatchedInt body.parentId s.parentId s1.parentId
    ∧ PatchedInt body.userId s.userId s1.userId
    ∧ (∃ f : Student → Student, db1.students = db.students.map f ∧ f s = s1
        ∧ ∀ r, r.id ≠ studentId → f r = r)
    ∧ db1.users = db.users ∧ db1.schools = db.schools
    ∧ db1.teachers = db.teachers ∧ db1.parents = db.parents := by
  unfold updateStudent at h
  split at h
  · rename_i name grade parentId userId h1 h2 h3 h4
    split at h
    · simp only [Option.some.injEq, Prod.mk.injEq] at h
      obtain ⟨hs, hdb⟩ := h
      subst hs hdb
      refine ⟨rfl, rfl, patchedStr_of_optionalStr _ _ _ h1, patchedStr_of_optionalStr _ _ _ h2,
        patchedInt_of_optionalInt _ _ _ h3, patchedInt_of_optionalInt _ _ _ h4,
        ⟨_, rfl, ?_, ?_⟩, rfl, rfl, rfl, rfl⟩
      · simp [hsid]
      · intro r hr
        simp [hr]
    · cases h
  · cases h

theorem updateTeacher_spec (db db1 : Db) (teacherId : Int) (t t1 : Teacher)
    (body : TeacherPatchBody) (htid : t.id = teacherId)
    (h : updateTeacher db teacherId t body = some (t1, db1)) :
    t1.id = t.id ∧ t1.schoolId = t.schoolId
    ∧ PatchedStr body.name t.name t1.name ∧ PatchedStr body.subject t.subject t1.subject
    ∧ PatchedStr body.className t.className t1.className
    ∧ PatchedInt body.userId t.userId t1.userId
    ∧ (∃ f : Teacher → Teacher, db1.teachers = db.teachers.map f ∧ f t = t1
        ∧ ∀ r, r.id ≠ teacherId → f r = r)
    ∧ db1.users = db.users ∧ db1.schools = db.schools
    ∧ db1.students = db.students ∧ db1.parents = db.parents := by
  unfold updateTeacher at h
  split at h
  · rename_i name subject className userId h1 h2 h3 h4
    split at h
    · simp only [Option.some.injEq, Prod.mk.injEq] at h
      obtain ⟨hs, hdb⟩ := h
      subst hs hdb
      refine ⟨rfl, rfl, patchedStr_of_optionalStr _ _ _ h1, patchedStr_of_optionalStr _ _ _ h2,
        patchedStr_of_optionalStr _ _ _ h3, patchedInt_of_optionalInt _ _ _ h4,
        ⟨_, rfl, ?_, ?_⟩, rfl, rfl, rfl, rfl⟩
      · simp [htid]
      · intro r hr
        simp [hr]
    · cases h
  · cases h

theorem studentStaffRefusal_success {α : Type} (db : Db) (user : Identity) (s : Student)
    (r : Response α) (h : studentStaffRefusal db user s = some r) : r.success = false := by
  unfold studentStaffRefusal at h
  simp only at h
  split at h
  · cases h
    rename_i heq
    split at heq
    · split at heq
      · split at heq
        · cases heq; rfl
        · cases heq
      · cases heq; rfl
    · cases heq
  · split at h
    · split at h
      · split at h
        · cases h; rfl
        · cases h
      · cases h; rfl
    · cases h

theorem studentsPatch_success (db : Db) (user : Identity) (idParam : String)
    (body : StudentPatchBody) (h : (studentsPatch db user idParam body).1.success = true) :
    ∃ s s1 db1, parseInt idParam = some s.id ∧ studentById db s.id = some s
      ∧ updateStudent db s.id s body = some (s1, db1)
      ∧ studentsPatch db user idParam body =
          (successResponse (some (includeStudent db1 s1)) "Öğrenci bilgileri güncellendi", db1) := by
  unfold studentsPatch at h ⊢
  simp only [] at h ⊢
  by_cases hr : (!isStaffRole user.role) = true
  · simp [hr, errorResponse] at h
  · cases hp : parseInt idParam with
    | none => simp [hr, hp, errorResponse] at h
    | some sid =>
      cases hs : studentById db sid with
      | none => simp [hr, hp, hs, errorResponse] at h
      | some s =>
        have hsid : s.id = sid := by
          unfold studentById at hs
          simpa using List.find?_some hs
        cases hrf : studentStaffRefusal (α := StudentOut) db user s with
        | some r =>
          have h2 := studentStaffRefusal_success db user s r hrf
          simp [hr, hp, hs, hrf, h2] at h
        | none =>
          cases hu : updateStudent db sid s body with
          | none => simp [hr, hp, hs, hrf, hu, errorResponse] at h
          | some res =>
            obtain ⟨s1, db1⟩ := res
            refine ⟨s, s1, db1, by rw [hsid], by rw [hsid]; exact hs, by rw [hsid]; exact hu, ?_⟩
            simp [hr, hs, hrf, hu]

theorem teachersPatch_success (db : Db) (user : Identity) (idParam : String)
    (body : TeacherPatchBody) (h : (teachersPatch db user idParam body).1.success = true) :
    ∃ t t1 db1, parseInt idParam = some t.id ∧ teacherById db t.id = some t
      ∧ updateTeacher db t.id t body = some (t1, db1)
      ∧ teachersPatch db user idParam body =
          (successResponse (some (includeTeacher db1 t1)) "Öğretmen bilgileri güncellendi", db1) := by
  unfold teachersPatch at h ⊢
  simp only [] at h ⊢
  by_cases hr : notAdminOrManager user.role = true
  · simp [hr, errorResponse] at h
  · cases hp : parseInt idParam with
    | none => simp [hr, hp, errorResponse] at h
    | some tid =>
      cases ht : teacherById db tid with
      | none => simp [hr, hp, ht, errorResponse] at h
      | some t =>
        have htid : t.id = tid := by
          unfold teacherById at ht
          simpa using List.find?_some ht
        by_cases hrf : teacherManagerRefused db user t = true
        · simp [hr, hp, ht, hrf, errorResponse] at h
        · cases hu : updateTeacher db tid t body with
          | none => simp [hr, hp, ht, hrf, hu, errorResponse] at h
          | some res =>
            obtain ⟨t1, db1⟩ := res
            refine ⟨t, t1, db1, by rw [htid], by rw [htid]; exact ht, by rw [htid]; exact hu, ?_⟩
            simp [hr, ht, hrf, hu]

/-- C17 as stated fails: an admin patches student 1 with the supplied fields
`name: ""` and `parentId: null`; the request succeeds and the stored name and
parent link keep their previous values instead of taking the supplied ones. -/
theorem studentsPatch_ignores_falsy_fields :
    studentById sampleDb 1 = some ⟨1, "Can", "5A", 1, some 1, some 40⟩
    ∧ (studentsPatch sampleDb ⟨1, "admin"⟩ "1" ⟨.str "", .undefined, .null, .undefined⟩).1.success
        = true
    ∧ studentById
        (studentsPatch sampleDb ⟨1, "admin"⟩ "1" ⟨.str "", .undefined, .null, .undefined⟩).2 1
        = some ⟨1, "Can", "5A", 1, some 1, some 40⟩
    ∧ ("Can" : String) ≠ "" := by
  decide

/-- C17, amended: in every successful `PATCH /students/:id` and
`PATCH /teachers/:id`, each patchable field whose body value is truthy takes
that value, each field whose body value is absent or falsy (also a supplied "",
0, false or null) keeps its previous value, `id` and `schoolId` never change,
no row with another id is modified, and the other tables are unchanged. -/
theorem patch_changes_only_truthy_fields (db : Db) (user : Identity) (idParam : String)
    (studentBody : StudentPatchBody) (teacherBody : TeacherPatchBody) :
    ((studentsPatch db user idParam studentBody).1.success = true →
      ∃ s s1, parseInt idParam = some s.id ∧ studentById db s.id = some s
        ∧ (studentsPatch db user idParam studentBody).1.data
            = some (includeStudent (studentsPatch db user idParam studentBody).2 s1)
        ∧ s1.id = s.id ∧ s1.schoolId = s.schoolId
        ∧ PatchedStr studentBody.name s.name s1.name
        ∧ PatchedStr studentBody.grade s.grade s1.grade
        ∧ PatchedInt studentBody.parentId s.parentId s1.parentId
        ∧ PatchedInt studentBody.userId s.userId s1.userId
        ∧ (∃ f : Student → Student,
            (studentsPatch db user idParam studentBody).2.students = db.students.map f
            ∧ f s = s1 ∧ ∀ r, r.id ≠ s.id → f r = r)
        ∧ (studentsPatch db user idParam studentBody).2.teachers = db.teachers)
    ∧ ((teachersPatch db user idParam teacherBody).1.success = true →
      ∃ t t1, parseInt idParam = some t.id ∧ teacherById db t.id = some t
        ∧ (teachersPatch db user idParam teacherBody).1.data
            = some (includeTeacher (teachersPatch db user idParam teacherBody).2 t1)
        ∧ t1.id = t.id ∧ t1.schoolId = t.schoolId
        ∧ PatchedStr teacherBody.name t.name t1.name
        ∧ PatchedStr teacherBody.subject t.subject t1.subject
        ∧ PatchedStr teacherBody.className t.className t1.className
        ∧ PatchedInt teacherBody.userId t.userId t1.userId
        ∧ (∃ f : Teacher → Teacher,
            (teachersPatch db user idParam teacherBody).2.teachers = db.teachers.map f
            ∧ f t = t1 ∧ ∀ r, r.id ≠ t.id → f r = r)
        ∧ (teachersPatch db user idParam teacherBody).2.students = db.students) := by
  constructor
  · intro h
    obtain ⟨s, s1, db1, hp, hs, hu, heq⟩ := studentsPatch_success db user idParam studentBody h
    obtain ⟨h1, h2, h3, h4, h5, h6, h7, -, -, h10, -⟩ :=
      updateStudent_spec db db1 s.id s s1 studentBody rfl hu
    rw [heq]
    exact ⟨s, s1, hp, hs, rfl, h1, h2, h3, h4, h5, h6, h7, h10⟩
  · intro h
    obtain ⟨t, t1, db1, hp, ht, hu, heq⟩ := teachersPatch_success db user idParam teacherBody h
    obtain ⟨h1, h2, h3, h4, h5, h6, h7, -, -, h10, -⟩ :=
      updateTeacher_spec db db1 t.id t t1 teacherBody rfl hu
    rw [heq]
    exact ⟨t, t1, hp, ht, rfl, h1, h2, h3, h4, h5, h6, h7, h10⟩

/-- C17, a concrete run: an admin patches student 1 with `name: "Cem"` alone; the
stored name becomes "Cem" and the school is the previous one. -/
theorem patch_changes_only_truthy_fields_witness :
    ∃ s s1 : Student, parseInt "1" = some s.id ∧ studentById sampleDb s.id = some s
      ∧ s1.schoolId = s.schoolId ∧ PatchedStr (.str "Cem") s.name s1.name
      ∧ PatchedStr .undefined s.grade s1.grade := by
  obtain ⟨s, s1, h1, h2, -, -, h5, h6, h7, -⟩ :=
    (patch_changes_only_truthy_fields sampleDb ⟨1, "admin"⟩ "1"
      ⟨.str "Cem", .undefined, .undefined, .undefined⟩
      ⟨.undefined, .undefined, .undefined, .undefined⟩).1 (by decide)
  exact ⟨s, s1, h1, h2, h5, h6, h7⟩

/-! ### Auth routes: exceptions -/

/-- C18 as stated fails: in `POST /refresh` an exception is converted to 403, not
500, both when the presented token does not verify and when the store lookup
throws for a token that does verify. -/
theorem refresh_exception_is_forbidden :
    refreshTry toyJwt setEnv noFaults 200 accountDb (.str "junk") = none
    ∧ (refresh toyJwt setEnv noFaults 200 accountDb (.str "junk")).1.status = 403
    ∧ toyVerify "s2.r.1.604900" (some "s2") 200 = some ⟨1, none⟩
    ∧ refreshTry toyJwt setEnv ⟨true, false⟩ 200 accountDb (.str "s2.r.1.604900") = none
    ∧ (refresh toyJwt setEnv ⟨true, false⟩ 200 accountDb (.str "s2.r.1.604900")).1.status = 403 := by
  decide

/-- C18, amended: in register, login, me, change-password and logout an exception
raised inside the `try` block is converted to a response with status 500, and
in refresh to a response with status 403; the store is left as it was.  A store
failure at the handler's lookup or write is such an exception. -/
theorem auth_exceptions_are_converted (jwt : JwtLib) (bcrypt : BcryptLib) (env : ProcessEnv)
    (faults : Faults) (now : Nat) (db : Db) (user : Identity) (registerBody : RegisterBody)
    (loginBody : LoginBody) (passwordBody : ChangePasswordBody) (refreshToken : JsVal) :
    (registerTry bcrypt faults db registerBody = none →
      (register bcrypt faults db registerBody).1.status = 500
      ∧ (register bcrypt faults db registerBody).2 = db)
    ∧ (loginTry jwt bcrypt env faults now db loginBody = none →
      (login jwt bcrypt env faults now db loginBody).1.status = 500
      ∧ (login jwt bcrypt env faults now db loginBody).2 = db)
    ∧ (meTry faults db user = none → (me faults db user).status = 500)
    ∧ (changePasswordTry bcrypt faults db user passwordBody = none →
      (changePassword bcrypt faults db user passwordBody).1.status = 500
      ∧ (changePassword bcrypt faults db user passwordBody).2 = db)
    ∧ (logoutTry faults db user = none →
      (logout faults db user).1.status = 500 ∧ (logout faults db user).2 = db)
    ∧ (refreshToken.truthy = true → refreshTry jwt env faults now db refreshToken = none →
      (refresh jwt env faults now db refreshToken).1.status = 403
      ∧ (refresh jwt env faults now db refreshToken).2 = db)
    ∧ (faults.find = true →
      (∀ email, registerBody.email = .str email → registerTry bcrypt faults db registerBody = none)
      ∧ (∀ email, loginBody.email = .str email →
          loginTry jwt bcrypt env faults now db loginBody = none)
      ∧ meTry faults db user = none
      ∧ (passwordBody.oldPassword.truthy = true → passwordBody.newPassword.truthy = true →
          changePasswordTry bcrypt faults db user passwordBody = none)
      ∧ (∀ token decoded, refreshToken = .str token →
          jwt.verify token (some (CONFIG env).jwtRefreshSecret) now = some decoded →
          refreshTry jwt env faults now db refreshToken = none))
    ∧ (faults.write = true → logoutTry faults db user = none) := by
  refine ⟨?_, ?_, ?_, ?_, ?_, ?_, ?_, ?_⟩
  · intro h; simp [register, h, errorResponse]
  · intro h; simp [login, h, errorResponse]
  · intro h; simp [me, h, errorResponse]
  · intro h; simp [changePassword, h, errorResponse]
  · intro h; simp [logout, h, errorResponse]
  · intro ht h; simp [refresh, ht, h, errorResponse]
  · intro hf
    refine ⟨?_, ?_, ?_, ?_, ?_⟩
    · intro email he; simp [registerTry, he, hf]
    · intro email he; simp [loginTry, he, hf]
    · simp [meTry, hf]
    · intro h1 h2; simp [changePasswordTry, h1, h2, hf]
    · intro token decoded ht hv; simp [refreshTry, ht, hv, hf]
  · intro hw; simp [logoutTry, hw]

/-- C18, concrete runs: with the store lookup failing, login is answered 500 and
a refresh with a token that verifies is answered 403. -/
theorem auth_exceptions_are_converted_witness :
    (login toyJwt toyBcrypt setEnv ⟨true, false⟩ 200 accountDb
      ⟨.str "ada@example.org", .str "pw"⟩).1.status = 500
    ∧ (refresh toyJwt setEnv ⟨true, false⟩ 200 accountDb (.str "s2.r.1.604900")).1.status = 403 := by
  have h := auth_exceptions_are_converted toyJwt toyBcrypt setEnv ⟨true, false⟩ 200 accountDb
    ⟨1, "admin"⟩ ⟨.undefined, .undefined, .undefined, .undefined⟩
    ⟨.str "ada@example.org", .str "pw"⟩ ⟨.undefined, .undefined⟩ (.str "s2.r.1.604900")
  obtain ⟨-, hlogin, -, -, -, hrefresh, hfind, -⟩ := h
  obtain ⟨-, hl, -, -, hr⟩ := hfind rfl
  exact ⟨(hlogin (hl _ rfl)).1, (hrefresh (by decide) (hr _ ⟨1, none⟩ rfl (by decide))).1⟩

/-! ### Roles of registered accounts -/

theorem patchedStr_of_roleOrUser (v : JsVal) (r : String) (h : roleOrUser v = some r) :
    PatchedStr v "user" r := by
  cases v with
  | str t =>
    by_cases ht : t = ""
    · simp [roleOrUser, ht] at h; subst h; simp [PatchedStr, JsVal.truthy, ht]
    · simp [roleOrUser, ht] at h; subst h; simp [PatchedStr, JsVal.truthy, ht]
  | undefined => simp [roleOrUser, JsVal.truthy] at h; subst h; simp [PatchedStr, JsVal.truthy]
  | null => simp [roleOrUser, JsVal.truthy] at h; subst h; simp [PatchedStr, JsVal.truthy]
  | bool b =>
    cases b
    · simp [roleOrUser, JsVal.truthy] at h; subst h; simp [PatchedStr, JsVal.truthy]
    · simp [roleOrUser, JsVal.truthy] at h
  | num n =>
    by_cases hn : n = 0
    · simp [roleOrUser, JsVal.truthy, hn] at h; subst h; simp [PatchedStr, JsVal.truthy, hn]
    · simp [roleOrUser, JsVal.truthy, hn] at h

/-- C19 as stated fails: a registration without `role` stores the role "user",
and one with `role: "root"` stores "root"; neither is one of the five roles, and
after a login the identity that `authMiddleware` hands to the route handlers
carries the role "user". -/
theorem register_stores_role_outside_the_five :
    (register toyBcrypt noFaults accountDb
      ⟨.str "Bo", .str "bo@example.org", .str "x", .undefined⟩).1.data.map User.role = some "user"
    ∧ "user" ∉ fiveRoles
    ∧ (register toyBcrypt noFaults accountDb
      ⟨.str "Bo", .str "bo@example.org", .str "x", .str "root"⟩).1.data.map User.role = some "root"
    ∧ "root" ∉ fiveRoles
    ∧ (login toyJwt toyBcrypt setEnv noFaults 100
        (register toyBcrypt noFaults accountDb
          ⟨.str "Bo", .str "bo@example.org", .str "x", .undefined⟩).2
        ⟨.str "bo@example.org", .str "x"⟩).1.data.map (fun d => d.accessToken)
      = some "s1.auser.2.7300"
    ∧ authMiddleware (verifyIdentity toyJwt 150) setEnv.JWT_SECRET (some "Bearer s1.auser.2.7300")
      = .next ⟨2, "user"⟩ := by
  decide

/-- C19, amended: every account created by `POST /register` has the role sent
in the body when that is a non-empty string, and the role "user" when the body
has no role or a falsy one; the role is one of the five exactly when the body
names one of the five.  An identity whose role is not one of the five is
answered 403 by the three list handlers. -/
theorem register_role_is_body_role_or_user (bcrypt : BcryptLib) (faults : Faults) (db : Db)
    (body : RegisterBody) (user : Identity) :
    ((register bcrypt faults db body).1.success = true →
      ∃ row, (register bcrypt faults db body).1.data = some row
        ∧ (register bcrypt faults db body).2.users = db.users ++ [row]
        ∧ PatchedStr body.role "user" row.role
        ∧ (row.role ∈ fiveRoles ↔ ∃ r ∈ fiveRoles, body.role = .str r))
    ∧ (user.role ∉ fiveRoles →
      (studentsGet db user).status = 403 ∧ (parentsGet db user).status = 403
      ∧ (teachersGet db user).status = 403) := by
  constructor
  · intro h
    rcases register_cases bcrypt faults db body with
      ⟨-, h1, -⟩ | ⟨e, pw, n, r, -, -, -, hr, -, h1⟩
    · rw [h1] at h; cases h
    · have hp := patchedStr_of_roleOrUser body.role r hr
      refine ⟨⟨freshId (db.users.map User.id), n, e, bcrypt.hash pw, r, none⟩,
        by rw [h1]; rfl, by rw [h1], hp, ?_⟩
      show r ∈ fiveRoles ↔ _
      constructor
      · intro hmem
        cases ht : body.role.truthy with
        | false =>
          have := hp.1 ht
          rw [this] at hmem
          exact absurd hmem (by decide)
        | true => exact ⟨r, hmem, hp.2 ht⟩
      · rintro ⟨r1, hr1, hb⟩
        have hne : r1 ≠ "" := by
          intro h0
          rw [h0] at hr1
          exact absurd hr1 (by decide)
        have ht : body.role.truthy = true := by simp [hb, JsVal.truthy, hne]
        have := hp.2 ht
        rw [hb] at this
        cases this
        exact hr1
  · intro hrole
    simp only [fiveRoles, List.mem_cons, List.mem_singleton, List.not_mem_nil, or_false,
      not_or] at hrole
    obtain ⟨h1, h2, h3, h4, h5⟩ := hrole
    refine ⟨?_, ?_, ?_⟩
    · simp [studentsGet, studentsGetRows, h1, h2, h3, h4, h5, errorResponse]
    · simp [parentsGet, parentsGetRows, h1, h2, h3, h4, errorResponse]
    · simp [teachersGet, teachersGetRows, h1, h2, h3, errorResponse]

/-- C19, concrete runs: a registration naming the role "teacher" stores that
role, and an identity with the role "user" is answered 403 by `GET /students`. -/
theorem register_role_is_body_role_or_user_witness :
    (∃ row, (register toyBcrypt noFaults accountDb
        ⟨.str "Bo", .str "bo@example.org", .str "x", .str "teacher"⟩).1.data = some row
      ∧ PatchedStr (.str "teacher") "user" row.role)
    ∧ (studentsGet accountDb ⟨2, "user"⟩).status = 403 := by
  have h := register_role_is_body_role_or_user toyBcrypt noFaults accountDb
    ⟨.str "Bo", .str "bo@example.org", .str "x", .str "teacher"⟩ ⟨2, "user"⟩
  obtain ⟨row, h1, -, h3, -⟩ := h.1 (by decide)
  exact ⟨⟨row, h1, h3⟩, (h.2 (by decide)).1⟩

/-! ### Signing and verifying secrets -/

/-- With `JWT_SECRET` unset, and a library whose `verify` throws when it is
given no secret, `authMiddleware` answers every bearer token with 403. -/
theorem bearer_refused_without_env_secret (jwt : JwtLib) (env : ProcessEnv) (now : Nat)
    (rest : String) (hunset : env.JWT_SECRET = none)
    (hlib : ∀ token n, jwt.verify token none n = none) :
    authMiddleware (verifyIdentity jwt now) env.JWT_SECRET (some ("Bearer " ++ rest)) =
      .respond (errorResponse "Geçersiz veya süresi dolmuş token" 403) := by
  rw [authMiddleware_bearer, hunset]
  simp [verifyIdentity, hlib]

/-- With `JWT_SECRET` set to a non-empty secret, and a library that verifies what
it signed under the same secret and signs tokens without spaces, the access
token of a successful login is accepted and `req.user` is the signed `id` and
`role`. -/
theorem login_token_accepted_with_env_secret (jwt : JwtLib) (bcrypt : BcryptLib)
    (env : ProcessEnv) (faults : Faults) (now now2 : Nat) (db : Db) (body : LoginBody)
    (secret : String) (d : LoginData)
    (henv : env.JWT_SECRET = some secret) (hne : secret ≠ "")
    (hround : ∀ p, jwt.verify (jwt.sign p secret accessTtl now) (some secret) now2 = some p)
    (hnospace : ∀ p, ' ' ∉ (jwt.sign p secret accessTtl now).data)
    (hd : (login jwt bcrypt env faults now db body).1.data = some d) :
    authMiddleware (verifyIdentity jwt now2) env.JWT_SECRET (some ("Bearer " ++ d.accessToken)) =
      .next ⟨d.user.id, d.user.role⟩ := by
  rcases login_cases jwt bcrypt env faults now db body with
    ⟨-, -, h⟩ | ⟨e, pw, user, -, -, -, -, h⟩
  · rw [h] at hd; cases hd
  · rw [h] at hd
    simp only [successResponse, Option.some.injEq] at hd
    subst hd
    have hcfg : (CONFIG env).jwtSecret = secret := by simp [CONFIG, orFallback, henv, hne]
    have htake : ∀ t : String, ' ' ∉ t.data →
        String.mk (t.data.takeWhile (fun c => c != ' ')) = t := by
      intro t ht
      have : t.data.takeWhile (fun c => c != ' ') = t.data := by
        rw [List.takeWhile_eq_self_iff]
        intro c hc
        have : c ≠ ' ' := fun h0 => ht (h0 ▸ hc)
        simpa using this
      rw [this]
    rw [authMiddleware_bearer, henv]
    simp only [issueAccessToken, hcfg]
    rw [htake _ (hnospace _)]
    simp [verifyIdentity, hround]

/-- C20 fails on the code: with `JWT_SECRET` unset, login signs the access token
with the fallback key of `CONFIG.jwtSecret`, while `authMiddleware` verifies with
`process.env.JWT_SECRET`, which is undefined; the unexpired token of a successful
login, valid under the signing key, is answered 403.  With the variable set the
same token flow reaches `next()` with the signed `id` and `role`. -/
theorem login_token_refused_when_secret_unset :
    unsetEnv.JWT_SECRET = none
    ∧ (CONFIG unsetEnv).jwtSecret = "fallback_secret_key"
    ∧ (login toyJwt toyBcrypt unsetEnv noFaults 100 accountDb
        ⟨.str "ada@example.org", .str "pw"⟩).1.data.map (fun d => d.accessToken)
      = some "fallback_secret_key.aadmin.1.7300"
    ∧ toyJwt.verify "fallback_secret_key.aadmin.1.7300" (some "fallback_secret_key") 200
      = some ⟨1, some "admin"⟩
    ∧ authMiddleware (verifyIdentity toyJwt 200) unsetEnv.JWT_SECRET
        (some "Bearer fallback_secret_key.aadmin.1.7300")
      = .respond (errorResponse "Geçersiz veya süresi dolmuş token" 403)
    ∧ (login toyJwt toyBcrypt setEnv noFaults 100 accountDb
        ⟨.str "ada@example.org", .str "pw"⟩).1.data.map (fun d => d.accessToken)
      = some "s1.aadmin.1.7300"
    ∧ authMiddleware (verifyIdentity toyJwt 200) setEnv.JWT_SECRET (some "Bearer s1.aadmin.1.7300")
      = .next ⟨1, "admin"⟩ := by
  decide

/-! ### Parents: students linked and embedded -/

theorem studentIdList_ne_nil (v : JsVal) (vs : List JsVal) (ids : List Int)
    (h : studentIdList (v :: vs) = some ids) : ids ≠ [] := by
  cases v with
  | num n =>
    simp only [studentIdList, Option.map_eq_some'] at h
    obtain ⟨ns, -, rfl⟩ := h
    simp
  | undefined => simp [studentIdList] at h
  | null => simp [studentIdList] at h
  | bool b => simp [studentIdList] at h
  | str t => simp [studentIdList] at h

theorem studentById_isSome (db : Db) (i : Int) (h : (studentById db i).isSome = true) :
    ∃ s ∈ db.students, s.id = i := by
  cases hs : studentById db i with
  | none => rw [hs] at h; cases h
  | some s =>
    unfold studentById at hs
    exact ⟨s, List.mem_of_find?_eq_some hs, by simpa using List.find?_some hs⟩

theorem createParent_links (db db1 : Db) (body : ParentBody) (row : Parent) (ids : List Int)
    (hids : hasStudentIds body = true)
    (hl : studentIdList (body.studentIds.getD []) = some ids)
    (h : createParent db body = some (row, db1)) :
    ∀ i ∈ ids, (studentById db i).isSome = true := by
  unfold createParent at h
  split at h
  · rename_i name phone email userId links h1 h2 h3 h4 h5
    unfold linkedStudentIds at h5
    simp only [hids, if_true, hl] at h5
    split at h5
    · rename_i hall
      intro i hi
      exact List.all_eq_true.mp hall i hi
    · cases h5
  · cases h

/-- The rule of `POST /parents` for a manager: a request with a non-empty
`studentIds` succeeds only when the manager owns a school, every listed id is the
id of a stored student, and every stored student with a listed id is in that
school. -/
theorem parentsPost_manager_links_own_school (db : Db) (user : Identity) (body : ParentBody)
    (hrole : user.role = "manager") (hids : hasStudentIds body = true)
    (hsucc : (parentsPost db user body).1.success = true) :
    ∃ sc ids, schoolOfManager db user.id = some sc
      ∧ studentIdList (body.studentIds.getD []) = some ids ∧ ids ≠ []
      ∧ (∀ i ∈ ids, ∃ s ∈ db.students, s.id = i)
      ∧ ∀ s ∈ db.students, s.id ∈ ids → s.schoolId = sc.id := by
  have hna : notAdminOrManager user.role = false := by rw [hrole]; decide
  unfold parentsPost at hsucc
  simp only [hna, Bool.false_eq_true, if_false] at hsucc
  cases hn : body.name.truthy with
  | false => simp [hn, errorResponse] at hsucc
  | true =>
    rw [hn] at hsucc
    simp only [Bool.not_true, Bool.false_eq_true, if_false] at hsucc
    cases hr : parentsPostManagerRefused db user body with
    | none => rw [hr] at hsucc; simp [errorResponse] at hsucc
    | some refused =>
      cases refused with
      | true => rw [hr] at hsucc; simp [errorResponse] at hsucc
      | false =>
        rw [hr] at hsucc
        cases hc : createParent db body with
        | none => rw [hc] at hsucc; simp [errorResponse] at hsucc
        | some res =>
          obtain ⟨row, db1⟩ := res
          unfold parentsPostManagerRefused at hr
          rw [if_pos ⟨hrole, hids⟩] at hr
          cases hl : studentIdList (body.studentIds.getD []) with
          | none => rw [hl] at hr; cases hr
          | some ids =>
          rw [hl] at hr
          have hinv : (db.students.filter fun s =>
              ids.contains s.id &&
                (match schoolOfManager db user.id with
                  | some managerSchool => s.schoolId != managerSchool.id
                  | none => true)).isEmpty = true := by
            simpa using hr
          have hne : ids ≠ [] := by
            unfold hasStudentIds at hids
            split at hids
            · rename_i v vs hb
              rw [hb] at hl
              exact studentIdList_ne_nil v vs ids hl
            · cases hids
          have hex := createParent_links db db1 body row ids hids hl hc
          have hexs : ∀ i ∈ ids, ∃ s ∈ db.students, s.id = i :=
            fun i hi => studentById_isSome db i (hex i hi)
          rw [List.isEmpty_iff, List.filter_eq_nil_iff] at hinv
          cases hsch : schoolOfManager db user.id with
          | none =>
            obtain ⟨i, hi⟩ := List.exists_mem_of_ne_nil ids hne
            obtain ⟨s, hs, hsi⟩ := hexs i hi
            have := hinv s hs
            rw [hsch] at this
            simp [hsi, hi] at this
          | some sc =>
            refine ⟨sc, ids, rfl, rfl, hne, hexs, ?_⟩
            intro s hs hmem
            have := hinv s hs
            rw [hsch] at this
            simpa [hmem] using this

/-- C21 fails on the code: manager 10 owns school 1 and student 4 attends
school 2.  `POST /parents` with `studentIds: [4]` is refused with 403 and writes
nothing, yet `PATCH /parents/1` with the same `studentIds` succeeds and links
student 4 to parent 1. -/
theorem parentsPatch_links_student_of_other_school :
    schoolOfManager sampleDb 10 = some ⟨1, some 10⟩
    ∧ studentById sampleDb 4 = some ⟨4, "Su", "5A", 2, none, none⟩
    ∧ (parentsPost sampleDb ⟨10, "manager"⟩
        ⟨.str "Yeni", .undefined, .undefined, .undefined, some [.num 4]⟩).1.status = 403
    ∧ (parentsPost sampleDb ⟨10, "manager"⟩
        ⟨.str "Yeni", .undefined, .undefined, .undefined, some [.num 4]⟩).2 = sampleDb
    ∧ (parentsPatch sampleDb ⟨10, "manager"⟩ "1"
        ⟨.undefined, .undefined, .undefined, .undefined, some [.num 4]⟩).1.success = true
    ∧ studentById
        (parentsPatch sampleDb ⟨10, "manager"⟩ "1"
          ⟨.undefined, .undefined, .undefined, .undefined, some [.num 4]⟩).2 4
      = some ⟨4, "Su", "5A", 2, some 1, none⟩
    ∧ (parentsPatch sampleDb ⟨10, "manager"⟩ "1"
        ⟨.undefined, .undefined, .undefined, .undefined, some [.num 4]⟩).1.data.map
          (fun out => out.students)
      = some [⟨4, "Su", "5A", 2, some 1, none⟩] := by
  decide

/-- C22 fails on the code: parent 1 has a child in school 1 and a child, student
5, in school 2.  Manager 10 of school 1 and the teacher of class "5A" in school 1
are refused student 5 by `GET /students/:id`, yet `GET /parents` and
`GET /parents/:id` hand both of them parent 1 with student 5 embedded in its
students list. -/
theorem parent_responses_embed_students_out_of_scope :
    schoolOfManager mixedFamilyDb 10 = some ⟨1, some 10⟩
    ∧ teacherOfUser mixedFamilyDb 20 = some ⟨1, "Ayşe", "math", "5A", 1, some 20⟩
    ∧ (studentsGetOne mixedFamilyDb ⟨10, "manager"⟩ "5").status = 403
    ∧ (studentsGetOne mixedFamilyDb ⟨20, "teacher"⟩ "5").status = 403
    ∧ (parentsGet mixedFamilyDb ⟨10, "manager"⟩).data.map
        (fun outs => outs.map fun out => out.students)
      = some [[⟨1, "Can", "5A", 1, some 1, none⟩, ⟨5, "Naz", "7C", 2, some 1, none⟩]]
    ∧ (parentsGetOne mixedFamilyDb ⟨10, "manager"⟩ "1").data.map
        (fun d => d.students.map fun s => s.row)
      = some [⟨1, "Can", "5A", 1, some 1, none⟩, ⟨5, "Naz", "7C", 2, some 1, none⟩]
    ∧ (parentsGet mixedFamilyDb ⟨20, "teacher"⟩).data.map
        (fun outs => outs.map fun out => out.students)
      = some [[⟨1, "Can", "5A", 1, some 1, none⟩, ⟨5, "Naz", "7C", 2, some 1, none⟩]]
    ∧ (parentsGetOne mixedFamilyDb ⟨20, "teacher"⟩ "1").data.map
        (fun d => d.students.map fun s => s.row)
      = some [⟨1, "Can", "5A", 1, some 1, none⟩, ⟨5, "Naz", "7C", 2, some 1, none⟩] := by
  decide

end PTS
